import Mathlib

/-! PLC charging control core (`drivers/power/oplus/v2/oplus_chg_plc.c`)

A shallow embedding of the control core of the PLC driver.  C `int` values are
modelled as `Int`; C division and remainder are the truncating `Int.tdiv` and
`Int.tmod`.  Arithmetic is modelled without wrap-around: signed overflow is
undefined in C and none of the quantities below (state of charge, milliamps,
tick counts) comes near the 32-bit limits.

The external collaborators (vote arbitration, telemetry topics, the work
queue) are modelled by a record of the values the driver reads from them
during one entry into the driver (`plc_world`) and by the ordered list of
requests the driver issues (`plc_effect`).
-/

namespace OplusPlc

/-! ## Constants -/

/-- `PLC_IBAT_AVG_NUM` (oplus_chg_plc.c:33). -/
def PLC_IBAT_AVG_NUM : Int := 10

/-- `PLC_IBUS_MAX` (oplus_chg_plc.h:10). -/
def PLC_IBUS_MAX : Int := 1500

/-- `PLC_IBUS_MIN` (oplus_chg_plc.h:11). -/
def PLC_IBUS_MIN : Int := 200

/-- `PLC_IBUS_DEFAULT` (oplus_chg_plc.h:12). -/
def PLC_IBUS_DEFAULT : Int := 500

/-- `PLC_DELTA_ISTEP` (oplus_chg_plc.c:566). -/
def PLC_DELTA_ISTEP : Int := 50

/-- `PLC_DELTA_SOC_MAX` (oplus_chg_plc.c:603). -/
def PLC_DELTA_SOC_MAX : Int := 3

/-- `PLC_IBAT_LOW_CNTS` (oplus_chg_plc.c:659). -/
def PLC_IBAT_LOW_CNTS : Int := 4

/-- `PLC_IBUS_HIGH_CNTS` (oplus_chg_plc.c:660). -/
def PLC_IBUS_HIGH_CNTS : Int := 4

/-- `PLC_IBUS_HIGH_MAX` (oplus_chg_plc.c:661). -/
def PLC_IBUS_HIGH_MAX : Int := 600

/-- `PLC_SUSPEND_DELAY` (oplus_chg_plc.c:662). -/
def PLC_SUSPEND_DELAY : Int := 1000

/-- `PLC_MONITOR_CURRENT_DELAY` (oplus_chg_plc.c:710). -/
def PLC_MONITOR_CURRENT_DELAY : Int := 1000

/-- `PLC_DISABLE_WAIT_DELAY` (oplus_chg_plc.c:992). -/
def PLC_DISABLE_WAIT_DELAY : Int := 1000

/-- Modelled from the spec: the enum constant `PLC_STATUS_NOT_ALLOW` is declared
in a header that is not part of the sources; the spec lists the states as
`{ NotAllowed, Disable, Wait, Enable }`, numbered here in that order. -/
def PLC_STATUS_NOT_ALLOW : Int := 0

/-- Modelled from the spec: the enum constant `PLC_STATUS_DISABLE`, second of
`{ NotAllowed, Disable, Wait, Enable }`. -/
def PLC_STATUS_DISABLE : Int := 1

/-- Modelled from the spec: the enum constant `PLC_STATUS_WAIT`, third of
`{ NotAllowed, Disable, Wait, Enable }`. -/
def PLC_STATUS_WAIT : Int := 2

/-- Modelled from the spec: the enum constant `PLC_STATUS_ENABLE`, fourth of
`{ NotAllowed, Disable, Wait, Enable }`. -/
def PLC_STATUS_ENABLE : Int := 3

/-- Modelled from the spec: the enum constant `CHG_PROTOCOL_UFCS` (the
"high-power protocol" kind) is declared in `oplus_chg_cpa.h`, which is not part
of the sources.  The driver only compares `plc_support` with it. -/
def CHG_PROTOCOL_UFCS : Int := 2

/-- Modelled from the spec: the errno `EINVAL` comes from `linux/errno.h`; the
getters return `-EINVAL` for "no value". -/
def EINVAL : Int := 22

/-- The `enum plc_track_type` value `PLC_TRACK_SOC_EXIT` (oplus_chg_plc.c:57). -/
def PLC_TRACK_SOC_EXIT : Int := 0

/-- The `enum plc_track_type` value `PLC_TRACK_IBAT_EXIT` (oplus_chg_plc.c:58). -/
def PLC_TRACK_IBAT_EXIT : Int := 1

/-- The `enum plc_track_type` value `PLC_TRACK_IBUS_ENTER` (oplus_chg_plc.c:59). -/
def PLC_TRACK_IBUS_ENTER : Int := 2

/-- The `enum plc_track_type` value `PLC_TRACK_SOC_ADD` (oplus_chg_plc.c:60). -/
def PLC_TRACK_SOC_ADD : Int := 3

/-! ## The delta-current table (oplus_chg_plc.c:68-81, 561-595) -/

/-- `struct ibat_delta` (oplus_chg_plc.c:68). -/
structure ibat_delta where
  ibat : Int
  ibus : Int
  deriving DecidableEq, Repr

/-- `plc_ibus_table` (oplus_chg_plc.c:73). -/
def plc_ibus_table : List ibat_delta :=
  [⟨0, 0⟩, ⟨100, 50⟩, ⟨200, 100⟩, ⟨400, 200⟩, ⟨600, 300⟩, ⟨800, 400⟩, ⟨10000, 500⟩]

/-- `plc_ibus_table[i]`. -/
def table_at (i : Nat) : ibat_delta := plc_ibus_table.getD i ⟨0, 0⟩

/-- `sizeof(plc_ibus_table) / sizeof(struct ibat_delta)`. -/
def asize : Nat := plc_ibus_table.length

/-- The kernel's `abs()` on an `int`. -/
def c_abs (x : Int) : Int := if x < 0 then -x else x

/-- The `for (i = 1; i < asize; i++)` loop of `oplus_plc_get_delta_ibat`
(oplus_chg_plc.c:580-588), run over the table entries still to be visited.
The loop variables are `(ibat1, ibus1, ibat2, ibus2)`; the first entry whose
threshold exceeds `x` sets `ibat2`, `ibus2` and breaks, every earlier entry
becomes `ibat1`, `ibus1`. -/
def delta_loop (x : Int) : List ibat_delta → Int × Int × Int × Int → Int × Int × Int × Int
  | [], st => st
  | e :: rest, (ibat1, ibus1, ibat2, ibus2) =>
    if x < e.ibat then (ibat1, ibus1, e.ibat, e.ibus)
    else delta_loop x rest (e.ibat, e.ibus, ibat2, ibus2)

/-- The interpolated `delta_ibat` of `oplus_plc_get_delta_ibat` before the
scaling by the cell count (oplus_chg_plc.c:572-590), for `x = abs(avg_ibat)`. -/
def delta_interp (x : Int) : Int :=
  if x ≤ (table_at 0).ibat then (table_at 0).ibus
  else if x ≥ (table_at (asize - 1)).ibat then (table_at (asize - 1)).ibus
  else
    match delta_loop x plc_ibus_table.tail ((table_at 0).ibat, (table_at 0).ibus, 0, 0) with
    | (ibat1, ibus1, ibat2, ibus2) =>
      Int.tdiv ((x - ibat1) * ibus2 + (ibat2 - x) * ibus1) (ibat2 - ibat1)

/-- The value computed by `oplus_plc_get_delta_ibat` (oplus_chg_plc.c:561-595)
from the average battery current and the cell count returned by
`oplus_gauge_get_batt_num()`. -/
def plc_delta_ibat (avg_ibat batt_num : Int) : Int :=
  let delta_ibat := delta_interp (c_abs avg_ibat)
  let delta_ibat := delta_ibat * batt_num
  Int.tdiv delta_ibat PLC_DELTA_ISTEP * PLC_DELTA_ISTEP

/-! ## The SOC-band decision (oplus_chg_plc.c:610-650) -/

/-- The final clamp of `oplus_plc_check_plc_ibus` (oplus_chg_plc.c:647-650). -/
def ibus_clamp (ibus_plc : Int) : Int :=
  let ibus_plc := if ibus_plc < PLC_IBUS_MIN then PLC_IBUS_MIN else ibus_plc
  if ibus_plc > PLC_IBUS_MAX then PLC_IBUS_MAX else ibus_plc

/-- The `if` / `else if` chain of `oplus_plc_check_plc_ibus`
(oplus_chg_plc.c:610-645) followed by the clamp (647-650), as a function of the
values the function has read.  The first component tells whether the branch
taken is one of the three that run the SOC-exit block (diagnostic capture,
`oplus_plc_push_dischg_soc(chip, true)`, output-suspend vote); the second is
the returned `ibus_plc`. -/
def check_plc_ibus_core (init_ui_soc init_sm_soc soc_now plc_soc curr_vote delta_ibat
    avg_ibat : Int) : Bool × Int :=
  let delta_soc := soc_now - init_ui_soc
  let r : Bool × Int :=
    if init_ui_soc ≥ plc_soc then (true, PLC_IBUS_DEFAULT)
    else if init_ui_soc > init_sm_soc ∧ init_ui_soc > soc_now then (false, PLC_IBUS_MAX)
    else if init_ui_soc < init_sm_soc ∧ init_ui_soc < soc_now then
      if delta_soc ≥ PLC_DELTA_SOC_MAX then (true, PLC_IBUS_DEFAULT)
      else (false, PLC_IBUS_MIN)
    else if delta_soc < 0 then (false, PLC_IBUS_MAX)
    else if delta_soc = 0 then
      if avg_ibat > 0 then (false, curr_vote + delta_ibat)
      else (false, curr_vote - delta_ibat)
    else if delta_soc < PLC_DELTA_SOC_MAX then (false, PLC_IBUS_MIN)
    else (true, PLC_IBUS_DEFAULT)
  (r.1, ibus_clamp r.2)

/-! ## Driver state (oplus_chg_plc.c:36-54, 83-122) -/

/-- `struct plc_data` (oplus_chg_plc.c:36).  The two sample arrays are lists;
a well-formed instance has `PLC_IBAT_AVG_NUM` elements in each. -/
structure plc_data where
  ibat_index : Int
  ibat_cnts : Int
  ibus_index : Int
  ibus_cnts : Int
  init_soc : Int
  init_sm_soc : Int
  init_ui_soc : Int
  avg_ibat : Int
  avg_curr : Int
  avg_ibus : Int
  ibat_low : Int
  ibus_over : Int
  enable_cnts : Int
  plc_check : Bool
  init_status : Bool
  ibat_column : List Int
  ibus_column : List Int
  deriving DecidableEq, Repr

/-- `struct oplus_chg_plc` (oplus_chg_plc.c:83).  A votable pointer is modelled
by a flag telling whether it is non-NULL.  The topic and subscription
pointers, the work items and the diagnostic text buffer `plc_info` carry no
control state and are left out; what the driver asks of them is recorded as a
`plc_effect`. -/
structure oplus_chg_plc where
  ufcs_curr_votable : Bool
  ufcs_disable_votable : Bool
  ufcs_not_allow_votable : Bool
  output_suspend_votable : Bool
  plc_enable_votable : Bool
  wired_suspend_votable : Bool
  data : plc_data
  wired_online : Bool
  ufcs_online : Bool
  ufcs_charging : Bool
  plc_curr : Int
  ui_soc : Int
  sm_soc : Int
  plc_status : Int
  plc_support : Int
  plc_buck : Int
  plc_soc : Int
  deriving DecidableEq, Repr

/-- What the external collaborators answer during one entry into the driver.
A value read several times within one entry reads the same each time. -/
structure plc_world where
  /-- `find_votable("UFCS_CURR")` returns non-NULL. -/
  find_ufcs_curr : Bool
  /-- `find_votable("UFCS_DISABLE")` returns non-NULL. -/
  find_ufcs_disable : Bool
  /-- `find_votable("UFCS_NOT_ALLOW")` returns non-NULL. -/
  find_ufcs_not_allow : Bool
  /-- `find_votable("WIRED_CHARGING_DISABLE")` returns non-NULL. -/
  find_output_suspend : Bool
  /-- `find_votable("PLC_ENABLE")` returns non-NULL. -/
  find_plc_enable : Bool
  /-- `find_votable("WIRED_CHARGE_SUSPEND")` returns non-NULL. -/
  find_wired_suspend : Bool
  /-- `get_effective_result(chip->ufcs_curr_votable)`. -/
  ufcs_curr_result : Int
  /-- `get_client_vote(chip->ufcs_disable_votable, PLC_RETRY_VOTER)`. -/
  retry_vote : Int
  /-- `get_client_vote(chip->ufcs_not_allow_votable, PLC_VOTER)`. -/
  not_allow_plc_vote : Int
  /-- `get_client_vote(chip->ufcs_not_allow_votable, PLC_SOC_VOTER)`. -/
  not_allow_soc_vote : Int
  /-- `get_client_vote(chip->wired_suspend_votable, PLC_VOTER)`. -/
  charger_suspend_vote : Int
  /-- `get_client_vote(chip->plc_enable_votable, PLC_VOTER)`. -/
  plc_enable_vote : Int
  /-- The `intval` left in `data` by reading `GAUGE_ITEM_CURR` (0 when the read fails). -/
  gauge_curr : Int
  /-- The `intval` left in `data` by reading `GAUGE_ITEM_SOC`. -/
  gauge_soc : Int
  /-- `oplus_wired_get_ibus()`. -/
  wired_ibus : Int
  /-- `oplus_gauge_get_batt_num()`. -/
  batt_num : Int
  /-- `oplus_mms_alloc_msg` for the status item returns non-NULL. -/
  status_msg_alloc : Bool
  /-- The return code of `oplus_mms_publish_msg` for the status item. -/
  status_publish_rc : Int
  deriving DecidableEq, Repr

/-- The votables the driver casts votes on. -/
inductive plc_port where
  | output_suspend
  | wired_suspend
  | plc_enable
  deriving DecidableEq, Repr

/-- The delayed work items the driver schedules. -/
inductive plc_work where
  | plc_current_work
  | plc_disable_wait_work
  | plc_track_work
  | plc_vote_work
  deriving DecidableEq, Repr

/-- A request issued by the driver to an external collaborator. -/
inductive plc_effect where
  /-- `oplus_plc_push_plc_curr(chip)` while `chip->plc_curr` holds the value. -/
  | push_plc_curr (curr : Int)
  /-- `oplus_plc_push_dischg_plc(chip, disable)`: the discharge-normal item. -/
  | push_dischg_plc (disable : Bool)
  /-- `oplus_plc_push_dischg_soc(chip, disable)`: the discharge-soc item. -/
  | push_dischg_soc (disable : Bool)
  /-- `oplus_plc_push_dischg_retry(chip, disable)`: the discharge-retry item. -/
  | push_dischg_retry (disable : Bool)
  /-- `oplus_plc_publish_enable_cnts(chip)` while `enable_cnts` holds the value. -/
  | publish_enable_cnts (cnts : Int)
  /-- `oplus_mms_publish_msg` of the status item while `plc_status` holds the value. -/
  | publish_status (status : Int)
  /-- `vote(port, PLC_VOTER, enabled, val, false)`. -/
  | vote (port : plc_port) (enabled : Bool) (val : Int)
  /-- `msleep(ms)`. -/
  | msleep (ms : Int)
  /-- `schedule_delayed_work(work, msecs_to_jiffies(ms))`. -/
  | schedule (work : plc_work) (ms : Int)
  /-- `oplus_plc_get_deleta_track_msg(chip, type)` appends a diagnostic record. -/
  | track_msg (type : Int)
  deriving DecidableEq, Repr

/-- The driver instance together with the requests issued so far, oldest first. -/
structure plc_run where
  chip : oplus_chg_plc
  out : List plc_effect
  deriving DecidableEq, Repr

/-- Record one more request. -/
def emit (e : plc_effect) (s : plc_run) : plc_run :=
  { s with out := s.out ++ [e] }

/-- Replace the `data` member of the instance. -/
def set_data (d : plc_data) (s : plc_run) : plc_run :=
  { s with chip := { s.chip with data := d } }

/-! ## Vote getters (oplus_chg_plc.c:124-220) -/

/-- `is_ufcs_disable_votable_available` (oplus_chg_plc.c:124): looks the votable
up if it is not cached yet, caches the result, and reports whether it is there. -/
def is_ufcs_disable_votable_available (c : oplus_chg_plc) (w : plc_world) :
    oplus_chg_plc × Bool :=
  let c := if !c.ufcs_disable_votable then { c with ufcs_disable_votable := w.find_ufcs_disable }
    else c
  (c, c.ufcs_disable_votable)

/-- `is_ufcs_not_allow_votable_available` (oplus_chg_plc.c:131). -/
def is_ufcs_not_allow_votable_available (c : oplus_chg_plc) (w : plc_world) :
    oplus_chg_plc × Bool :=
  let c := if !c.ufcs_not_allow_votable then
      { c with ufcs_not_allow_votable := w.find_ufcs_not_allow }
    else c
  (c, c.ufcs_not_allow_votable)

/-- `is_output_suspend_votable_available` (oplus_chg_plc.c:138). -/
def is_output_suspend_votable_available (c : oplus_chg_plc) (w : plc_world) :
    oplus_chg_plc × Bool :=
  let c := if !c.output_suspend_votable then
      { c with output_suspend_votable := w.find_output_suspend }
    else c
  (c, c.output_suspend_votable)

/-- `is_ufcs_curr_votable_available` (oplus_chg_plc.c:145). -/
def is_ufcs_curr_votable_available (c : oplus_chg_plc) (w : plc_world) :
    oplus_chg_plc × Bool :=
  let c := if !c.ufcs_curr_votable then { c with ufcs_curr_votable := w.find_ufcs_curr }
    else c
  (c, c.ufcs_curr_votable)

/-- `is_plc_enable_votable_available` (oplus_chg_plc.c:152). -/
def is_plc_enable_votable_available (c : oplus_chg_plc) (w : plc_world) :
    oplus_chg_plc × Bool :=
  let c := if !c.plc_enable_votable then { c with plc_enable_votable := w.find_plc_enable }
    else c
  (c, c.plc_enable_votable)

/-- `is_wired_suspend_votable_available` (oplus_chg_plc.c:159). -/
def is_wired_suspend_votable_available (c : oplus_chg_plc) (w : plc_world) :
    oplus_chg_plc × Bool :=
  let c := if !c.wired_suspend_votable then
      { c with wired_suspend_votable := w.find_wired_suspend }
    else c
  (c, c.wired_suspend_votable)

/-- `oplus_plc_get_vote_curr` (oplus_chg_plc.c:174). -/
def oplus_plc_get_vote_curr (c : oplus_chg_plc) (w : plc_world) : Int :=
  if c.ufcs_online = true ∧ c.plc_support = CHG_PROTOCOL_UFCS then w.ufcs_curr_result
  else -EINVAL

/-- `oplus_plc_get_vote_disalbe_retry` (oplus_chg_plc.c:184). -/
def oplus_plc_get_vote_disalbe_retry (c : oplus_chg_plc) (w : plc_world) : Int :=
  if c.ufcs_online = true ∧ c.plc_support = CHG_PROTOCOL_UFCS then w.retry_vote
  else -EINVAL

/-- `oplus_plc_get_vote_allow_plc` (oplus_chg_plc.c:194): this core's `PLC_VOTER`
vote on the not-allow votable. -/
def oplus_plc_get_vote_allow_plc (c : oplus_chg_plc) (w : plc_world) : Int :=
  if c.ufcs_online = true ∧ c.plc_support = CHG_PROTOCOL_UFCS then w.not_allow_plc_vote
  else -EINVAL

/-- `oplus_plc_get_vote_allow_soc` (oplus_chg_plc.c:203). -/
def oplus_plc_get_vote_allow_soc (c : oplus_chg_plc) (w : plc_world) : Int :=
  if c.ufcs_online = true ∧ c.plc_support = CHG_PROTOCOL_UFCS then w.not_allow_soc_vote
  else -EINVAL

/-- `oplus_plc_get_vote_charger_suspend` (oplus_chg_plc.c:213). -/
def oplus_plc_get_vote_charger_suspend (_c : oplus_chg_plc) (w : plc_world) : Int :=
  w.charger_suspend_vote

/-! ## Publishing and session bookkeeping (oplus_chg_plc.c:329-515) -/

/-- `oplus_plc_get_deleta_track_msg` (oplus_chg_plc.c:329): captures a diagnostic
record and, at line 365, overwrites `data.init_ui_soc` with the current UI SOC. -/
def oplus_plc_get_deleta_track_msg (s : plc_run) (type : Int) : plc_run :=
  let s := set_data { s.chip.data with init_ui_soc := s.chip.ui_soc } s
  emit (.track_msg type) s

/-- `oplus_plc_push_plc_curr` (oplus_chg_plc.c:378). -/
def oplus_plc_push_plc_curr (s : plc_run) : plc_run :=
  emit (.push_plc_curr s.chip.plc_curr) s

/-- `oplus_plc_push_dischg_plc` (oplus_chg_plc.c:397). -/
def oplus_plc_push_dischg_plc (s : plc_run) (disable : Bool) : plc_run :=
  emit (.push_dischg_plc disable) s

/-- `oplus_plc_push_dischg_soc` (oplus_chg_plc.c:416). -/
def oplus_plc_push_dischg_soc (s : plc_run) (disable : Bool) : plc_run :=
  emit (.push_dischg_soc disable) s

/-- `oplus_plc_push_dischg_retry` (oplus_chg_plc.c:435). -/
def oplus_plc_push_dischg_retry (s : plc_run) (disable : Bool) : plc_run :=
  emit (.push_dischg_retry disable) s

/-- `oplus_plc_publish_enable_cnts` (oplus_chg_plc.c:971). -/
def oplus_plc_publish_enable_cnts (s : plc_run) : plc_run :=
  emit (.publish_enable_cnts s.chip.data.enable_cnts) s

/-- `oplus_plc_init_status` (oplus_chg_plc.c:454): captures the session baseline
once and publishes the default current. -/
def oplus_plc_init_status (s : plc_run) (w : plc_world) : plc_run :=
  if s.chip.data.init_status = true then s
  else
    let s := set_data { s.chip.data with init_status := true } s
    let s := set_data { s.chip.data with init_ui_soc := s.chip.ui_soc } s
    let s := set_data { s.chip.data with init_soc := w.gauge_soc } s
    let s := set_data { s.chip.data with init_sm_soc := s.chip.sm_soc } s
    let s := { s with chip := { s.chip with plc_curr := PLC_IBUS_DEFAULT } }
    oplus_plc_push_plc_curr s

/-- The effect of `memset(column, 0, PLC_IBAT_AVG_NUM)` on an `int` array
(oplus_chg_plc.c:513-514): the count is in bytes, so the ten bytes cleared are
elements 0 and 1 and the two low-order bytes of element 2 (little-endian,
four-byte `int`); the other elements keep their value. -/
def memset_column (col : List Int) : List Int :=
  match col with
  | _ :: _ :: a2 :: rest => 0 :: 0 :: (a2 - a2 % 65536) :: rest
  | [_, _] => [0, 0]
  | [_] => [0]
  | [] => []

/-- `oplus_plc_reset_status` (oplus_chg_plc.c:502). -/
def oplus_plc_reset_status (s : plc_run) : plc_run :=
  let s := set_data { s.chip.data with plc_check := false } s
  let s := set_data { s.chip.data with init_status := false } s
  let s := set_data { s.chip.data with ibat_index := 0 } s
  let s := set_data { s.chip.data with ibat_cnts := 0 } s
  let s := set_data { s.chip.data with ibus_index := 0 } s
  let s := set_data { s.chip.data with ibus_cnts := 0 } s
  let s := set_data { s.chip.data with ibat_low := 0 } s
  let s := set_data { s.chip.data with ibus_over := 0 } s
  let s := set_data { s.chip.data with ibat_column := memset_column s.chip.data.ibat_column } s
  set_data { s.chip.data with ibus_column := memset_column s.chip.data.ibus_column } s

/-! ## Sampling and averaging (oplus_chg_plc.c:517-559) -/

/-- The store `column[index] = v` into a `PLC_IBAT_AVG_NUM`-element array.  A
store outside the array is undefined in C and is modelled as no store. -/
def column_store (col : List Int) (index v : Int) : List Int :=
  if 0 ≤ index ∧ index < PLC_IBAT_AVG_NUM then col.set index.toNat v else col

/-- The loop `for (i = 0; i < PLC_IBAT_AVG_NUM; i++) sum += column[i]`. -/
def column_sum (col : List Int) : Int :=
  (List.range 10).foldl (fun sum i => sum + col.getD i 0) 0

/-- `oplus_plc_read_ibatt` (oplus_chg_plc.c:517): pushes one battery-current
sample and one bus-current sample. -/
def oplus_plc_read_ibatt (s : plc_run) (w : plc_world) : plc_run :=
  let s := if s.chip.data.ibus_index ≥ PLC_IBAT_AVG_NUM then
      set_data { s.chip.data with
        ibus_index := Int.tmod s.chip.data.ibus_index PLC_IBAT_AVG_NUM } s
    else s
  let s := set_data { s.chip.data with
    ibat_column := column_store s.chip.data.ibat_column s.chip.data.ibat_index w.gauge_curr } s
  let s := set_data { s.chip.data with
    ibat_index := Int.tmod (s.chip.data.ibat_index + 1) PLC_IBAT_AVG_NUM } s
  let s := set_data { s.chip.data with ibat_cnts := s.chip.data.ibat_cnts + 1 } s
  let s := if s.chip.data.ibat_index = 0 then set_data { s.chip.data with plc_check := true } s
    else set_data { s.chip.data with plc_check := false } s
  let ibus_pmic := w.wired_ibus
  let s := set_data { s.chip.data with
    ibus_column := column_store s.chip.data.ibus_column s.chip.data.ibus_index ibus_pmic } s
  let s := set_data { s.chip.data with
    ibus_index := Int.tmod (s.chip.data.ibus_index + 1) PLC_IBAT_AVG_NUM } s
  set_data { s.chip.data with ibus_cnts := s.chip.data.ibus_cnts + 1 } s

/-- `oplus_plc_get_avg_ibat` (oplus_chg_plc.c:539). -/
def oplus_plc_get_avg_ibat (s : plc_run) : plc_run × Int :=
  let sum := column_sum s.chip.data.ibat_column
  let s := set_data { s.chip.data with avg_ibat := Int.tdiv sum PLC_IBAT_AVG_NUM } s
  (s, s.chip.data.avg_ibat)

/-- `oplus_plc_get_avg_ibus` (oplus_chg_plc.c:550). -/
def oplus_plc_get_avg_ibus (s : plc_run) : plc_run × Int :=
  let sum := column_sum s.chip.data.ibus_column
  let s := set_data { s.chip.data with avg_ibus := Int.tdiv sum PLC_IBAT_AVG_NUM } s
  (s, Int.tdiv sum PLC_IBAT_AVG_NUM)

/-- `oplus_plc_get_delta_ibat` (oplus_chg_plc.c:561): refreshes `avg_ibat` and
maps its magnitude through the table. -/
def oplus_plc_get_delta_ibat (s : plc_run) (w : plc_world) : plc_run × Int :=
  let r := oplus_plc_get_avg_ibat s
  (r.1, plc_delta_ibat r.2 w.batt_num)

/-! ## Policy and guards (oplus_chg_plc.c:597-703) -/

/-- The SOC-exit block that `oplus_plc_check_plc_ibus` runs in three of its
branches (oplus_chg_plc.c:611-615, 622-625, 639-642). -/
def soc_exit_block (s : plc_run) (w : plc_world) : plc_run :=
  let s := if oplus_plc_get_vote_allow_soc s.chip w < 0 then
      oplus_plc_get_deleta_track_msg s PLC_TRACK_SOC_EXIT
    else s
  let s := oplus_plc_push_dischg_soc s true
  emit (.vote .output_suspend true 1) s

/-- `oplus_plc_check_plc_ibus` (oplus_chg_plc.c:597). -/
def oplus_plc_check_plc_ibus (s : plc_run) (w : plc_world) : plc_run × Int :=
  let soc_now := s.chip.sm_soc
  let curr_vote := oplus_plc_get_vote_curr s.chip w
  let r := oplus_plc_get_delta_ibat s w
  let s := r.1
  let delta_ibat := r.2
  let d := check_plc_ibus_core s.chip.data.init_ui_soc s.chip.data.init_sm_soc soc_now
    s.chip.plc_soc curr_vote delta_ibat s.chip.data.avg_ibat
  (if d.1 = true then soc_exit_block s w else s, d.2)

/-- The low-battery-current streak counter of `oplus_plc_ibat_check`
(oplus_chg_plc.c:667-670). -/
def ibat_low_count (s : plc_run) (ibus_plc : Int) : plc_run :=
  if s.chip.ufcs_charging = true ∧ ibus_plc ≤ PLC_IBUS_MIN ∧ s.chip.data.avg_ibat < 0 then
    set_data { s.chip.data with ibat_low := s.chip.data.ibat_low + 1 } s
  else set_data { s.chip.data with ibat_low := 0 } s

/-- The body of the low-battery-current guard of `oplus_plc_ibat_check`
(oplus_chg_plc.c:674-676), after which the function returns. -/
def ibat_low_action (s : plc_run) : plc_run :=
  let s := oplus_plc_push_dischg_plc s true
  let s := emit (.vote .output_suspend true 1) s
  oplus_plc_get_deleta_track_msg s PLC_TRACK_IBAT_EXIT

/-- The high-bus-current streak counter of `oplus_plc_ibat_check`
(oplus_chg_plc.c:680-683). -/
def ibus_over_count (s : plc_run) (ibus_pmic : Int) : plc_run :=
  if s.chip.ufcs_charging = false ∧ ibus_pmic > PLC_IBUS_HIGH_MAX then
    set_data { s.chip.data with ibus_over := s.chip.data.ibus_over + 1 } s
  else set_data { s.chip.data with ibus_over := 0 } s

/-- The body of the high-bus-current guard of `oplus_plc_ibat_check`
(oplus_chg_plc.c:687-696). -/
def ibus_over_action (s : plc_run) (w : plc_world) : plc_run :=
  let s := if s.chip.plc_status = PLC_STATUS_ENABLE ∧
        oplus_plc_get_vote_allow_plc s.chip w > 0 then
      oplus_plc_push_plc_curr { s with chip := { s.chip with plc_curr := 0 } }
    else s
  let s := emit (.vote .output_suspend false 0) s
  let s := emit (.vote .wired_suspend true 1) s
  let s := emit (.msleep PLC_SUSPEND_DELAY) s
  let s := emit (.vote .wired_suspend false 0) s
  let s := oplus_plc_push_dischg_plc s false
  oplus_plc_get_deleta_track_msg s PLC_TRACK_IBUS_ENTER

/-- The closing block of `oplus_plc_ibat_check` (oplus_chg_plc.c:699-702): store
and publish the target current. -/
def publish_target (s : plc_run) (ibus_plc : Int) : plc_run :=
  if s.chip.ufcs_online = true ∧
      (s.chip.plc_status = PLC_STATUS_ENABLE ∨ s.chip.plc_status = PLC_STATUS_WAIT) then
    oplus_plc_push_plc_curr { s with chip := { s.chip with plc_curr := ibus_plc } }
  else s

/-- `oplus_plc_ibat_check` (oplus_chg_plc.c:655): the two streak guards and the
publication of the target current, run on every completed sample cycle. -/
def oplus_plc_ibat_check (s : plc_run) (w : plc_world) : plc_run :=
  let r := oplus_plc_get_avg_ibus s
  let ibus_pmic := r.2
  let r := oplus_plc_check_plc_ibus r.1 w
  let ibus_plc := r.2
  let s := ibat_low_count r.1 ibus_plc
  if s.chip.ufcs_charging = true ∧ s.chip.data.ibat_low = PLC_IBAT_LOW_CNTS ∧
      s.chip.plc_status = PLC_STATUS_ENABLE ∧ oplus_plc_get_vote_allow_plc s.chip w ≤ 0 then
    ibat_low_action s
  else
    let s := ibus_over_count s ibus_pmic
    let s := if s.chip.ufcs_charging = false ∧ s.chip.plc_status = PLC_STATUS_ENABLE ∧
          oplus_plc_get_vote_allow_plc s.chip w > 0 ∧
          s.chip.data.ibus_over = PLC_IBUS_HIGH_CNTS then
        ibus_over_action s w
      else s
    publish_target s ibus_plc

/-! ## The control-loop tick (oplus_chg_plc.c:705-729) -/

/-- The five availability checks at the entry of
`oplus_plc_monitor_current_work` (oplus_chg_plc.c:712-714), joined by `||`: they
run in order and stop at the first votable that is missing. -/
def tick_ports_check (c : oplus_chg_plc) (w : plc_world) : oplus_chg_plc × Bool :=
  let a := is_ufcs_not_allow_votable_available c w
  if a.2 = false then (a.1, false) else
  let a := is_ufcs_disable_votable_available a.1 w
  if a.2 = false then (a.1, false) else
  let a := is_output_suspend_votable_available a.1 w
  if a.2 = false then (a.1, false) else
  let a := is_wired_suspend_votable_available a.1 w
  if a.2 = false then (a.1, false) else
  is_ufcs_curr_votable_available a.1 w

/-- `oplus_plc_monitor_current_work` (oplus_chg_plc.c:705). -/
def oplus_plc_monitor_current_work (s : plc_run) (w : plc_world) : plc_run :=
  let a := tick_ports_check s.chip w
  let s := { s with chip := a.1 }
  if a.2 = false then s else
  if (s.chip.plc_status = PLC_STATUS_ENABLE ∨ s.chip.plc_status = PLC_STATUS_WAIT) ∧
      (s.chip.ufcs_online = true ∧ s.chip.plc_support = CHG_PROTOCOL_UFCS) ∧
      s.chip.plc_buck = 0 then
    let s := oplus_plc_init_status s w
    let s := oplus_plc_read_ibatt s w
    let s := if s.chip.data.plc_check = true then oplus_plc_ibat_check s w else s
    emit (.schedule .plc_current_work PLC_MONITOR_CURRENT_DELAY) s
  else
    let s := oplus_plc_reset_status s
    let s := { s with chip := { s.chip with plc_curr := 0 } }
    oplus_plc_push_plc_curr s

/-! ## The enable state machine (oplus_chg_plc.c:993-1053) -/

/-- The Disable to Enable block of `oplus_plc_enable_vote_callback`
(oplus_chg_plc.c:1008-1012). -/
def enable_from_disable (s : plc_run) : plc_run :=
  let s := if s.chip.wired_online = true ∧ s.chip.ufcs_charging = false then
      emit (.vote .output_suspend true 1) s
    else s
  let s := oplus_plc_reset_status s
  let s := set_data { s.chip.data with enable_cnts := s.chip.data.enable_cnts + 1 } s
  oplus_plc_publish_enable_cnts s

/-- The block of `oplus_plc_enable_vote_callback` run when the new state is
Disable (oplus_chg_plc.c:1017-1030). -/
def enter_disable (s : plc_run) (w : plc_world) : plc_run :=
  let s :=
    if (oplus_plc_get_vote_allow_plc s.chip w > 0 ∨
          oplus_plc_get_vote_allow_soc s.chip w > 0) ∧
        oplus_plc_get_vote_charger_suspend s.chip w ≤ 0 then
      let s := if s.chip.wired_online = true then
          let s := emit (.vote .wired_suspend true 1) s
          let s := emit (.msleep PLC_SUSPEND_DELAY) s
          emit (.vote .wired_suspend false 0) s
        else s
      let s := emit (.vote .output_suspend false 0) s
      let s := oplus_plc_push_dischg_plc s false
      oplus_plc_push_dischg_soc s false
    else if s.chip.ufcs_charging = true ∧
        oplus_plc_get_vote_disalbe_retry s.chip w ≤ 0 then
      oplus_plc_push_dischg_retry s true
    else s
  emit (.vote .output_suspend false 1) s

/-- The block of `oplus_plc_enable_vote_callback` run when the new state is
Enable under buck sharing (oplus_chg_plc.c:1033-1034). -/
def enter_enable_buck (s : plc_run) : plc_run :=
  let s := oplus_plc_push_dischg_plc s true
  emit (.vote .output_suspend true 1) s

/-- The state change of `oplus_plc_enable_vote_callback` once the entry guard
has passed (oplus_chg_plc.c:1003-1036). -/
def enable_transition (s : plc_run) (w : plc_world) (enable : Int) : plc_run :=
  if enable = PLC_STATUS_WAIT then
    let s := { s with chip := { s.chip with plc_status := PLC_STATUS_WAIT } }
    emit (.schedule .plc_disable_wait_work PLC_DISABLE_WAIT_DELAY) s
  else
    let s :=
      if s.chip.plc_status = PLC_STATUS_DISABLE ∧ enable = PLC_STATUS_ENABLE then
        enable_from_disable s
      else s
    let s := { s with chip := { s.chip with plc_status := enable } }
    if s.chip.plc_status = PLC_STATUS_DISABLE then enter_disable s w
    else if s.chip.plc_status = PLC_STATUS_ENABLE ∧ s.chip.ufcs_charging = true ∧
        s.chip.plc_buck ≠ 0 ∧ oplus_plc_get_vote_allow_plc s.chip w < 0 then
      enter_enable_buck s
    else s

/-- The tail of `oplus_plc_enable_vote_callback` (oplus_chg_plc.c:1037-1052):
publish the status item and schedule the tick. -/
def publish_status_and_schedule (s : plc_run) (w : plc_world) : plc_run × Int :=
  if w.status_msg_alloc = false then (s, -EINVAL) else
  let s := emit (.publish_status s.chip.plc_status) s
  if w.status_publish_rc < 0 then (s, -EINVAL) else
  (emit (.schedule .plc_current_work 1000) s, 0)

/-- The four availability checks of the entry guard of
`oplus_plc_enable_vote_callback` (oplus_chg_plc.c:999-1001), joined by `||`:
they run in order and stop at the first votable that is missing. -/
def callback_ports_check (c : oplus_chg_plc) (w : plc_world) : oplus_chg_plc × Bool :=
  let a := is_ufcs_not_allow_votable_available c w
  if a.2 = false then (a.1, false) else
  let a := is_ufcs_disable_votable_available a.1 w
  if a.2 = false then (a.1, false) else
  let a := is_output_suspend_votable_available a.1 w
  if a.2 = false then (a.1, false) else
  is_wired_suspend_votable_available a.1 w

/-- `oplus_plc_enable_vote_callback` (oplus_chg_plc.c:993), with the requested
state `enable`; returns the new run and the C return value.  The entry guard
compares the requested state with the current one first. -/
def oplus_plc_enable_vote_callback (s : plc_run) (w : plc_world) (enable : Int) :
    plc_run × Int :=
  if s.chip.plc_status = enable then (s, 0) else
  let a := callback_ports_check s.chip w
  let s := { s with chip := a.1 }
  if a.2 = false then (s, 0) else
  publish_status_and_schedule (enable_transition s w enable) w

/-! ## Delayed works and topic callbacks (oplus_chg_plc.c:731-954) -/

/-- `oplus_plc_disable_wait_work` (oplus_chg_plc.c:731): the state it reads is
this core's `PLC_VOTER` vote on the enable votable. -/
def oplus_plc_disable_wait_work (s : plc_run) (w : plc_world) : plc_run :=
  if w.plc_enable_vote = PLC_STATUS_WAIT then
    if s.chip.ufcs_online = false then
      emit (.vote .plc_enable true PLC_STATUS_NOT_ALLOW) s
    else emit (.vote .plc_enable true PLC_STATUS_DISABLE) s
  else s

/-- `oplus_plc_vote_enable_work` (oplus_chg_plc.c:748). -/
def oplus_plc_vote_enable_work (s : plc_run) : plc_run :=
  if s.chip.ufcs_online = true then emit (.vote .plc_enable true PLC_STATUS_DISABLE) s
  else emit (.vote .plc_enable true PLC_STATUS_NOT_ALLOW) s

/-- The kinds of `enum mms_msg_type` the callbacks distinguish. -/
inductive mms_msg_type where
  | MSG_TYPE_TIMER
  | MSG_TYPE_ITEM
  | other
  deriving DecidableEq, Repr

/-- The item ids of the common topic that `oplus_plc_comm_subs_callback`
distinguishes. -/
inductive comm_item where
  | COMM_ITEM_UI_SOC
  | COMM_ITEM_SMOOTH_SOC
  | other
  deriving DecidableEq, Repr

/-- The item ids of the wired topic that `oplus_plc_wired_subs_callback`
distinguishes. -/
inductive wired_item where
  | WIRED_ITEM_ONLINE
  | other
  deriving DecidableEq, Repr

/-- The item ids of the UFCS topic that `oplus_plc_ufcs_subs_callback`
distinguishes. -/
inductive ufcs_item where
  | UFCS_ITEM_CHARGING
  | UFCS_ITEM_ONLINE
  | other
  deriving DecidableEq, Repr

/-- The item ids of the PLC topic that `oplus_plc_plc_subs_callback`
distinguishes (`enum plc_topic_item`, oplus_chg_plc.h:14). -/
inductive plc_item where
  | PLC_ITEM_SUPPORT
  | PLC_ITEM_BUCK
  | other
  deriving DecidableEq, Repr

/-- `oplus_plc_comm_subs_callback` (oplus_chg_plc.c:760); `intval` is the value
`oplus_mms_get_item_data` leaves in `data`. -/
def oplus_plc_comm_subs_callback (s : plc_run) (type : mms_msg_type) (id : comm_item)
    (intval : Int) : plc_run :=
  match type with
  | .MSG_TYPE_TIMER => s
  | .MSG_TYPE_ITEM =>
    match id with
    | .COMM_ITEM_UI_SOC => { s with chip := { s.chip with ui_soc := intval } }
    | .COMM_ITEM_SMOOTH_SOC =>
      let s := if (s.chip.plc_status = PLC_STATUS_ENABLE ∨ s.chip.plc_status = PLC_STATUS_WAIT) ∧
            intval ≠ s.chip.sm_soc then
          oplus_plc_get_deleta_track_msg s PLC_TRACK_SOC_ADD
        else s
      { s with chip := { s.chip with sm_soc := intval } }
    | .other => s
  | .other => s

/-- `oplus_plc_wired_subs_callback` (oplus_chg_plc.c:816); `debug_track` is the
module parameter `plc_info_debug_track`. -/
def oplus_plc_wired_subs_callback (s : plc_run) (type : mms_msg_type) (id : wired_item)
    (intval debug_track : Int) : plc_run :=
  match type with
  | .MSG_TYPE_TIMER => s
  | .MSG_TYPE_ITEM =>
    match id with
    | .WIRED_ITEM_ONLINE =>
      let s := { s with chip := { s.chip with wired_online := decide (intval ≠ 0) } }
      if (s.chip.wired_online = false ∧ s.chip.data.enable_cnts > 0) ∨ debug_track ≠ 0 then
        emit (.schedule .plc_track_work 0) s
      else s
    | .other => s
  | .other => s

/-- `oplus_plc_ufcs_subs_callback` (oplus_chg_plc.c:864). -/
def oplus_plc_ufcs_subs_callback (s : plc_run) (w : plc_world) (type : mms_msg_type)
    (id : ufcs_item) (intval : Int) : plc_run :=
  match type with
  | .MSG_TYPE_ITEM =>
    match id with
    | .UFCS_ITEM_CHARGING => { s with chip := { s.chip with ufcs_charging := decide (intval ≠ 0) } }
    | .UFCS_ITEM_ONLINE =>
      let s := { s with chip := { s.chip with ufcs_online := decide (intval ≠ 0) } }
      let a := is_plc_enable_votable_available s.chip w
      let s := { s with chip := a.1 }
      let s := if a.2 = true ∧ s.chip.plc_support = CHG_PROTOCOL_UFCS then
          emit (.schedule .plc_vote_work 0) s
        else s
      let a := is_ufcs_curr_votable_available s.chip w
      let s := { s with chip := a.1 }
      if a.2 = true ∧ s.chip.plc_support = CHG_PROTOCOL_UFCS ∧ s.chip.plc_buck = 0 then
        emit (.schedule .plc_current_work 0) s
      else s
    | .other => s
  | _ => s

/-- `oplus_plc_subscribe_ufcs_topic` (oplus_chg_plc.c:898); `subs_ok` tells
whether the subscription succeeded, `charging` and `online` are the item values
read.  The availability check is the third operand of the `&&` chain and runs
only when the first two hold. -/
def oplus_plc_subscribe_ufcs_topic (s : plc_run) (w : plc_world) (subs_ok : Bool)
    (charging online : Int) : plc_run :=
  if subs_ok = false then s else
  let s := { s with chip := { s.chip with ufcs_charging := decide (charging ≠ 0) } }
  let s := { s with chip := { s.chip with ufcs_online := decide (online ≠ 0) } }
  let s := set_data { s.chip.data with plc_check := false } s
  let s := set_data { s.chip.data with ibat_cnts := 0 } s
  let s := set_data { s.chip.data with init_status := false } s
  if s.chip.ufcs_online = true ∧ s.chip.plc_support = CHG_PROTOCOL_UFCS then
    let a := is_ufcs_curr_votable_available s.chip w
    let s := { s with chip := a.1 }
    if a.2 = true ∧
        (s.chip.plc_status = PLC_STATUS_ENABLE ∨ s.chip.plc_status = PLC_STATUS_WAIT) then
      let s := { s with chip := { s.chip with plc_curr := PLC_IBUS_DEFAULT } }
      let s := oplus_plc_push_plc_curr s
      if s.chip.plc_buck = 0 then emit (.schedule .plc_current_work 0) s else s
    else s
  else s

/-- `oplus_plc_plc_subs_callback` (oplus_chg_plc.c:930). -/
def oplus_plc_plc_subs_callback (s : plc_run) (type : mms_msg_type) (id : plc_item)
    (intval : Int) : plc_run :=
  match type with
  | .MSG_TYPE_ITEM =>
    match id with
    | .PLC_ITEM_SUPPORT => { s with chip := { s.chip with plc_support := intval } }
    | .PLC_ITEM_BUCK => { s with chip := { s.chip with plc_buck := intval } }
    | .other => s
  | _ => s

/-! ## Diagnostic upload throttle (oplus_chg_plc.c:225-272) -/

/-- `TRACK_UPLOAD_COUNT_MAX` (oplus_chg_plc.c:225). -/
def TRACK_UPLOAD_COUNT_MAX : Int := 3

/-- `TRACK_DEVICE_ABNORMAL_UPLOAD_PERIOD` (oplus_chg_plc.c:227). -/
def TRACK_DEVICE_ABNORMAL_UPLOAD_PERIOD : Int := 24 * 3600

/-- Modelled from the spec: the errno `ENODEV` comes from `linux/errno.h`. -/
def ENODEV : Int := 19

/-- Modelled from the spec: the errno `ENOMEM` comes from `linux/errno.h`. -/
def ENOMEM : Int := 12

/-- The function-static variables of `oplus_chg_plc_upload_plc_info`
(oplus_chg_plc.c:233-234). -/
structure upload_statics where
  upload_count : Int
  pre_upload_time : Int
  deriving DecidableEq, Repr

/-- What one call of `oplus_chg_plc_upload_plc_info` meets: the clock in whole
seconds (`local_clock() / TRACK_LOCAL_T_NS_TO_S_THD`, the same at both reads),
whether the error topic is found, whether the message is allocated, and the
return code of the publish. -/
structure upload_call where
  curr_time : Int
  err_topic_found : Bool
  msg_alloc : Bool
  publish_rc : Int
  deriving DecidableEq, Repr

/-- The outcome of one call: the statics afterwards, the C return value, and
whether the call reached `oplus_mms_publish_msg`. -/
structure upload_result where
  statics : upload_statics
  rc : Int
  published : Bool
  deriving DecidableEq, Repr

/-- `oplus_chg_plc_upload_plc_info` (oplus_chg_plc.c:228), called with a non-NULL
`chip`. -/
def oplus_chg_plc_upload_plc_info (st : upload_statics) (x : upload_call) : upload_result :=
  let curr_time := x.curr_time
  let st := if curr_time - st.pre_upload_time > TRACK_DEVICE_ABNORMAL_UPLOAD_PERIOD then
      { st with upload_count := 0 }
    else st
  if st.upload_count ≥ TRACK_UPLOAD_COUNT_MAX then ⟨st, -ENODEV, false⟩ else
  let st := { st with pre_upload_time := x.curr_time }
  if x.err_topic_found = false then ⟨st, -ENODEV, false⟩ else
  if x.msg_alloc = false then ⟨st, -ENOMEM, false⟩ else
  let rc := x.publish_rc
  let st := { st with upload_count := st.upload_count + 1 }
  ⟨st, rc, true⟩

/-! ## The decision table as the specification words it -/

/-- The clamp as the specification words it: the result forced into
`[MIN = 200, MAX = 1500]`. -/
def spec_clamp (x : Int) : Int := max 200 (min 1500 x)

/-- The first-match-wins decision table of the specification (section 4.3),
before the final clamp. -/
def spec_decision_table (init_ui_soc init_sm_soc sm_soc plc_soc curr_vote delta
    avg_ibat : Int) : Int :=
  if init_ui_soc ≥ plc_soc then 500
  else if init_ui_soc > init_sm_soc ∧ init_ui_soc > sm_soc then 1500
  else if init_ui_soc < init_sm_soc ∧ init_ui_soc < sm_soc then
    if sm_soc - init_ui_soc ≥ 3 then 500 else 200
  else
    let delta_soc := sm_soc - init_ui_soc
    if delta_soc < 0 then 1500
    else if delta_soc = 0 ∧ avg_ibat > 0 then curr_vote + delta
    else if delta_soc = 0 ∧ avg_ibat ≤ 0 then curr_vote - delta
    else if 0 < delta_soc ∧ delta_soc < 3 then 200
    else 500

/-- The average that `oplus_plc_get_avg_ibat` computes from the sample array. -/
def avg_of (col : List Int) : Int := Int.tdiv (column_sum col) PLC_IBAT_AVG_NUM

/-! ## The policy and the guards on an instance -/

/-- Whether `oplus_plc_check_plc_ibus`, run on the instance, takes a branch that
runs the SOC-exit block. -/
def policy_exit (c : oplus_chg_plc) (w : plc_world) : Bool :=
  (check_plc_ibus_core c.data.init_ui_soc c.data.init_sm_soc c.sm_soc c.plc_soc
    (oplus_plc_get_vote_curr c w) (plc_delta_ibat (avg_of c.data.ibat_column) w.batt_num)
    (avg_of c.data.ibat_column)).1

/-- The target current `oplus_plc_check_plc_ibus` returns on the instance. -/
def policy_value (c : oplus_chg_plc) (w : plc_world) : Int :=
  (check_plc_ibus_core c.data.init_ui_soc c.data.init_sm_soc c.sm_soc c.plc_soc
    (oplus_plc_get_vote_curr c w) (plc_delta_ibat (avg_of c.data.ibat_column) w.batt_num)
    (avg_of c.data.ibat_column)).2

/-- The requests `oplus_plc_check_plc_ibus` issues on the instance. -/
def policy_out (c : oplus_chg_plc) (w : plc_world) : List plc_effect :=
  if policy_exit c w = true then
    (if oplus_plc_get_vote_allow_soc c w < 0 then [plc_effect.track_msg PLC_TRACK_SOC_EXIT]
      else []) ++
      [plc_effect.push_dischg_soc true, plc_effect.vote plc_port.output_suspend true 1]
  else []

/-- The value of `data.init_ui_soc` after `oplus_plc_check_plc_ibus`. -/
def policy_ui (c : oplus_chg_plc) (w : plc_world) : Int :=
  if policy_exit c w = true ∧ oplus_plc_get_vote_allow_soc c w < 0 then c.ui_soc
  else c.data.init_ui_soc

/-- A qualifying cycle of the low-battery-current guard: protocol-charging,
target at most `PLC_IBUS_MIN`, negative average battery current. -/
def low_qualifies (c : oplus_chg_plc) (w : plc_world) : Bool :=
  decide (c.ufcs_charging = true ∧ policy_value c w ≤ PLC_IBUS_MIN ∧
    avg_of c.data.ibat_column < 0)

/-- A qualifying cycle of the high-bus-current guard: not protocol-charging,
average bus current above `PLC_IBUS_HIGH_MAX`. -/
def over_qualifies (c : oplus_chg_plc) : Bool :=
  decide (c.ufcs_charging = false ∧ avg_of c.data.ibus_column > PLC_IBUS_HIGH_MAX)

/-- The low-battery-current streak after a cycle on the instance. -/
def low_next (c : oplus_chg_plc) (w : plc_world) : Int :=
  if low_qualifies c w = true then c.data.ibat_low + 1 else 0

/-- The high-bus-current streak after a cycle on the instance that gets past
the low-battery-current guard. -/
def over_next (c : oplus_chg_plc) : Int :=
  if over_qualifies c = true then c.data.ibus_over + 1 else 0

/-! ## Runs of the control loop -/

/-- Consecutive runs of the tick `oplus_plc_monitor_current_work`, one world per
run, oldest first, with no other entry into the driver in between. -/
def run_ticks (s : plc_run) (ws : List plc_world) : plc_run :=
  ws.foldl oplus_plc_monitor_current_work s

/-- The session part of `data` is as `oplus_plc_reset_status` leaves it. -/
def is_reset_session (d : plc_data) : Prop :=
  d.plc_check = false ∧ d.init_status = false ∧ d.ibat_index = 0 ∧ d.ibat_cnts = 0 ∧
    d.ibus_index = 0 ∧ d.ibus_cnts = 0 ∧ d.ibat_low = 0 ∧ d.ibus_over = 0

/-- The five votables the tick needs are there: cached in the instance or found
by `find_votable` (the entry check of `oplus_plc_monitor_current_work`). -/
def tick_ports_available (c : oplus_chg_plc) (w : plc_world) : Prop :=
  (c.ufcs_not_allow_votable || w.find_ufcs_not_allow) = true ∧
  (c.ufcs_disable_votable || w.find_ufcs_disable) = true ∧
  (c.output_suspend_votable || w.find_output_suspend) = true ∧
  (c.wired_suspend_votable || w.find_wired_suspend) = true ∧
  (c.ufcs_curr_votable || w.find_ufcs_curr) = true

/-- The four votables the enable callback needs are there (the entry check of
`oplus_plc_enable_vote_callback`). -/
def callback_ports_available (c : oplus_chg_plc) (w : plc_world) : Prop :=
  (c.ufcs_not_allow_votable || w.find_ufcs_not_allow) = true ∧
  (c.ufcs_disable_votable || w.find_ufcs_disable) = true ∧
  (c.output_suspend_votable || w.find_output_suspend) = true ∧
  (c.wired_suspend_votable || w.find_wired_suspend) = true

/-- A zero-filled `plc_data` with ten-element sample arrays. -/
def data_zero : plc_data :=
  { ibat_index := 0, ibat_cnts := 0, ibus_index := 0, ibus_cnts := 0, init_soc := 0,
    init_sm_soc := 0, init_ui_soc := 0, avg_ibat := 0, avg_curr := 0, avg_ibus := 0,
    ibat_low := 0, ibus_over := 0, enable_cnts := 0, plc_check := false, init_status := false,
    ibat_column := List.replicate 10 0, ibus_column := List.replicate 10 0 }

/-- A sample instance: protocol online, status Enable, UFCS, no buck sharing,
votables cached, UI SOC 50 and smoothed SOC 50 under the ceiling 90. -/
def chip_enabled : oplus_chg_plc :=
  { ufcs_curr_votable := true, ufcs_disable_votable := true, ufcs_not_allow_votable := true,
    output_suspend_votable := true, plc_enable_votable := true, wired_suspend_votable := true,
    data := data_zero, wired_online := true, ufcs_online := true, ufcs_charging := true,
    plc_curr := 0, ui_soc := 50, sm_soc := 50, plc_status := PLC_STATUS_ENABLE,
    plc_support := CHG_PROTOCOL_UFCS, plc_buck := 0, plc_soc := 90 }

/-- A sample world: every votable found, no client vote cast (`-EINVAL`),
current vote 500 mA, battery current `ibat`, bus current `ibus`, one cell. -/
def world_of (ibat ibus : Int) : plc_world :=
  { find_ufcs_curr := true, find_ufcs_disable := true, find_ufcs_not_allow := true,
    find_output_suspend := true, find_plc_enable := true, find_wired_suspend := true,
    ufcs_curr_result := 500, retry_vote := -EINVAL, not_allow_plc_vote := -EINVAL,
    not_allow_soc_vote := -EINVAL, charger_suspend_vote := -EINVAL,
    plc_enable_vote := PLC_STATUS_ENABLE, gauge_curr := ibat, gauge_soc := 50,
    wired_ibus := ibus, batt_num := 1, status_msg_alloc := true, status_publish_rc := 0 }

/-- The state of a sharing session between two completed cycles, as seen from
the instance `c0` the session started on: votables cached, gating fields and
SOC readings as in `c0`, baseline captured from `c0`, published current still
the default, and the battery samples pushed so far at the front of the
ten-element sample array. -/
def mid_session (c0 : oplus_chg_plc) (samples : List Int) (s : plc_run) : Prop :=
  (s.chip.ufcs_not_allow_votable = true ∧ s.chip.ufcs_disable_votable = true ∧
    s.chip.output_suspend_votable = true ∧ s.chip.wired_suspend_votable = true ∧
    s.chip.ufcs_curr_votable = true) ∧
  (s.chip.plc_status = c0.plc_status ∧ s.chip.ufcs_online = c0.ufcs_online ∧
    s.chip.plc_support = c0.plc_support ∧ s.chip.plc_buck = c0.plc_buck ∧
    s.chip.sm_soc = c0.sm_soc ∧ s.chip.ui_soc = c0.ui_soc ∧ s.chip.plc_soc = c0.plc_soc) ∧
  (s.chip.data.init_status = true ∧ s.chip.data.init_ui_soc = c0.ui_soc ∧
    s.chip.data.init_sm_soc = c0.sm_soc) ∧
  (s.chip.data.ibat_index = samples.length ∧ s.chip.data.ibus_over = 0 ∧
    s.chip.plc_curr = PLC_IBUS_DEFAULT) ∧
  (s.chip.data.ibat_column.length = 10 ∧
    s.chip.data.ibat_column.take samples.length = samples)

/-- The two worlds give the same answer to every `find_votable` lookup: no
votable was registered or removed between them. -/
def same_registry (w1 w2 : plc_world) : Prop :=
  w2.find_ufcs_curr = w1.find_ufcs_curr ∧ w2.find_ufcs_disable = w1.find_ufcs_disable ∧
  w2.find_ufcs_not_allow = w1.find_ufcs_not_allow ∧
  w2.find_output_suspend = w1.find_output_suspend ∧
  w2.find_plc_enable = w1.find_plc_enable ∧ w2.find_wired_suspend = w1.find_wired_suspend

/-! ## Sequences of completed cycles -/

/-- The instance with the two streak counters replaced. -/
def with_counters (c : oplus_chg_plc) (low over : Int) : oplus_chg_plc :=
  { c with data := { c.data with ibat_low := low, ibus_over := over } }

/-- One completed cycle: `oplus_plc_ibat_check` runs on the instance as the
environment left it (every field but the two streak counters, which are
carried over from the previous cycle) and returns the new counters. -/
def cycle_step (cnt : Int × Int) (x : oplus_chg_plc × plc_world) : Int × Int :=
  ((oplus_plc_ibat_check ⟨with_counters x.1 cnt.1 cnt.2, []⟩ x.2).chip.data.ibat_low,
   (oplus_plc_ibat_check ⟨with_counters x.1 cnt.1 cnt.2, []⟩ x.2).chip.data.ibus_over)

/-- The streak counters after a sequence of completed cycles, oldest first. -/
def run_cycles (cnt : Int × Int) (l : List (oplus_chg_plc × plc_world)) : Int × Int :=
  l.foldl cycle_step cnt

/-- The requests issued by the cycle `x` that follows the cycles `pre`, the
counters having started at 0. -/
def cycle_out (pre : List (oplus_chg_plc × plc_world)) (x : oplus_chg_plc × plc_world) :
    List plc_effect :=
  (oplus_plc_ibat_check
    ⟨with_counters x.1 (run_cycles (0, 0) pre).1 (run_cycles (0, 0) pre).2, []⟩ x.2).out

/-- The number of consecutive qualifying cycles at the end of a sequence of
qualifying flags: the position of the last cycle within its run. -/
def streak (qs : List Bool) : Nat := (qs.reverse.takeWhile id).length

/-! ## Sample cycles -/

/-- A sample cycle that qualifies for the low-battery-current guard:
protocol-charging, status Enable, smoothed SOC one above the baseline (target
`PLC_IBUS_MIN`), ten battery samples of -300 mA, streak counter at `low`. -/
def chip_low_cycle (low : Int) : oplus_chg_plc :=
  { chip_enabled with
    sm_soc := 51
    plc_curr := 500
    data := { data_zero with
      init_status := true, init_ui_soc := 50, init_sm_soc := 50, ibat_low := low,
      ibat_column := List.replicate 10 (-300) } }

/-- A sample cycle that qualifies for the high-bus-current guard: not
protocol-charging, status Enable, smoothed SOC one below the baseline (target
`PLC_IBUS_MAX`), ten bus samples of 700 mA, streak counter at `over`. -/
def chip_over_cycle (over : Int) : oplus_chg_plc :=
  { chip_enabled with
    ufcs_charging := false
    sm_soc := 49
    plc_curr := 500
    data := { data_zero with
      init_status := true, init_ui_soc := 50, init_sm_soc := 50, ibus_over := over,
      ibus_column := List.replicate 10 700 } }

/-- The sample world with this core's `PLC_VOTER` vote on the not-allow votable
asserted (value 1). -/
def world_vote_asserted : plc_world :=
  { world_of 0 0 with not_allow_plc_vote := 1 }

/-- The recovery pulse of the high-bus-current guard as the specification words
it (section 4.4): publish current 0, assert output-suspend, assert
wired-suspend, hold 1000 ms, de-assert wired-suspend, clear output-suspend,
re-enable PLC discharge. -/
def spec_recovery_pulse : List plc_effect :=
  [plc_effect.push_plc_curr 0, plc_effect.vote plc_port.output_suspend true 1,
   plc_effect.vote plc_port.wired_suspend true 1, plc_effect.msleep 1000,
   plc_effect.vote plc_port.wired_suspend false 0,
   plc_effect.vote plc_port.output_suspend false 0, plc_effect.push_dischg_plc false]

/-! ## Requests of the enable callback -/

/-- The requests of the tail of `oplus_plc_enable_vote_callback`
(oplus_chg_plc.c:1037-1052) while `plc_status` holds `status`. -/
def status_tail (w : plc_world) (status : Int) : List plc_effect :=
  if w.status_msg_alloc = false then []
  else plc_effect.publish_status status ::
    (if w.status_publish_rc < 0 then []
      else [plc_effect.schedule plc_work.plc_current_work 1000])

/-- The last vote cast on a votable in a list of requests: its `enabled` flag
and value. -/
def last_vote_on (port : plc_port) (out : List plc_effect) : Option (Bool × Int) :=
  (out.filterMap fun e =>
    match e with
    | plc_effect.vote p enabled val => if p = port then some (enabled, val) else none
    | _ => none).getLast?

/-- The sample instance with the wired path offline. -/
def chip_wired_offline : oplus_chg_plc :=
  { chip_enabled with wired_online := false }

/-! ## Sequences of pushes and resets -/

/-- Consecutive calls of `oplus_plc_read_ibatt`, one world per call, oldest
first. -/
def run_pushes (s : plc_run) (ws : List plc_world) : plc_run :=
  ws.foldl oplus_plc_read_ibatt s

/-- An operation on the sample window: a push or a session reset. -/
inductive ring_op where
  | push (w : plc_world)
  | reset
  deriving DecidableEq, Repr

/-- Run one operation on the sample window. -/
def ring_step (s : plc_run) : ring_op → plc_run
  | ring_op.push w => oplus_plc_read_ibatt s w
  | ring_op.reset => oplus_plc_reset_status s

/-- One push seen from a sample array and its cursor: store at the cursor,
advance the cursor modulo `PLC_IBAT_AVG_NUM`. -/
def ring_push (r : List Int × Int) (v : Int) : List Int × Int :=
  (column_store r.1 r.2 v, Int.tmod (r.2 + 1) PLC_IBAT_AVG_NUM)

/-- A sample instance in a running session: baseline captured at UI SOC 50,
the UI SOC having moved to 52 since. -/
def chip_baselined : oplus_chg_plc :=
  { chip_enabled with
    ui_soc := 52
    data := { data_zero with
      init_status := true, init_ui_soc := 50, init_sm_soc := 50, init_soc := 50 } }

/-- One call of `oplus_chg_plc_upload_plc_info` in a sequence: the statics are
carried over and the clock time of the call is logged when the call reached
the publish step. -/
def upload_log_step (a : upload_statics × List Int) (x : upload_call) :
    upload_statics × List Int :=
  ((oplus_chg_plc_upload_plc_info a.1 x).statics,
    if (oplus_chg_plc_upload_plc_info a.1 x).published = true then a.2 ++ [x.curr_time] else a.2)

/-- A sequence of calls from the initial statics (`upload_count = 0`,
`pre_upload_time = 0`): the statics afterwards and the times of the calls that
reached the publish step. -/
def upload_run (xs : List upload_call) : upload_statics × List Int :=
  xs.foldl upload_log_step (⟨0, 0⟩, [])

/-- How many of the logged times lie in the window `[T, T + 86400]`. -/
def window_count (P : List Int) (T : Int) : Nat :=
  (P.filter (fun p => decide (T ≤ p ∧ p ≤ T + TRACK_DEVICE_ABNORMAL_UPLOAD_PERIOD))).length

/-- Sample sequence of calls: four within a few seconds, a fifth a day later. -/
def sample_upload_calls : List upload_call :=
  [⟨0, true, true, 0⟩, ⟨1, true, true, 0⟩, ⟨2, true, true, 0⟩, ⟨3, true, true, 0⟩,
   ⟨90000, true, true, 0⟩]

/-- What holds of the statics and the log after any sequence of calls at
non-decreasing times. -/
def upload_inv (xs : List upload_call) (st : upload_statics) (P : List Int) : Prop :=
  0 ≤ st.upload_count ∧ st.upload_count ≤ 3 ∧
  (∀ p ∈ P, p ≤ st.pre_upload_time) ∧
  ((P = [] ∧ st.upload_count = 0) ∨ ∃ y ∈ xs, y.curr_time = st.pre_upload_time) ∧
  (∀ T, st.pre_upload_time ≤ T + 86400 → (window_count P T : Int) ≤ st.upload_count) ∧
  (∀ T, window_count P T ≤ 3)

/-- The instance as `devm_kzalloc` leaves it (oplus_chg_plc.c:1300): every
field zero, every pointer NULL. -/
def chip_zero : oplus_chg_plc :=
  { ufcs_curr_votable := false, ufcs_disable_votable := false, ufcs_not_allow_votable := false,
    output_suspend_votable := false, plc_enable_votable := false, wired_suspend_votable := false,
    data := data_zero, wired_online := false, ufcs_online := false, ufcs_charging := false,
    plc_curr := 0, ui_soc := 0, sm_soc := 0, plc_status := 0, plc_support := 0, plc_buck := 0,
    plc_soc := 0 }

/-- One entry into the driver: a control-loop tick, an enable-state callback, a
topic callback, the UFCS subscription, or one of the two delayed works, each
with what the collaborators answer during that entry. -/
inductive plc_event where
  | tick (w : plc_world)
  | enable_vote (w : plc_world) (enable : Int)
  | comm (type : mms_msg_type) (id : comm_item) (intval : Int)
  | wired (type : mms_msg_type) (id : wired_item) (intval debug_track : Int)
  | ufcs (w : plc_world) (type : mms_msg_type) (id : ufcs_item) (intval : Int)
  | subscribe_ufcs (w : plc_world) (subs_ok : Bool) (charging online : Int)
  | plc (type : mms_msg_type) (id : plc_item) (intval : Int)
  | disable_wait (w : plc_world)
  | vote_enable

/-- The driver function an event enters. -/
def plc_event_step (s : plc_run) : plc_event → plc_run
  | .tick w => oplus_plc_monitor_current_work s w
  | .enable_vote w enable => (oplus_plc_enable_vote_callback s w enable).1
  | .comm type id intval => oplus_plc_comm_subs_callback s type id intval
  | .wired type id intval debug_track => oplus_plc_wired_subs_callback s type id intval debug_track
  | .ufcs w type id intval => oplus_plc_ufcs_subs_callback s w type id intval
  | .subscribe_ufcs w subs_ok charging online =>
    oplus_plc_subscribe_ufcs_topic s w subs_ok charging online
  | .plc type id intval => oplus_plc_plc_subs_callback s type id intval
  | .disable_wait w => oplus_plc_disable_wait_work s w
  | .vote_enable => oplus_plc_vote_enable_work s

/-- A sequence of entries into the driver. -/
def run_events (s : plc_run) (es : List plc_event) : plc_run :=
  es.foldl plc_event_step s

/-- The published target current is 0 or lies in
`[PLC_IBUS_MIN, PLC_IBUS_MAX]`. -/
def curr_in_range (x : Int) : Prop :=
  x = 0 ∨ (PLC_IBUS_MIN ≤ x ∧ x ≤ PLC_IBUS_MAX)

/-- A sample tick that completes a cycle on which the high-bus-current guard
fires: the qualifying instance `chip_over_cycle 3` with both cursors on the
last slot of the sample arrays. -/
def chip_over_tick : oplus_chg_plc :=
  { chip_over_cycle 3 with
    data := { (chip_over_cycle 3).data with ibat_index := 9, ibus_index := 9 } }

/-- Whether a request is a diagnostic capture, the request that
`oplus_plc_get_deleta_track_msg` and nothing else issues. -/
def is_capture : plc_effect → Bool
  | .track_msg _ => true
  | _ => false

/-- How many diagnostic captures a request list records. -/
def captures (out : List plc_effect) : Nat := out.countP is_capture

/-! ## Helper lemmas -/

lemma c_abs_eq_abs (a : Int) : c_abs a = |a| := by
  unfold c_abs
  split_ifs with h
  · exact (abs_of_neg h).symm
  · exact (abs_of_nonneg (not_lt.mp h)).symm

lemma ibus_clamp_eq_spec (x : Int) : ibus_clamp x = spec_clamp x := by
  unfold ibus_clamp spec_clamp PLC_IBUS_MIN PLC_IBUS_MAX
  simp only []
  split_ifs <;> omega

lemma ibus_clamp_range (x : Int) : 200 ≤ ibus_clamp x ∧ ibus_clamp x ≤ 1500 := by
  unfold ibus_clamp PLC_IBUS_MIN PLC_IBUS_MAX
  simp only []
  split_ifs <;> omega

lemma core_eq_table (u m s c v d a : Int) :
    (check_plc_ibus_core u m s c v d a).2 = spec_clamp (spec_decision_table u m s c v d a) := by
  unfold check_plc_ibus_core spec_decision_table
  simp only [PLC_IBUS_DEFAULT, PLC_IBUS_MAX, PLC_IBUS_MIN, PLC_DELTA_SOC_MAX, ibus_clamp_eq_spec]
  congr 1
  split_ifs <;> first | rfl | omega

lemma check_plc_ibus_ret (s : plc_run) (w : plc_world) :
    (oplus_plc_check_plc_ibus s w).2 =
      (check_plc_ibus_core s.chip.data.init_ui_soc s.chip.data.init_sm_soc s.chip.sm_soc
        s.chip.plc_soc (oplus_plc_get_vote_curr s.chip w)
        (plc_delta_ibat (avg_of s.chip.data.ibat_column) w.batt_num)
        (avg_of s.chip.data.ibat_column)).2 := by
  rfl

lemma table_first : table_at 0 = ⟨0, 0⟩ := rfl

lemma table_last : table_at (asize - 1) = ⟨10000, 500⟩ := rfl

lemma tdiv_nonneg_eq (a b : Int) (ha : 0 ≤ a) (hb : 0 ≤ b) : Int.tdiv a b = a / b :=
  Int.tdiv_eq_ediv ha hb

lemma delta_interp_closed (x : Int) :
    delta_interp x =
      if x ≤ 0 then 0 else if x ≥ 10000 then 500
      else if x < 800 then x / 2 else (x + 36000) / 92 := by
  unfold delta_interp
  rw [table_first, table_last]
  simp only [plc_ibus_table, List.tail_cons, delta_loop]
  by_cases h0 : x ≤ 0
  · simp [h0]
  by_cases h1 : x ≥ 10000
  · simp [h0, h1]
  rw [if_neg h0, if_neg h1, if_neg h0, if_neg h1]
  by_cases a1 : x < 100
  · rw [if_pos a1, if_pos (by omega)]
    dsimp only
    rw [tdiv_nonneg_eq _ _ (by omega) (by omega)]; omega
  by_cases a2 : x < 200
  · rw [if_neg a1, if_pos a2, if_pos (by omega)]
    dsimp only
    rw [tdiv_nonneg_eq _ _ (by omega) (by omega)]; omega
  by_cases a3 : x < 400
  · rw [if_neg a1, if_neg a2, if_pos a3, if_pos (by omega)]
    dsimp only
    rw [tdiv_nonneg_eq _ _ (by omega) (by omega)]; omega
  by_cases a4 : x < 600
  · rw [if_neg a1, if_neg a2, if_neg a3, if_pos a4, if_pos (by omega)]
    dsimp only
    rw [tdiv_nonneg_eq _ _ (by omega) (by omega)]; omega
  by_cases a5 : x < 800
  · rw [if_neg a1, if_neg a2, if_neg a3, if_neg a4, if_pos a5, if_pos (by omega)]
    dsimp only
    rw [tdiv_nonneg_eq _ _ (by omega) (by omega)]; omega
  · rw [if_neg a1, if_neg a2, if_neg a3, if_neg a4, if_neg a5, if_pos (by omega),
      if_neg (by omega)]
    dsimp only
    rw [tdiv_nonneg_eq _ _ (by omega) (by omega)]; omega

lemma weighted_eq_slope (x t1 d1 t2 d2 : Int) (h1 : t1 ≤ x) (h2 : x < t2) (hd1 : 0 ≤ d1)
    (hd : d1 ≤ d2) :
    Int.tdiv ((x - t1) * d2 + (t2 - x) * d1) (t2 - t1) =
      d1 + Int.tdiv ((x - t1) * (d2 - d1)) (t2 - t1) := by
  have hpos : 0 < t2 - t1 := by omega
  have e : (x - t1) * d2 + (t2 - x) * d1 = (x - t1) * (d2 - d1) + d1 * (t2 - t1) := by ring
  have hn : 0 ≤ (x - t1) * (d2 - d1) := mul_nonneg (by omega) (by omega)
  have hm : 0 ≤ d1 * (t2 - t1) := mul_nonneg hd1 (le_of_lt hpos)
  rw [e, tdiv_nonneg_eq _ _ (by omega) (le_of_lt hpos), tdiv_nonneg_eq _ _ hn (le_of_lt hpos),
    Int.add_mul_ediv_right _ _ (ne_of_gt hpos)]
  ring

lemma delta_interp_bracket (x : Int) (i : Nat) (hi : i + 1 < asize)
    (h1 : (table_at i).ibat ≤ x) (h2 : x < (table_at (i + 1)).ibat) :
    delta_interp x =
      Int.tdiv ((x - (table_at i).ibat) * (table_at (i + 1)).ibus +
        ((table_at (i + 1)).ibat - x) * (table_at i).ibus)
        ((table_at (i + 1)).ibat - (table_at i).ibat) := by
  have hi6 : i < 6 := by
    have h7 : i + 1 < 7 := hi
    omega
  rw [delta_interp_closed]
  interval_cases i <;>
    simp only [table_at, plc_ibus_table, List.getD_cons_zero, List.getD_cons_succ] at h1 h2 ⊢ <;>
    rw [tdiv_nonneg_eq _ _ (by omega) (by omega)] <;>
    split_ifs <;> omega

lemma table_step (i : Nat) (hi : i + 1 < asize) :
    0 ≤ (table_at i).ibus ∧ (table_at i).ibus ≤ (table_at (i + 1)).ibus := by
  have hi6 : i < 6 := by
    have h7 : i + 1 < 7 := hi
    omega
  interval_cases i <;> decide

lemma delta_interp_mono (x y : Int) (hxy : x ≤ y) :
    delta_interp x ≤ delta_interp y := by
  rw [delta_interp_closed, delta_interp_closed]
  split_ifs <;> omega

lemma delta_interp_nonneg (x : Int) : 0 ≤ delta_interp x := by
  rw [delta_interp_closed]
  split_ifs <;> omega

/-! ## Normal forms of the guard function -/

lemma soc_exit_block_nf (s : plc_run) (w : plc_world) :
    soc_exit_block s w =
      ⟨{ s.chip with data := { s.chip.data with
          init_ui_soc := if oplus_plc_get_vote_allow_soc s.chip w < 0 then s.chip.ui_soc
            else s.chip.data.init_ui_soc } },
        s.out ++ ((if oplus_plc_get_vote_allow_soc s.chip w < 0 then
            [plc_effect.track_msg PLC_TRACK_SOC_EXIT] else []) ++
          [plc_effect.push_dischg_soc true, plc_effect.vote plc_port.output_suspend true 1])⟩ := by
  unfold soc_exit_block
  by_cases h : oplus_plc_get_vote_allow_soc s.chip w < 0
  · simp [h, oplus_plc_get_deleta_track_msg, emit, set_data, oplus_plc_push_dischg_soc]
  · simp [h, emit, oplus_plc_push_dischg_soc]

lemma get_avg_ibus_nf (s : plc_run) :
    oplus_plc_get_avg_ibus s =
      (⟨{ s.chip with data := { s.chip.data with avg_ibus := avg_of s.chip.data.ibus_column } },
        s.out⟩, avg_of s.chip.data.ibus_column) := rfl

lemma check_plc_ibus_nf (s : plc_run) (w : plc_world) :
    oplus_plc_check_plc_ibus s w =
      (⟨{ s.chip with data := { s.chip.data with
            avg_ibat := avg_of s.chip.data.ibat_column
            init_ui_soc := policy_ui s.chip w } },
        s.out ++ policy_out s.chip w⟩, policy_value s.chip w) := by
  refine Prod.ext ?_ rfl
  show (if policy_exit s.chip w = true then
      soc_exit_block (set_data { s.chip.data with avg_ibat := avg_of s.chip.data.ibat_column } s) w
    else set_data { s.chip.data with avg_ibat := avg_of s.chip.data.ibat_column } s) = _
  by_cases h : policy_exit s.chip w = true
  · rw [if_pos h, soc_exit_block_nf]
    simp only [policy_ui, policy_out, h, set_data, oplus_plc_get_vote_allow_soc, true_and,
      if_true]
  · rw [if_neg h]
    simp [policy_ui, policy_out, h, set_data]

lemma ibat_low_count_nf (s : plc_run) (v : Int) :
    ibat_low_count s v =
      ⟨{ s.chip with data := { s.chip.data with
          ibat_low := if s.chip.ufcs_charging = true ∧ v ≤ PLC_IBUS_MIN ∧
            s.chip.data.avg_ibat < 0 then s.chip.data.ibat_low + 1 else 0 } }, s.out⟩ := by
  unfold ibat_low_count
  split_ifs <;> rfl

lemma ibus_over_count_nf (s : plc_run) (v : Int) :
    ibus_over_count s v =
      ⟨{ s.chip with data := { s.chip.data with
          ibus_over := if s.chip.ufcs_charging = false ∧ v > PLC_IBUS_HIGH_MAX then
            s.chip.data.ibus_over + 1 else 0 } }, s.out⟩ := by
  unfold ibus_over_count
  split_ifs <;> rfl

lemma ibat_low_action_nf (s : plc_run) :
    ibat_low_action s =
      ⟨{ s.chip with data := { s.chip.data with init_ui_soc := s.chip.ui_soc } },
        s.out ++ [plc_effect.push_dischg_plc true, plc_effect.vote plc_port.output_suspend true 1,
          plc_effect.track_msg PLC_TRACK_IBAT_EXIT]⟩ := by
  simp [ibat_low_action, oplus_plc_push_dischg_plc, emit, oplus_plc_get_deleta_track_msg,
    set_data]

lemma ibus_over_action_nf (s : plc_run) (w : plc_world)
    (h : s.chip.plc_status = PLC_STATUS_ENABLE ∧ oplus_plc_get_vote_allow_plc s.chip w > 0) :
    ibus_over_action s w =
      ⟨{ s.chip with
          plc_curr := 0
          data := { s.chip.data with init_ui_soc := s.chip.ui_soc } },
        s.out ++ [plc_effect.push_plc_curr 0, plc_effect.vote plc_port.output_suspend false 0,
          plc_effect.vote plc_port.wired_suspend true 1, plc_effect.msleep PLC_SUSPEND_DELAY,
          plc_effect.vote plc_port.wired_suspend false 0, plc_effect.push_dischg_plc false,
          plc_effect.track_msg PLC_TRACK_IBUS_ENTER]⟩ := by
  unfold ibus_over_action
  rw [if_pos h]
  simp [oplus_plc_push_dischg_plc, emit, oplus_plc_get_deleta_track_msg, set_data,
    oplus_plc_push_plc_curr]

lemma publish_target_nf (s : plc_run) (v : Int) :
    publish_target s v =
      if s.chip.ufcs_online = true ∧
          (s.chip.plc_status = PLC_STATUS_ENABLE ∨ s.chip.plc_status = PLC_STATUS_WAIT) then
        ⟨{ s.chip with plc_curr := v }, s.out ++ [plc_effect.push_plc_curr v]⟩
      else s := by
  unfold publish_target
  split_ifs <;> rfl
lemma allow_plc_data (c : oplus_chg_plc) (d : plc_data) (w : plc_world) :
    oplus_plc_get_vote_allow_plc { c with data := d } w = oplus_plc_get_vote_allow_plc c w := rfl

lemma policy_value_avg_ibus (c : oplus_chg_plc) (x : Int) (w : plc_world) :
    policy_value { c with data := { c.data with avg_ibus := x } } w = policy_value c w := rfl

lemma policy_ui_avg_ibus (c : oplus_chg_plc) (x : Int) (w : plc_world) :
    policy_ui { c with data := { c.data with avg_ibus := x } } w = policy_ui c w := rfl

lemma policy_out_avg_ibus (c : oplus_chg_plc) (x : Int) (w : plc_world) :
    policy_out { c with data := { c.data with avg_ibus := x } } w = policy_out c w := rfl

lemma ibat_check_nf (s : plc_run) (w : plc_world) :
    oplus_plc_ibat_check s w =
      if s.chip.ufcs_charging = true ∧ low_next s.chip w = PLC_IBAT_LOW_CNTS ∧
          s.chip.plc_status = PLC_STATUS_ENABLE ∧ oplus_plc_get_vote_allow_plc s.chip w ≤ 0 then
        ⟨{ s.chip with data := { s.chip.data with
            avg_ibus := avg_of s.chip.data.ibus_column
            avg_ibat := avg_of s.chip.data.ibat_column
            init_ui_soc := s.chip.ui_soc
            ibat_low := low_next s.chip w } },
          s.out ++ policy_out s.chip w ++
            [plc_effect.push_dischg_plc true, plc_effect.vote plc_port.output_suspend true 1,
              plc_effect.track_msg PLC_TRACK_IBAT_EXIT]⟩
      else if s.chip.ufcs_charging = false ∧ s.chip.plc_status = PLC_STATUS_ENABLE ∧
          oplus_plc_get_vote_allow_plc s.chip w > 0 ∧ over_next s.chip = PLC_IBUS_HIGH_CNTS then
        ⟨{ s.chip with
            plc_curr := policy_value s.chip w
            data := { s.chip.data with
              avg_ibus := avg_of s.chip.data.ibus_column
              avg_ibat := avg_of s.chip.data.ibat_column
              init_ui_soc := s.chip.ui_soc
              ibat_low := low_next s.chip w
              ibus_over := over_next s.chip } },
          s.out ++ policy_out s.chip w ++
            [plc_effect.push_plc_curr 0, plc_effect.vote plc_port.output_suspend false 0,
              plc_effect.vote plc_port.wired_suspend true 1, plc_effect.msleep PLC_SUSPEND_DELAY,
              plc_effect.vote plc_port.wired_suspend false 0, plc_effect.push_dischg_plc false,
              plc_effect.track_msg PLC_TRACK_IBUS_ENTER,
              plc_effect.push_plc_curr (policy_value s.chip w)]⟩
      else if s.chip.ufcs_online = true ∧
          (s.chip.plc_status = PLC_STATUS_ENABLE ∨ s.chip.plc_status = PLC_STATUS_WAIT) then
        ⟨{ s.chip with
            plc_curr := policy_value s.chip w
            data := { s.chip.data with
              avg_ibus := avg_of s.chip.data.ibus_column
              avg_ibat := avg_of s.chip.data.ibat_column
              init_ui_soc := policy_ui s.chip w
              ibat_low := low_next s.chip w
              ibus_over := over_next s.chip } },
          s.out ++ policy_out s.chip w ++ [plc_effect.push_plc_curr (policy_value s.chip w)]⟩
      else
        ⟨{ s.chip with
            data := { s.chip.data with
              avg_ibus := avg_of s.chip.data.ibus_column
              avg_ibat := avg_of s.chip.data.ibat_column
              init_ui_soc := policy_ui s.chip w
              ibat_low := low_next s.chip w
              ibus_over := over_next s.chip } },
          s.out ++ policy_out s.chip w⟩ := by
  unfold oplus_plc_ibat_check
  simp only [get_avg_ibus_nf, check_plc_ibus_nf, ibat_low_count_nf, policy_value_avg_ibus,
    policy_ui_avg_ibus, policy_out_avg_ibus, allow_plc_data]
  have hl : (if s.chip.ufcs_charging = true ∧ policy_value s.chip w ≤ PLC_IBUS_MIN ∧
      avg_of s.chip.data.ibat_column < 0 then s.chip.data.ibat_low + 1 else 0) =
      low_next s.chip w := by
    simp [low_next, low_qualifies]
  rw [hl]
  by_cases hlow : s.chip.ufcs_charging = true ∧ low_next s.chip w = PLC_IBAT_LOW_CNTS ∧
      s.chip.plc_status = PLC_STATUS_ENABLE ∧ oplus_plc_get_vote_allow_plc s.chip w ≤ 0
  · rw [if_pos hlow, if_pos hlow, ibat_low_action_nf]
  rw [if_neg hlow, if_neg hlow]
  simp only [ibus_over_count_nf, allow_plc_data]
  have ho : (if s.chip.ufcs_charging = false ∧ avg_of s.chip.data.ibus_column > PLC_IBUS_HIGH_MAX
      then s.chip.data.ibus_over + 1 else 0) = over_next s.chip := by
    simp [over_next, over_qualifies]
  rw [ho]
  by_cases hov : s.chip.ufcs_charging = false ∧ s.chip.plc_status = PLC_STATUS_ENABLE ∧
      oplus_plc_get_vote_allow_plc s.chip w > 0 ∧ over_next s.chip = PLC_IBUS_HIGH_CNTS
  · have hon : s.chip.ufcs_online = true := by
      by_contra hc
      have := hov.2.2.1
      simp [oplus_plc_get_vote_allow_plc, hc, EINVAL] at this
    rw [if_pos hov, if_pos hov, ibus_over_action_nf, publish_target_nf]
    · simp only [hon, hov.2.1, true_and, true_or, if_true, List.append_assoc, List.cons_append,
        List.nil_append]
    all_goals exact ⟨hov.2.1, hov.2.2.1⟩
  · rw [if_neg hov, if_neg hov, publish_target_nf]

/-! ## The control-loop tick -/

lemma take_set_succ (l : List Int) (n : Nat) (v : Int) (h : n < l.length) :
    (l.set n v).take (n + 1) = l.take n ++ [v] := by
  induction l generalizing n with
  | nil => simp at h
  | cons a t ih =>
    cases n with
    | zero => simp
    | succ m =>
      have hm : m < t.length := by simpa using h
      simp [List.set, List.take, ih m hm]

lemma read_ibatt_shape (s : plc_run) (w : plc_world) :
    oplus_plc_read_ibatt s w =
      ⟨{ s.chip with data := { s.chip.data with
          ibat_column := column_store s.chip.data.ibat_column s.chip.data.ibat_index w.gauge_curr
          ibat_index := Int.tmod (s.chip.data.ibat_index + 1) PLC_IBAT_AVG_NUM
          ibat_cnts := s.chip.data.ibat_cnts + 1
          plc_check := decide (Int.tmod (s.chip.data.ibat_index + 1) PLC_IBAT_AVG_NUM = 0)
          ibus_column := (oplus_plc_read_ibatt s w).chip.data.ibus_column
          ibus_index := (oplus_plc_read_ibatt s w).chip.data.ibus_index
          ibus_cnts := (oplus_plc_read_ibatt s w).chip.data.ibus_cnts } }, s.out⟩ := by
  unfold oplus_plc_read_ibatt
  simp only [set_data]
  split_ifs with h1 h2 h2 <;> simp [h2]

lemma read_ibatt_shape_ex (s : plc_run) (w : plc_world) :
    ∃ (bc : List Int) (bi bn : Int), oplus_plc_read_ibatt s w =
      ⟨{ s.chip with data := { s.chip.data with
          ibat_column := column_store s.chip.data.ibat_column s.chip.data.ibat_index w.gauge_curr
          ibat_index := Int.tmod (s.chip.data.ibat_index + 1) PLC_IBAT_AVG_NUM
          ibat_cnts := s.chip.data.ibat_cnts + 1
          plc_check := decide (Int.tmod (s.chip.data.ibat_index + 1) PLC_IBAT_AVG_NUM = 0)
          ibus_column := bc
          ibus_index := bi
          ibus_cnts := bn } }, s.out⟩ :=
  ⟨_, _, _, read_ibatt_shape s w⟩

lemma tick_ports_check_cached (c : oplus_chg_plc) (w : plc_world)
    (h : c.ufcs_not_allow_votable = true ∧ c.ufcs_disable_votable = true ∧
      c.output_suspend_votable = true ∧ c.wired_suspend_votable = true ∧
      c.ufcs_curr_votable = true) :
    tick_ports_check c w = (c, true) := by
  obtain ⟨h1, h2, h3, h4, h5⟩ := h
  simp [tick_ports_check, is_ufcs_not_allow_votable_available,
    is_ufcs_disable_votable_available, is_output_suspend_votable_available,
    is_wired_suspend_votable_available, is_ufcs_curr_votable_available, h1, h2, h3, h4, h5]

lemma avail_not_allow (c : oplus_chg_plc) (w : plc_world)
    (h : (c.ufcs_not_allow_votable || w.find_ufcs_not_allow) = true) :
    is_ufcs_not_allow_votable_available c w = ({ c with ufcs_not_allow_votable := true }, true) := by
  obtain ⟨a1, a2, a3, a4, a5, a6, d, b1, b2, b3, b4, b5, b6, b7, b8, b9, b10⟩ := c
  cases a3 <;> simp_all [is_ufcs_not_allow_votable_available]

lemma avail_disable (c : oplus_chg_plc) (w : plc_world)
    (h : (c.ufcs_disable_votable || w.find_ufcs_disable) = true) :
    is_ufcs_disable_votable_available c w = ({ c with ufcs_disable_votable := true }, true) := by
  obtain ⟨a1, a2, a3, a4, a5, a6, d, b1, b2, b3, b4, b5, b6, b7, b8, b9, b10⟩ := c
  cases a2 <;> simp_all [is_ufcs_disable_votable_available]

lemma avail_output_suspend (c : oplus_chg_plc) (w : plc_world)
    (h : (c.output_suspend_votable || w.find_output_suspend) = true) :
    is_output_suspend_votable_available c w = ({ c with output_suspend_votable := true }, true) := by
  obtain ⟨a1, a2, a3, a4, a5, a6, d, b1, b2, b3, b4, b5, b6, b7, b8, b9, b10⟩ := c
  cases a4 <;> simp_all [is_output_suspend_votable_available]

lemma avail_wired_suspend (c : oplus_chg_plc) (w : plc_world)
    (h : (c.wired_suspend_votable || w.find_wired_suspend) = true) :
    is_wired_suspend_votable_available c w = ({ c with wired_suspend_votable := true }, true) := by
  obtain ⟨a1, a2, a3, a4, a5, a6, d, b1, b2, b3, b4, b5, b6, b7, b8, b9, b10⟩ := c
  cases a6 <;> simp_all [is_wired_suspend_votable_available]

lemma avail_ufcs_curr (c : oplus_chg_plc) (w : plc_world)
    (h : (c.ufcs_curr_votable || w.find_ufcs_curr) = true) :
    is_ufcs_curr_votable_available c w = ({ c with ufcs_curr_votable := true }, true) := by
  obtain ⟨a1, a2, a3, a4, a5, a6, d, b1, b2, b3, b4, b5, b6, b7, b8, b9, b10⟩ := c
  cases a1 <;> simp_all [is_ufcs_curr_votable_available]

lemma tick_ports_check_found (c : oplus_chg_plc) (w : plc_world) (h : tick_ports_available c w) :
    tick_ports_check c w =
      ({ c with ufcs_not_allow_votable := true, ufcs_disable_votable := true,
                output_suspend_votable := true, wired_suspend_votable := true,
                ufcs_curr_votable := true }, true) := by
  obtain ⟨h1, h2, h3, h4, h5⟩ := h
  have e2 := avail_disable { c with ufcs_not_allow_votable := true } w h2
  have e3 := avail_output_suspend
    { c with ufcs_not_allow_votable := true, ufcs_disable_votable := true } w h3
  have e4 := avail_wired_suspend
    { c with ufcs_not_allow_votable := true, ufcs_disable_votable := true,
             output_suspend_votable := true } w h4
  have e5 := avail_ufcs_curr
    { c with ufcs_not_allow_votable := true, ufcs_disable_votable := true,
             output_suspend_votable := true, wired_suspend_votable := true } w h5
  unfold tick_ports_check
  simp only [avail_not_allow c w h1, e2, e3, e4, e5, Bool.true_eq_false, if_false]

lemma tick_eligible (s : plc_run) (w : plc_world) (c1 : oplus_chg_plc)
    (hp : tick_ports_check s.chip w = (c1, true))
    (hs : c1.plc_status = PLC_STATUS_ENABLE ∨ c1.plc_status = PLC_STATUS_WAIT)
    (ho : c1.ufcs_online = true)
    (hu : c1.plc_support = CHG_PROTOCOL_UFCS) (hb : c1.plc_buck = 0) :
    oplus_plc_monitor_current_work s w =
      emit (.schedule .plc_current_work PLC_MONITOR_CURRENT_DELAY)
        (if (oplus_plc_read_ibatt (oplus_plc_init_status ⟨c1, s.out⟩ w) w).chip.data.plc_check
            = true then
          oplus_plc_ibat_check (oplus_plc_read_ibatt (oplus_plc_init_status ⟨c1, s.out⟩ w) w) w
         else oplus_plc_read_ibatt (oplus_plc_init_status ⟨c1, s.out⟩ w) w) := by
  unfold oplus_plc_monitor_current_work
  simp only [hp]
  rw [if_neg (by simp), if_pos ⟨hs, ⟨ho, hu⟩, hb⟩]

lemma tick_eligible_cached (s : plc_run) (w : plc_world)
    (hp : tick_ports_check s.chip w = (s.chip, true))
    (hs : s.chip.plc_status = PLC_STATUS_ENABLE ∨ s.chip.plc_status = PLC_STATUS_WAIT)
    (ho : s.chip.ufcs_online = true)
    (hu : s.chip.plc_support = CHG_PROTOCOL_UFCS) (hb : s.chip.plc_buck = 0) :
    oplus_plc_monitor_current_work s w =
      emit (.schedule .plc_current_work PLC_MONITOR_CURRENT_DELAY)
        (if (oplus_plc_read_ibatt (oplus_plc_init_status s w) w).chip.data.plc_check = true then
          oplus_plc_ibat_check (oplus_plc_read_ibatt (oplus_plc_init_status s w) w) w
         else oplus_plc_read_ibatt (oplus_plc_init_status s w) w) := by
  unfold oplus_plc_monitor_current_work
  simp only [hp]
  rw [if_neg (by simp), if_pos ⟨hs, ⟨ho, hu⟩, hb⟩]
lemma init_status_done (s : plc_run) (w : plc_world) (h : s.chip.data.init_status = true) :
    oplus_plc_init_status s w = s := by
  unfold oplus_plc_init_status
  rw [if_pos h]

lemma tick_mid (c0 : oplus_chg_plc) (samples : List Int) (s : plc_run) (w : plc_world)
    (hm : mid_session c0 samples s)
    (hE : c0.plc_status = PLC_STATUS_ENABLE ∧ c0.ufcs_online = true ∧
      c0.plc_support = CHG_PROTOCOL_UFCS ∧ c0.plc_buck = 0)
    (hlen : samples.length < 9) :
    mid_session c0 (samples ++ [w.gauge_curr]) (oplus_plc_monitor_current_work s w) := by
  obtain ⟨hh, ⟨g1, g2, g3, g4, g5, g6, g7⟩, ⟨i1, i2, i3⟩, ⟨k1, k2, k3⟩, ⟨l1, l2⟩⟩ := hm
  obtain ⟨e1, e2, e3, e4⟩ := hE
  rw [tick_eligible_cached s w (tick_ports_check_cached s.chip w hh) (Or.inl (g1.trans e1))
    (g2.trans e2) (g3.trans e3) (g4.trans e4)]
  rw [init_status_done s w i1]
  have hidx : Int.tmod (s.chip.data.ibat_index + 1) PLC_IBAT_AVG_NUM =
      ((samples.length + 1 : Nat) : Int) := by
    rw [k1, PLC_IBAT_AVG_NUM, Int.tmod_eq_of_lt (by omega) (by omega)]
    push_cast
    rfl
  have hshape := read_ibatt_shape s w
  have hc : (oplus_plc_read_ibatt s w).chip.data.plc_check = false := by
    rw [hshape]
    simp only [hidx]
    simp
    omega
  rw [hc, if_neg (by simp)]
  unfold mid_session emit
  rw [hshape]
  simp only [List.length_append, List.length_singleton]
  refine ⟨hh, ⟨g1, g2, g3, g4, g5, g6, g7⟩, ⟨i1, i2, i3⟩, ⟨hidx, k2, k3⟩, ?_⟩
  have hst : column_store s.chip.data.ibat_column s.chip.data.ibat_index w.gauge_curr =
      s.chip.data.ibat_column.set samples.length w.gauge_curr := by
    unfold column_store
    rw [k1, if_pos ⟨by omega, by simp [PLC_IBAT_AVG_NUM]; omega⟩]
    simp
  rw [hst]
  refine ⟨by simp [l1], ?_⟩
  rw [take_set_succ _ _ _ (by omega), l2]

lemma init_status_fresh (s : plc_run) (w : plc_world) (h : s.chip.data.init_status = false) :
    oplus_plc_init_status s w =
      ⟨{ s.chip with
          plc_curr := PLC_IBUS_DEFAULT
          data := { s.chip.data with
            init_status := true
            init_ui_soc := s.chip.ui_soc
            init_soc := w.gauge_soc
            init_sm_soc := s.chip.sm_soc } },
        s.out ++ [plc_effect.push_plc_curr PLC_IBUS_DEFAULT]⟩ := by
  unfold oplus_plc_init_status
  rw [if_neg (by simp [h])]
  simp only [set_data, oplus_plc_push_plc_curr, emit]

lemma tick_first (c : oplus_chg_plc) (w : plc_world)
    (hr : is_reset_session c.data) (hcol : c.data.ibat_column.length = 10)
    (hE : c.plc_status = PLC_STATUS_ENABLE ∧ c.ufcs_online = true ∧
      c.plc_support = CHG_PROTOCOL_UFCS ∧ c.plc_buck = 0)
    (hp : tick_ports_available c w) :
    mid_session c [w.gauge_curr] (oplus_plc_monitor_current_work ⟨c, []⟩ w) ∧
      (oplus_plc_monitor_current_work ⟨c, []⟩ w).out =
        [plc_effect.push_plc_curr PLC_IBUS_DEFAULT,
          plc_effect.schedule plc_work.plc_current_work PLC_MONITOR_CURRENT_DELAY] := by
  obtain ⟨r1, r2, r3, r4, r5, r6, r7, r8⟩ := hr
  obtain ⟨e1, e2, e3, e4⟩ := hE
  rw [tick_eligible ⟨c, []⟩ w _ (tick_ports_check_found c w hp) (Or.inl e1) e2 e3 e4]
  rw [init_status_fresh _ w r2]
  have hshape := read_ibatt_shape ⟨{ c with
          ufcs_not_allow_votable := true, ufcs_disable_votable := true,
          output_suspend_votable := true, wired_suspend_votable := true,
          ufcs_curr_votable := true
          plc_curr := PLC_IBUS_DEFAULT
          data := { c.data with
            init_status := true
            init_ui_soc := c.ui_soc
            init_soc := w.gauge_soc
            init_sm_soc := c.sm_soc } },
        [plc_effect.push_plc_curr PLC_IBUS_DEFAULT]⟩ w
  simp only [List.nil_append] at hshape ⊢
  rw [hshape]
  simp only [r3, zero_add]
  have h1 : Int.tmod 1 PLC_IBAT_AVG_NUM = 1 := by decide
  rw [h1]
  simp only [show decide ((1 : Int) = 0) = false by decide, Bool.false_eq_true, if_false]
  unfold mid_session emit
  simp only [List.length_singleton, List.cons_append, List.nil_append]
  refine ⟨⟨?_, ?_, ?_, ?_, ?_⟩, ?_⟩
  · simp
  · simp
  · simp
  · simp [r8]
  swap
  · simp
  have hst : column_store c.data.ibat_column 0 w.gauge_curr =
      c.data.ibat_column.set 0 w.gauge_curr := by
    unfold column_store
    rw [if_pos ⟨by omega, by decide⟩]
    simp
  rw [hst]
  refine ⟨by simp [hcol], ?_⟩
  rw [take_set_succ _ _ _ (by omega)]
  simp
lemma emit_chip (e : plc_effect) (s : plc_run) : (emit e s).chip = s.chip := rfl

lemma tick_complete (c0 : oplus_chg_plc) (samples : List Int) (s : plc_run) (w : plc_world)
    (hm : mid_session c0 samples s)
    (hE : c0.plc_status = PLC_STATUS_ENABLE ∧ c0.ufcs_online = true ∧
      c0.plc_support = CHG_PROTOCOL_UFCS ∧ c0.plc_buck = 0)
    (hlen : samples.length = 9)
    (hceil : c0.ui_soc < c0.plc_soc) (hds : c0.sm_soc - c0.ui_soc = 0)
    (havg : 0 < avg_of (samples ++ [w.gauge_curr])) :
    (oplus_plc_monitor_current_work s w).chip.plc_curr =
      spec_clamp (oplus_plc_get_vote_curr c0 w +
        plc_delta_ibat (avg_of (samples ++ [w.gauge_curr])) w.batt_num) := by
  obtain ⟨hh, ⟨g1, g2, g3, g4, g5, g6, g7⟩, ⟨i1, i2, i3⟩, ⟨k1, k2, k3⟩, ⟨l1, l2⟩⟩ := hm
  obtain ⟨e1, e2, e3, e4⟩ := hE
  rw [tick_eligible_cached s w (tick_ports_check_cached s.chip w hh) (Or.inl (g1.trans e1))
    (g2.trans e2) (g3.trans e3) (g4.trans e4), init_status_done s w i1, emit_chip]
  have hidx : Int.tmod (s.chip.data.ibat_index + 1) PLC_IBAT_AVG_NUM = 0 := by
    rw [k1, hlen]; decide
  obtain ⟨bc, bi, bn, hshape⟩ := read_ibatt_shape_ex s w
  have hst : column_store s.chip.data.ibat_column s.chip.data.ibat_index w.gauge_curr =
      samples ++ [w.gauge_curr] := by
    unfold column_store
    rw [k1, if_pos ⟨by omega, by simp [PLC_IBAT_AVG_NUM]; omega⟩]
    have := take_set_succ s.chip.data.ibat_column samples.length w.gauge_curr (by omega)
    rw [l2, hlen] at this
    rw [← this, Int.toNat_ofNat, hlen]
    exact (List.take_of_length_le (by rw [List.length_set, l1])).symm
  rw [hidx, hst] at hshape
  generalize hX : oplus_plc_read_ibatt s w = X at hshape ⊢
  have fchk : X.chip.data.plc_check = true := by rw [hshape]; simp
  have fo : X.chip.ufcs_online = true := by rw [hshape]; exact g2.trans e2
  have fs : X.chip.plc_status = PLC_STATUS_ENABLE := by rw [hshape]; exact g1.trans e1
  have fu : X.chip.plc_support = c0.plc_support := by rw [hshape]; exact g3
  have fcol : X.chip.data.ibat_column = samples ++ [w.gauge_curr] := by rw [hshape]
  have fov : X.chip.data.ibus_over = 0 := by rw [hshape]; exact k2
  have fui : X.chip.data.init_ui_soc = c0.ui_soc := by rw [hshape]; exact i2
  have fsm : X.chip.data.init_sm_soc = c0.sm_soc := by rw [hshape]; exact i3
  have fsoc : X.chip.sm_soc = c0.sm_soc := by rw [hshape]; exact g5
  have fp : X.chip.plc_soc = c0.plc_soc := by rw [hshape]; exact g7
  clear hshape hX
  have hvc : oplus_plc_get_vote_curr X.chip w = oplus_plc_get_vote_curr c0 w := by
    unfold oplus_plc_get_vote_curr
    rw [fo, fu, e2]
  have hpv : policy_value X.chip w = spec_clamp (oplus_plc_get_vote_curr c0 w +
      plc_delta_ibat (avg_of (samples ++ [w.gauge_curr])) w.batt_num) := by
    unfold policy_value
    rw [core_eq_table, fui, fsm, fsoc, fp, fcol, hvc]
    congr 1
    unfold spec_decision_table
    have hsm : c0.sm_soc = c0.ui_soc := by omega
    rw [if_neg (by omega), if_neg (by omega), if_neg (by omega)]
    simp [hsm, havg]
  have hlow : low_next X.chip w = 0 := by
    unfold low_next low_qualifies
    rw [fcol]
    have : ¬ avg_of (samples ++ [w.gauge_curr]) < 0 := by omega
    simp [this]
  have hover : over_next X.chip ≠ PLC_IBUS_HIGH_CNTS := by
    unfold over_next PLC_IBUS_HIGH_CNTS
    rw [fov]
    split_ifs <;> omega
  rw [if_pos fchk, ibat_check_nf, if_neg, if_neg, if_pos ⟨fo, Or.inl fs⟩]
  · exact hpv
  · exact fun h => hover h.2.2.2
  · rw [hlow]
    exact fun h => absurd h.2.1 (by decide)
lemma avg_of_ten (a0 a1 a2 a3 a4 a5 a6 a7 a8 a9 : Int) :
    avg_of [a0, a1, a2, a3, a4, a5, a6, a7, a8, a9] =
      Int.tdiv (a0 + a1 + a2 + a3 + a4 + a5 + a6 + a7 + a8 + a9) 10 := by
  simp [avg_of, column_sum, PLC_IBAT_AVG_NUM, List.range, List.range.loop]


/-! ## The enable callback -/

lemma avail_not_allow_nf (c : oplus_chg_plc) (w : plc_world) :
    is_ufcs_not_allow_votable_available c w =
      ({ c with ufcs_not_allow_votable := c.ufcs_not_allow_votable || w.find_ufcs_not_allow },
        c.ufcs_not_allow_votable || w.find_ufcs_not_allow) := by
  obtain ⟨a1, a2, a3, a4, a5, a6, d, b1, b2, b3, b4, b5, b6, b7, b8, b9, b10⟩ := c
  cases a3 <;> simp [is_ufcs_not_allow_votable_available]

lemma avail_disable_nf (c : oplus_chg_plc) (w : plc_world) :
    is_ufcs_disable_votable_available c w =
      ({ c with ufcs_disable_votable := c.ufcs_disable_votable || w.find_ufcs_disable },
        c.ufcs_disable_votable || w.find_ufcs_disable) := by
  obtain ⟨a1, a2, a3, a4, a5, a6, d, b1, b2, b3, b4, b5, b6, b7, b8, b9, b10⟩ := c
  cases a2 <;> simp [is_ufcs_disable_votable_available]

lemma avail_output_suspend_nf (c : oplus_chg_plc) (w : plc_world) :
    is_output_suspend_votable_available c w =
      ({ c with output_suspend_votable := c.output_suspend_votable || w.find_output_suspend },
        c.output_suspend_votable || w.find_output_suspend) := by
  obtain ⟨a1, a2, a3, a4, a5, a6, d, b1, b2, b3, b4, b5, b6, b7, b8, b9, b10⟩ := c
  cases a4 <;> simp [is_output_suspend_votable_available]

lemma avail_wired_suspend_nf (c : oplus_chg_plc) (w : plc_world) :
    is_wired_suspend_votable_available c w =
      ({ c with wired_suspend_votable := c.wired_suspend_votable || w.find_wired_suspend },
        c.wired_suspend_votable || w.find_wired_suspend) := by
  obtain ⟨a1, a2, a3, a4, a5, a6, d, b1, b2, b3, b4, b5, b6, b7, b8, b9, b10⟩ := c
  cases a6 <;> simp [is_wired_suspend_votable_available]

lemma callback_ports_check_nf (c : oplus_chg_plc) (w : plc_world) :
    callback_ports_check c w =
      if (c.ufcs_not_allow_votable || w.find_ufcs_not_allow) = false then
        ({ c with ufcs_not_allow_votable := false }, false)
      else if (c.ufcs_disable_votable || w.find_ufcs_disable) = false then
        ({ c with ufcs_not_allow_votable := true, ufcs_disable_votable := false }, false)
      else if (c.output_suspend_votable || w.find_output_suspend) = false then
        ({ c with ufcs_not_allow_votable := true, ufcs_disable_votable := true,
                  output_suspend_votable := false }, false)
      else
        ({ c with ufcs_not_allow_votable := true, ufcs_disable_votable := true,
                  output_suspend_votable := true,
                  wired_suspend_votable := c.wired_suspend_votable || w.find_wired_suspend },
          c.wired_suspend_votable || w.find_wired_suspend) := by
  unfold callback_ports_check
  simp only [avail_not_allow_nf, avail_disable_nf, avail_output_suspend_nf,
    avail_wired_suspend_nf]
  cases (c.ufcs_not_allow_votable || w.find_ufcs_not_allow)
  · simp
  cases (c.ufcs_disable_votable || w.find_ufcs_disable)
  · simp
  cases (c.output_suspend_votable || w.find_output_suspend)
  · simp
  simp

lemma callback_ports_check_frame (c : oplus_chg_plc) (w : plc_world) :
    (callback_ports_check c w).1.plc_status = c.plc_status ∧
    (callback_ports_check c w).1.data = c.data := by
  rw [callback_ports_check_nf]
  split_ifs <;> exact ⟨rfl, rfl⟩

lemma callback_ports_check_found (c : oplus_chg_plc) (w : plc_world)
    (h : callback_ports_available c w) :
    callback_ports_check c w =
      ({ c with ufcs_not_allow_votable := true, ufcs_disable_votable := true,
                output_suspend_votable := true, wired_suspend_votable := true }, true) := by
  obtain ⟨h1, h2, h3, h4⟩ := h
  rw [callback_ports_check_nf, h1, h2, h3, h4]
  simp

lemma callback_ports_check_twice (c : oplus_chg_plc) (w1 w2 : plc_world)
    (h : same_registry w1 w2) :
    callback_ports_check (callback_ports_check c w1).1 w2 = callback_ports_check c w1 := by
  obtain ⟨-, h2, h3, h4, -, h6⟩ := h
  obtain ⟨a1, a2, a3, a4, a5, a6, d, b1, b2, b3, b4, b5, b6, b7, b8, b9, b10⟩ := c
  rw [callback_ports_check_nf, callback_ports_check_nf, h2, h3, h4, h6]
  cases a2 <;> cases a3 <;> cases a4 <;> cases a6 <;>
    cases w1.find_ufcs_disable <;> cases w1.find_ufcs_not_allow <;>
    cases w1.find_output_suspend <;> cases w1.find_wired_suspend <;> rfl
lemma reset_status_nf (s : plc_run) :
    oplus_plc_reset_status s =
      ⟨{ s.chip with data := { s.chip.data with
          plc_check := false, init_status := false, ibat_index := 0, ibat_cnts := 0,
          ibus_index := 0, ibus_cnts := 0, ibat_low := 0, ibus_over := 0,
          ibat_column := memset_column s.chip.data.ibat_column,
          ibus_column := memset_column s.chip.data.ibus_column } }, s.out⟩ := by
  simp only [oplus_plc_reset_status, set_data]

lemma enable_from_disable_nf (s : plc_run) :
    enable_from_disable s =
      ⟨{ s.chip with data := { s.chip.data with
          plc_check := false, init_status := false, ibat_index := 0, ibat_cnts := 0,
          ibus_index := 0, ibus_cnts := 0, ibat_low := 0, ibus_over := 0,
          ibat_column := memset_column s.chip.data.ibat_column,
          ibus_column := memset_column s.chip.data.ibus_column,
          enable_cnts := s.chip.data.enable_cnts + 1 } },
        s.out ++ (if s.chip.wired_online = true ∧ s.chip.ufcs_charging = false then
            [plc_effect.vote plc_port.output_suspend true 1] else []) ++
          [plc_effect.publish_enable_cnts (s.chip.data.enable_cnts + 1)]⟩ := by
  unfold enable_from_disable
  simp only [reset_status_nf, set_data, oplus_plc_publish_enable_cnts, emit]
  split_ifs <;> simp

lemma enter_disable_chip (s : plc_run) (w : plc_world) : (enter_disable s w).chip = s.chip := by
  unfold enter_disable
  simp only [emit, oplus_plc_push_dischg_plc, oplus_plc_push_dischg_soc,
    oplus_plc_push_dischg_retry]
  split_ifs <;> rfl

lemma enter_enable_buck_chip (s : plc_run) : (enter_enable_buck s).chip = s.chip := rfl

lemma publish_status_chip (s : plc_run) (w : plc_world) :
    (publish_status_and_schedule s w).1.chip = s.chip := by
  unfold publish_status_and_schedule
  simp only [emit]
  split_ifs <;> rfl

lemma enable_transition_chip (s : plc_run) (w : plc_world) (enable : Int) :
    (enable_transition s w enable).chip =
      { s.chip with
        plc_status := enable
        data := if s.chip.plc_status = PLC_STATUS_DISABLE ∧ enable = PLC_STATUS_ENABLE then
            { s.chip.data with
              plc_check := false, init_status := false, ibat_index := 0, ibat_cnts := 0,
              ibus_index := 0, ibus_cnts := 0, ibat_low := 0, ibus_over := 0,
              ibat_column := memset_column s.chip.data.ibat_column,
              ibus_column := memset_column s.chip.data.ibus_column,
              enable_cnts := s.chip.data.enable_cnts + 1 }
          else s.chip.data } := by
  unfold enable_transition
  by_cases hw : enable = PLC_STATUS_WAIT
  · have hne : ¬ (s.chip.plc_status = PLC_STATUS_DISABLE ∧ enable = PLC_STATUS_ENABLE) := by
      rw [hw]; exact fun h => absurd h.2 (by decide)
    rw [if_pos hw, if_neg hne, hw]
    rfl
  rw [if_neg hw]
  by_cases hd : s.chip.plc_status = PLC_STATUS_DISABLE ∧ enable = PLC_STATUS_ENABLE
  · simp only [if_pos hd, enable_from_disable_nf]
    split_ifs <;> first | rfl | (rw [enter_disable_chip])
  · simp only [if_neg hd]
    split_ifs <;> first | rfl | (rw [enter_disable_chip])

lemma callback_chip (s : plc_run) (w : plc_world) (enable : Int)
    (hne : s.chip.plc_status ≠ enable) (hp : callback_ports_available s.chip w) :
    (oplus_plc_enable_vote_callback s w enable).1.chip =
      { s.chip with
        ufcs_not_allow_votable := true, ufcs_disable_votable := true,
        output_suspend_votable := true, wired_suspend_votable := true,
        plc_status := enable
        data := if s.chip.plc_status = PLC_STATUS_DISABLE ∧ enable = PLC_STATUS_ENABLE then
            { s.chip.data with
              plc_check := false, init_status := false, ibat_index := 0, ibat_cnts := 0,
              ibus_index := 0, ibus_cnts := 0, ibat_low := 0, ibus_over := 0,
              ibat_column := memset_column s.chip.data.ibat_column,
              ibus_column := memset_column s.chip.data.ibus_column,
              enable_cnts := s.chip.data.enable_cnts + 1 }
          else s.chip.data } := by
  unfold oplus_plc_enable_vote_callback
  rw [if_neg hne]
  simp only [callback_ports_check_found s.chip w hp, Bool.true_eq_false, if_false]
  rw [publish_status_chip, enable_transition_chip]

/-! ## Guard streaks -/

lemma ibat_check_low (s : plc_run) (w : plc_world) :
    (oplus_plc_ibat_check s w).chip.data.ibat_low = low_next s.chip w := by
  rw [ibat_check_nf]
  split_ifs <;> rfl

lemma ibat_check_over (s : plc_run) (w : plc_world)
    (h : ¬ (s.chip.ufcs_charging = true ∧ low_next s.chip w = PLC_IBAT_LOW_CNTS ∧
      s.chip.plc_status = PLC_STATUS_ENABLE ∧ oplus_plc_get_vote_allow_plc s.chip w ≤ 0)) :
    (oplus_plc_ibat_check s w).chip.data.ibus_over = over_next s.chip := by
  rw [ibat_check_nf, if_neg h]
  split_ifs <;> rfl

lemma policy_out_no_dischg_plc (c : oplus_chg_plc) (w : plc_world) (b : Bool) :
    plc_effect.push_dischg_plc b ∉ policy_out c w := by
  unfold policy_out
  split_ifs <;> simp

lemma low_fires_iff (c : oplus_chg_plc) (w : plc_world) :
    plc_effect.push_dischg_plc true ∈ (oplus_plc_ibat_check ⟨c, []⟩ w).out ↔
      (c.ufcs_charging = true ∧ low_next c w = PLC_IBAT_LOW_CNTS ∧
        c.plc_status = PLC_STATUS_ENABLE ∧ oplus_plc_get_vote_allow_plc c w ≤ 0) := by
  have hp := policy_out_no_dischg_plc c w true
  rw [ibat_check_nf]
  by_cases h : c.ufcs_charging = true ∧ low_next c w = PLC_IBAT_LOW_CNTS ∧
      c.plc_status = PLC_STATUS_ENABLE ∧ oplus_plc_get_vote_allow_plc c w ≤ 0
  · rw [if_pos h]
    exact ⟨fun _ => h, fun _ => by simp⟩
  · rw [if_neg h]
    refine ⟨fun hm => ?_, fun hh => absurd hh h⟩
    exfalso
    revert hm
    split_ifs <;> simp [hp]

lemma over_fires_iff (c : oplus_chg_plc) (w : plc_world) :
    plc_effect.push_dischg_plc false ∈ (oplus_plc_ibat_check ⟨c, []⟩ w).out ↔
      (¬ (c.ufcs_charging = true ∧ low_next c w = PLC_IBAT_LOW_CNTS ∧
        c.plc_status = PLC_STATUS_ENABLE ∧ oplus_plc_get_vote_allow_plc c w ≤ 0) ∧
       (c.ufcs_charging = false ∧ c.plc_status = PLC_STATUS_ENABLE ∧
        oplus_plc_get_vote_allow_plc c w > 0 ∧ over_next c = PLC_IBUS_HIGH_CNTS)) := by
  have hp := policy_out_no_dischg_plc c w false
  rw [ibat_check_nf]
  by_cases h : c.ufcs_charging = true ∧ low_next c w = PLC_IBAT_LOW_CNTS ∧
      c.plc_status = PLC_STATUS_ENABLE ∧ oplus_plc_get_vote_allow_plc c w ≤ 0
  · rw [if_pos h]
    refine ⟨fun hm => ?_, fun hh => absurd h hh.1⟩
    exfalso
    revert hm
    simp [hp]
  · rw [if_neg h]
    by_cases h2 : c.ufcs_charging = false ∧ c.plc_status = PLC_STATUS_ENABLE ∧
        oplus_plc_get_vote_allow_plc c w > 0 ∧ over_next c = PLC_IBUS_HIGH_CNTS
    · rw [if_pos h2]
      exact ⟨fun _ => ⟨h, h2⟩, fun _ => by simp⟩
    · rw [if_neg h2]
      refine ⟨fun hm => ?_, fun hh => absurd hh.2 h2⟩
      exfalso
      revert hm
      split_ifs <;> simp [hp]

lemma streak_snoc (qs : List Bool) (q : Bool) :
    streak (qs ++ [q]) = if q = true then streak qs + 1 else 0 := by
  unfold streak
  cases q <;> simp [List.takeWhile]

lemma streak_nil : streak [] = 0 := rfl
lemma low_next_with_counters (c : oplus_chg_plc) (a b : Int) (w : plc_world) :
    low_next (with_counters c a b) w = if low_qualifies c w = true then a + 1 else 0 := rfl

lemma over_next_with_counters (c : oplus_chg_plc) (a b : Int) :
    over_next (with_counters c a b) = if over_qualifies c = true then b + 1 else 0 := rfl

lemma run_cycles_snoc (cnt : Int × Int) (l : List (oplus_chg_plc × plc_world))
    (x : oplus_chg_plc × plc_world) :
    run_cycles cnt (l ++ [x]) = cycle_step (run_cycles cnt l) x := by
  simp [run_cycles, List.foldl_append]

lemma run_cycles_low (l : List (oplus_chg_plc × plc_world)) :
    (run_cycles (0, 0) l).1 = (streak (l.map fun y => low_qualifies y.1 y.2) : Int) := by
  induction l using List.reverseRecOn with
  | nil => rfl
  | append_singleton l x ih =>
    rw [run_cycles_snoc, List.map_append, List.map_singleton, streak_snoc]
    show (oplus_plc_ibat_check _ x.2).chip.data.ibat_low = _
    rw [ibat_check_low, low_next_with_counters, ih]
    split_ifs <;> simp

lemma run_cycles_over (l : List (oplus_chg_plc × plc_world))
    (hg : ∀ y ∈ l, oplus_plc_get_vote_allow_plc y.1 y.2 > 0) :
    (run_cycles (0, 0) l).2 = (streak (l.map fun y => over_qualifies y.1) : Int) := by
  induction l using List.reverseRecOn with
  | nil => rfl
  | append_singleton l x ih =>
    have hx : oplus_plc_get_vote_allow_plc x.1 x.2 > 0 := hg x (by simp)
    have ih' := ih (fun y hy => hg y (by simp [hy]))
    rw [run_cycles_snoc, List.map_append, List.map_singleton, streak_snoc]
    show (oplus_plc_ibat_check _ x.2).chip.data.ibus_over = _
    rw [ibat_check_over, over_next_with_counters, ih']
    · split_ifs <;> simp
    · intro h
      have h4 : oplus_plc_get_vote_allow_plc x.1 x.2 ≤ 0 := h.2.2.2
      omega


lemma core_exit_value (u m s c v d a : Int) (h : (check_plc_ibus_core u m s c v d a).1 = true) :
    (check_plc_ibus_core u m s c v d a).2 = 500 := by
  unfold check_plc_ibus_core at h ⊢
  simp only [] at h ⊢
  split_ifs at h ⊢ <;> rfl

lemma low_qualifies_no_exit (c : oplus_chg_plc) (w : plc_world) (h : low_qualifies c w = true) :
    policy_out c w = [] ∧ policy_ui c w = c.data.init_ui_soc := by
  have hq := of_decide_eq_true h
  have hne : ¬ policy_exit c w = true := by
    intro he
    have := core_exit_value _ _ _ _ _ _ _ he
    have h2 : policy_value c w = 500 := this
    have h3 := hq.2.1
    rw [h2] at h3
    exact absurd h3 (by decide)
  unfold policy_out policy_ui
  rw [if_neg hne, if_neg (fun hh => hne hh.1)]
  exact ⟨rfl, rfl⟩

lemma publish_status_nf (s : plc_run) (w : plc_world) :
    (publish_status_and_schedule s w).1 = ⟨s.chip, s.out ++ status_tail w s.chip.plc_status⟩ := by
  unfold publish_status_and_schedule status_tail
  simp only [emit]
  split_ifs <;> simp

lemma enter_disable_nf (s : plc_run) (w : plc_world) :
    enter_disable s w =
      ⟨s.chip, s.out ++
        ((if (oplus_plc_get_vote_allow_plc s.chip w > 0 ∨
              oplus_plc_get_vote_allow_soc s.chip w > 0) ∧
            oplus_plc_get_vote_charger_suspend s.chip w ≤ 0 then
          (if s.chip.wired_online = true then
            [plc_effect.vote plc_port.wired_suspend true 1, plc_effect.msleep 1000,
              plc_effect.vote plc_port.wired_suspend false 0] else []) ++
            [plc_effect.vote plc_port.output_suspend false 0, plc_effect.push_dischg_plc false,
              plc_effect.push_dischg_soc false]
        else if s.chip.ufcs_charging = true ∧
            oplus_plc_get_vote_disalbe_retry s.chip w ≤ 0 then
          [plc_effect.push_dischg_retry true]
        else []) ++ [plc_effect.vote plc_port.output_suspend false 1])⟩ := by
  unfold enter_disable
  simp only [emit, oplus_plc_push_dischg_plc, oplus_plc_push_dischg_soc,
    oplus_plc_push_dischg_retry, PLC_SUSPEND_DELAY]
  split_ifs <;> simp

lemma enable_transition_disable (s : plc_run) (w : plc_world)
    (hne : s.chip.plc_status ≠ PLC_STATUS_DISABLE) :
    enable_transition s w PLC_STATUS_DISABLE =
      enter_disable { s with chip := { s.chip with plc_status := PLC_STATUS_DISABLE } } w := by
  unfold enable_transition
  have h1 : ¬ (PLC_STATUS_DISABLE = PLC_STATUS_WAIT) := by decide
  have h2 : ¬ (s.chip.plc_status = PLC_STATUS_DISABLE ∧ PLC_STATUS_DISABLE = PLC_STATUS_ENABLE) :=
    fun h => hne h.1
  simp only [h1, h2, if_false, if_true]

lemma callback_enter_disable (c : oplus_chg_plc) (w : plc_world)
    (hne : c.plc_status ≠ PLC_STATUS_DISABLE) (hp : callback_ports_available c w) :
    (oplus_plc_enable_vote_callback ⟨c, []⟩ w PLC_STATUS_DISABLE).1.out =
      ((if (oplus_plc_get_vote_allow_plc c w > 0 ∨ oplus_plc_get_vote_allow_soc c w > 0) ∧
            oplus_plc_get_vote_charger_suspend c w ≤ 0 then
          (if c.wired_online = true then
            [plc_effect.vote plc_port.wired_suspend true 1, plc_effect.msleep 1000,
              plc_effect.vote plc_port.wired_suspend false 0] else []) ++
            [plc_effect.vote plc_port.output_suspend false 0, plc_effect.push_dischg_plc false,
              plc_effect.push_dischg_soc false]
        else if c.ufcs_charging = true ∧ oplus_plc_get_vote_disalbe_retry c w ≤ 0 then
          [plc_effect.push_dischg_retry true]
        else []) ++ [plc_effect.vote plc_port.output_suspend false 1]) ++
      status_tail w PLC_STATUS_DISABLE := by
  unfold oplus_plc_enable_vote_callback
  rw [if_neg hne]
  simp only [callback_ports_check_found c w hp, Bool.true_eq_false, if_false]
  rw [publish_status_nf, enable_transition_disable _ w hne, enter_disable_nf]
  simp only [List.nil_append]
  rfl

lemma read_ibatt_cnts (s : plc_run) (w : plc_world) :
    (oplus_plc_read_ibatt s w).chip.data.ibat_cnts = s.chip.data.ibat_cnts + 1 ∧
    (oplus_plc_read_ibatt s w).chip.data.ibus_cnts = s.chip.data.ibus_cnts + 1 := by
  unfold oplus_plc_read_ibatt
  simp only [set_data]
  split_ifs <;> exact ⟨rfl, rfl⟩

lemma read_ibatt_ibat (s : plc_run) (w : plc_world) :
    ((oplus_plc_read_ibatt s w).chip.data.ibat_column,
        (oplus_plc_read_ibatt s w).chip.data.ibat_index) =
      ring_push (s.chip.data.ibat_column, s.chip.data.ibat_index) w.gauge_curr ∧
    (oplus_plc_read_ibatt s w).chip.data.plc_check =
      decide (Int.tmod (s.chip.data.ibat_index + 1) PLC_IBAT_AVG_NUM = 0) := by
  rw [read_ibatt_shape]
  exact ⟨rfl, rfl⟩

lemma read_ibatt_ibus (s : plc_run) (w : plc_world)
    (h : s.chip.data.ibus_index < PLC_IBAT_AVG_NUM) :
    ((oplus_plc_read_ibatt s w).chip.data.ibus_column,
        (oplus_plc_read_ibatt s w).chip.data.ibus_index) =
      ring_push (s.chip.data.ibus_column, s.chip.data.ibus_index) w.wired_ibus := by
  unfold oplus_plc_read_ibatt
  rw [if_neg (not_le.mpr h)]
  simp only [set_data, ring_push]
  split_ifs <;> rfl

lemma tmod_succ_range (p : Int) (h0 : 0 ≤ p) (h1 : p < 10) :
    0 ≤ Int.tmod (p + 1) PLC_IBAT_AVG_NUM ∧ Int.tmod (p + 1) PLC_IBAT_AVG_NUM < 10 ∧
    Int.tmod (p + 1) PLC_IBAT_AVG_NUM = (p + 1) % 10 := by
  unfold PLC_IBAT_AVG_NUM
  rw [Int.tmod_eq_emod (by omega) (by omega)]
  omega

lemma column_store_length (col : List Int) (i v : Int) :
    (column_store col i v).length = col.length := by
  unfold column_store
  split_ifs <;> simp

lemma run_pushes_snoc (s : plc_run) (ws : List plc_world) (w : plc_world) :
    run_pushes s (ws ++ [w]) = oplus_plc_read_ibatt (run_pushes s ws) w := by
  simp [run_pushes, List.foldl_append]

lemma run_pushes_index (c : oplus_chg_plc) (ws : List plc_world) (h0 : c.data.ibat_index = 0) :
    (run_pushes ⟨c, []⟩ ws).chip.data.ibat_index = ((ws.length % 10 : Nat) : Int) := by
  induction ws using List.reverseRecOn with
  | nil => simpa [run_pushes] using h0
  | append_singleton ws w ih =>
    rw [run_pushes_snoc]
    have h := congrArg Prod.snd (read_ibatt_ibat (run_pushes ⟨c, []⟩ ws) w).1
    simp only [ring_push] at h
    rw [h, ih, (tmod_succ_range _ (by omega) (by omega)).2.2]
    simp only [List.length_append, List.length_singleton]
    omega
lemma ring_push_valid (r : List Int × Int) (v : Int) (h : 0 ≤ r.2 ∧ r.2 < 10) :
    (0 ≤ (ring_push r v).2 ∧ (ring_push r v).2 < 10) ∧ (ring_push r v).1.length = r.1.length := by
  unfold ring_push
  exact ⟨⟨(tmod_succ_range _ h.1 h.2).1, (tmod_succ_range _ h.1 h.2).2.1⟩,
    column_store_length _ _ _⟩

lemma ring_fold_valid (vs : List Int) (r : List Int × Int) (h : 0 ≤ r.2 ∧ r.2 < 10) :
    (0 ≤ (vs.foldl ring_push r).2 ∧ (vs.foldl ring_push r).2 < 10) ∧
      (vs.foldl ring_push r).1.length = r.1.length := by
  induction vs generalizing r with
  | nil => exact ⟨h, rfl⟩
  | cons v vs ih =>
    have hv := ring_push_valid r v h
    have := ih (ring_push r v) hv.1
    rw [List.foldl_cons]
    exact ⟨this.1, this.2.trans hv.2⟩

lemma run_pushes_ibat (s : plc_run) (ws : List plc_world) :
    ((run_pushes s ws).chip.data.ibat_column, (run_pushes s ws).chip.data.ibat_index) =
      (ws.map fun w => w.gauge_curr).foldl ring_push
        (s.chip.data.ibat_column, s.chip.data.ibat_index) := by
  induction ws using List.reverseRecOn with
  | nil => rfl
  | append_singleton ws w ih =>
    rw [run_pushes_snoc, (read_ibatt_ibat _ w).1, ih, List.map_append, List.foldl_append]
    rfl

lemma run_pushes_ibus (s : plc_run) (ws : List plc_world)
    (h : 0 ≤ s.chip.data.ibus_index ∧ s.chip.data.ibus_index < 10) :
    ((run_pushes s ws).chip.data.ibus_column, (run_pushes s ws).chip.data.ibus_index) =
      (ws.map fun w => w.wired_ibus).foldl ring_push
        (s.chip.data.ibus_column, s.chip.data.ibus_index) := by
  induction ws using List.reverseRecOn with
  | nil => rfl
  | append_singleton ws w ih =>
    have hv := (ring_fold_valid (ws.map fun w => w.wired_ibus)
      (s.chip.data.ibus_column, s.chip.data.ibus_index) h).1
    rw [← ih] at hv
    rw [run_pushes_snoc, read_ibatt_ibus _ w hv.2, ih, List.map_append, List.foldl_append]
    rfl

lemma ring_ten (col : List Int) (p : Int) (hl : col.length = 10) (h0 : 0 ≤ p) (h1 : p < 10)
    (a0 a1 a2 a3 a4 a5 a6 a7 a8 a9 : Int) :
    avg_of ([a0, a1, a2, a3, a4, a5, a6, a7, a8, a9].foldl ring_push (col, p)).1 =
      Int.tdiv (a0 + a1 + a2 + a3 + a4 + a5 + a6 + a7 + a8 + a9) 10 := by
  obtain _ | ⟨c0, _ | ⟨c1, _ | ⟨c2, _ | ⟨c3, _ | ⟨c4, _ | ⟨c5, _ | ⟨c6, _ | ⟨c7, _ | ⟨c8,
    _ | ⟨c9, _ | ⟨c10, t⟩⟩⟩⟩⟩⟩⟩⟩⟩⟩⟩ := col <;> simp at hl
  interval_cases p <;>
    simp [ring_push, column_store, avg_of, column_sum, PLC_IBAT_AVG_NUM, List.range,
      List.range.loop, Int.tmod] <;> ring_nf

lemma avail_ufcs_curr_nf (c : oplus_chg_plc) (w : plc_world) :
    is_ufcs_curr_votable_available c w =
      ({ c with ufcs_curr_votable := c.ufcs_curr_votable || w.find_ufcs_curr },
        c.ufcs_curr_votable || w.find_ufcs_curr) := by
  obtain ⟨a1, a2, a3, a4, a5, a6, d, b1, b2, b3, b4, b5, b6, b7, b8, b9, b10⟩ := c
  cases a1 <;> simp [is_ufcs_curr_votable_available]

lemma avail_plc_enable_nf (c : oplus_chg_plc) (w : plc_world) :
    is_plc_enable_votable_available c w =
      ({ c with plc_enable_votable := c.plc_enable_votable || w.find_plc_enable },
        c.plc_enable_votable || w.find_plc_enable) := by
  obtain ⟨a1, a2, a3, a4, a5, a6, d, b1, b2, b3, b4, b5, b6, b7, b8, b9, b10⟩ := c
  cases a5 <;> simp [is_plc_enable_votable_available]

lemma tick_ports_check_frame (c : oplus_chg_plc) (w : plc_world) :
    (tick_ports_check c w).1.data = c.data ∧ (tick_ports_check c w).1.ui_soc = c.ui_soc ∧
    (tick_ports_check c w).1.plc_curr = c.plc_curr ∧
    (tick_ports_check c w).1.plc_status = c.plc_status ∧
    (tick_ports_check c w).1.ufcs_online = c.ufcs_online := by
  unfold tick_ports_check
  simp only [avail_not_allow_nf, avail_disable_nf, avail_output_suspend_nf,
    avail_wired_suspend_nf, avail_ufcs_curr_nf]
  split_ifs <;> exact ⟨rfl, rfl, rfl, rfl, rfl⟩

lemma policy_ui_cases (c : oplus_chg_plc) (w : plc_world) :
    policy_ui c w = c.data.init_ui_soc ∨ policy_ui c w = c.ui_soc := by
  unfold policy_ui
  split_ifs
  · exact Or.inr rfl
  · exact Or.inl rfl

lemma ibat_check_baseline (s : plc_run) (w : plc_world) :
    (oplus_plc_ibat_check s w).chip.data.init_sm_soc = s.chip.data.init_sm_soc ∧
    (oplus_plc_ibat_check s w).chip.data.init_soc = s.chip.data.init_soc ∧
    ((oplus_plc_ibat_check s w).chip.data.init_ui_soc = s.chip.data.init_ui_soc ∨
      (oplus_plc_ibat_check s w).chip.data.init_ui_soc = s.chip.ui_soc) := by
  rw [ibat_check_nf]
  split_ifs
  · exact ⟨rfl, rfl, Or.inr rfl⟩
  · exact ⟨rfl, rfl, Or.inr rfl⟩
  · exact ⟨rfl, rfl, policy_ui_cases s.chip w⟩
  · exact ⟨rfl, rfl, policy_ui_cases s.chip w⟩

lemma read_ibatt_baseline (s : plc_run) (w : plc_world) :
    (oplus_plc_read_ibatt s w).chip.data.init_sm_soc = s.chip.data.init_sm_soc ∧
    (oplus_plc_read_ibatt s w).chip.data.init_soc = s.chip.data.init_soc ∧
    (oplus_plc_read_ibatt s w).chip.data.init_ui_soc = s.chip.data.init_ui_soc ∧
    (oplus_plc_read_ibatt s w).chip.ui_soc = s.chip.ui_soc := by
  rw [read_ibatt_shape]
  exact ⟨rfl, rfl, rfl, rfl⟩

lemma tick_baseline (s : plc_run) (w : plc_world) (hi : s.chip.data.init_status = true) :
    (oplus_plc_monitor_current_work s w).chip.data.init_sm_soc = s.chip.data.init_sm_soc ∧
    (oplus_plc_monitor_current_work s w).chip.data.init_soc = s.chip.data.init_soc ∧
    ((oplus_plc_monitor_current_work s w).chip.data.init_ui_soc = s.chip.data.init_ui_soc ∨
      (oplus_plc_monitor_current_work s w).chip.data.init_ui_soc = s.chip.ui_soc) := by
  obtain ⟨f1, f2, -, -, -⟩ := tick_ports_check_frame s.chip w
  unfold oplus_plc_monitor_current_work
  generalize tick_ports_check s.chip w = a at f1 f2
  obtain ⟨c1, b⟩ := a
  simp only [] at f1 f2 ⊢
  have hi1 : (⟨c1, s.out⟩ : plc_run).chip.data.init_status = true := by rw [f1]; exact hi
  split_ifs
  · rw [f1]; exact ⟨rfl, rfl, Or.inl rfl⟩
  · rw [emit_chip, init_status_done _ w hi1]
    have hb := ibat_check_baseline (oplus_plc_read_ibatt ⟨c1, s.out⟩ w) w
    have hr := read_ibatt_baseline ⟨c1, s.out⟩ w
    rw [hr.1, hr.2.1, hr.2.2.1, hr.2.2.2] at hb
    rw [f1, f2] at hb
    exact hb
  · rw [emit_chip, init_status_done _ w hi1]
    have hr := read_ibatt_baseline ⟨c1, s.out⟩ w
    rw [hr.1, hr.2.1, hr.2.2.1, f1]
    exact ⟨rfl, rfl, Or.inl rfl⟩
  · rw [reset_status_nf, f1]
    exact ⟨rfl, rfl, Or.inl rfl⟩

lemma window_count_append (P : List Int) (t T : Int) :
    window_count (P ++ [t]) T =
      window_count P T + if T ≤ t ∧ t ≤ T + 86400 then 1 else 0 := by
  unfold window_count
  rw [List.filter_append, List.length_append]
  congr 1
  by_cases h : T ≤ t ∧ t ≤ T + 86400
  · rw [if_pos h]; simp [List.filter, TRACK_DEVICE_ABNORMAL_UPLOAD_PERIOD, h]
  · rw [if_neg h]; simp [List.filter, TRACK_DEVICE_ABNORMAL_UPLOAD_PERIOD, h]

lemma window_count_zero (P : List Int) (T : Int) (h : ∀ p ∈ P, p < T) :
    window_count P T = 0 := by
  unfold window_count
  rw [List.length_eq_zero, List.filter_eq_nil_iff]
  intro p hp
  have := h p hp
  simp only [decide_eq_true_eq, not_and, not_le]
  intro h1
  omega

lemma upload_run_snoc (xs : List upload_call) (x : upload_call) :
    upload_run (xs ++ [x]) = upload_log_step (upload_run xs) x := by
  simp [upload_run, List.foldl_append]

lemma upload_log_step_nf (st : upload_statics) (P : List Int) (x : upload_call) :
    upload_log_step (st, P) x =
      if x.curr_time - st.pre_upload_time > 86400 then
        (if x.err_topic_found = true ∧ x.msg_alloc = true then
          (⟨1, x.curr_time⟩, P ++ [x.curr_time]) else (⟨0, x.curr_time⟩, P))
      else if st.upload_count ≥ 3 then (st, P)
      else if x.err_topic_found = true ∧ x.msg_alloc = true then
        (⟨st.upload_count + 1, x.curr_time⟩, P ++ [x.curr_time])
      else (⟨st.upload_count, x.curr_time⟩, P) := by
  simp only [upload_log_step, oplus_chg_plc_upload_plc_info, TRACK_DEVICE_ABNORMAL_UPLOAD_PERIOD,
    TRACK_UPLOAD_COUNT_MAX]
  have e : (24 * 3600 : Int) = 86400 := by norm_num
  rw [e]
  by_cases hr : x.curr_time - st.pre_upload_time > 86400
  · simp only [if_pos hr]
    cases hf : x.err_topic_found <;> cases ha : x.msg_alloc <;> simp
  · simp only [if_neg hr]
    by_cases hc : st.upload_count ≥ 3
    · simp only [if_pos hc]; simp
    · simp only [if_neg hc]
      cases hf : x.err_topic_found <;> cases ha : x.msg_alloc <;> simp

lemma upload_inv_step (xs : List upload_call) (x : upload_call) (st : upload_statics)
    (P : List Int) (hx : ∀ y ∈ xs, y.curr_time ≤ x.curr_time) (h : upload_inv xs st P) :
    upload_inv (xs ++ [x]) (upload_log_step (st, P) x).1 (upload_log_step (st, P) x).2 := by
  obtain ⟨h0, h3, hp, he, hw, hg⟩ := h
  have hmem : ∃ y ∈ xs ++ [x], y.curr_time = x.curr_time := ⟨x, by simp, rfl⟩
  rw [upload_log_step_nf]
  by_cases hr : x.curr_time - st.pre_upload_time > 86400
  · -- the count is reset
    have hz : ∀ T, x.curr_time ≤ T + 86400 → window_count P T = 0 := fun T hT =>
      window_count_zero P T (fun p hp1 => by have := hp p hp1; omega)
    have hp2 : ∀ p ∈ P, p ≤ x.curr_time := fun p hp1 => by have := hp p hp1; omega
    rw [if_pos hr]
    by_cases hfa : x.err_topic_found = true ∧ x.msg_alloc = true
    · rw [if_pos hfa]
      refine ⟨by norm_num, by norm_num, ?_, Or.inr hmem, ?_, ?_⟩
      · intro p hp1
        rw [List.mem_append, List.mem_singleton] at hp1
        show p ≤ x.curr_time
        rcases hp1 with hp1 | hp1
        · exact hp2 p hp1
        · omega
      · intro T hT
        rw [window_count_append, hz T hT]
        split_ifs <;> simp
      · intro T
        rw [window_count_append]
        split_ifs with hin
        · rw [hz T hin.2]
          norm_num
        · exact hg T
    · rw [if_neg hfa]
      refine ⟨le_refl _, by norm_num, hp2, Or.inr hmem, ?_, hg⟩
      intro T hT; rw [hz T hT]; rfl
  · rw [if_neg hr]
    by_cases hc : st.upload_count ≥ 3
    · rw [if_pos hc]
      refine ⟨h0, h3, hp, ?_, hw, hg⟩
      rcases he with he | ⟨y, hy, hy2⟩
      · exact Or.inl he
      · exact Or.inr ⟨y, by simp [hy], hy2⟩
    · rw [if_neg hc]
      have hle : P = [] ∨ st.pre_upload_time ≤ x.curr_time := by
        rcases he with he | ⟨y, hy, hy2⟩
        · exact Or.inl he.1
        · exact Or.inr (hy2 ▸ hx y hy)
      have hw2 : ∀ T, x.curr_time ≤ T + 86400 → (window_count P T : Int) ≤ st.upload_count := by
        intro T hT
        rcases hle with hle | hle
        · subst hle; simpa [window_count] using h0
        · exact hw T (by omega)
      have hp2 : ∀ p ∈ P, p ≤ x.curr_time := by
        intro p hp1
        rcases hle with hle | hle
        · subst hle; simp at hp1
        · have := hp p hp1; omega
      by_cases hfa : x.err_topic_found = true ∧ x.msg_alloc = true
      · rw [if_pos hfa]
        have hw3 : ∀ T, x.curr_time ≤ T + 86400 →
            (window_count (P ++ [x.curr_time]) T : Int) ≤ st.upload_count + 1 := by
          intro T hT
          rw [window_count_append]
          have := hw2 T hT
          split_ifs <;> push_cast <;> omega
        refine ⟨by show 0 ≤ st.upload_count + 1; omega, by show st.upload_count + 1 ≤ 3; omega,
          ?_, Or.inr hmem, hw3, ?_⟩
        · intro p hp1
          rw [List.mem_append, List.mem_singleton] at hp1
          show p ≤ x.curr_time
          rcases hp1 with hp1 | hp1
          · exact hp2 p hp1
          · omega
        · intro T
          by_cases hin : T ≤ x.curr_time ∧ x.curr_time ≤ T + 86400
          · have := hw3 T hin.2
            have h4 : st.upload_count + 1 ≤ 3 := by omega
            show window_count (P ++ [x.curr_time]) T ≤ 3
            omega
          · rw [window_count_append, if_neg hin]
            exact hg T
      · rw [if_neg hfa]
        exact ⟨h0, h3, hp2, Or.inr hmem, hw2, hg⟩

lemma upload_run_inv (xs : List upload_call)
    (h : xs.Pairwise (fun a b => a.curr_time ≤ b.curr_time)) :
    upload_inv xs (upload_run xs).1 (upload_run xs).2 := by
  induction xs using List.reverseRecOn with
  | nil =>
    refine ⟨le_refl _, by norm_num [upload_run], ?_, Or.inl ⟨rfl, rfl⟩, ?_, ?_⟩
    · intro p hp; simp [upload_run] at hp
    · intro T _; simp [upload_run, window_count]
    · intro T; simp [upload_run, window_count]
  | append_singleton xs x ih =>
    rw [List.pairwise_append] at h
    rw [upload_run_snoc]
    exact upload_inv_step xs x _ _ (fun y hy => h.2.2 y hy x (by simp)) (ih h.1)

lemma policy_value_range (c : oplus_chg_plc) (w : plc_world) :
    PLC_IBUS_MIN ≤ policy_value c w ∧ policy_value c w ≤ PLC_IBUS_MAX :=
  ibus_clamp_range _

lemma ibat_check_curr (s : plc_run) (w : plc_world) :
    (oplus_plc_ibat_check s w).chip.plc_curr = s.chip.plc_curr ∨
      (oplus_plc_ibat_check s w).chip.plc_curr = policy_value s.chip w := by
  rw [ibat_check_nf]
  split_ifs
  · exact Or.inl rfl
  · exact Or.inr rfl
  · exact Or.inr rfl
  · exact Or.inl rfl

lemma init_status_frame (s : plc_run) (w : plc_world) :
    ((oplus_plc_init_status s w).chip.plc_curr = s.chip.plc_curr ∨
      (oplus_plc_init_status s w).chip.plc_curr = PLC_IBUS_DEFAULT) ∧
    (oplus_plc_init_status s w).chip.plc_status = s.chip.plc_status ∧
    (oplus_plc_init_status s w).chip.ufcs_online = s.chip.ufcs_online := by
  cases h : s.chip.data.init_status
  · rw [init_status_fresh s w h]
    exact ⟨Or.inr rfl, rfl, rfl⟩
  · rw [init_status_done s w h]
    exact ⟨Or.inl rfl, rfl, rfl⟩

lemma read_ibatt_frame (s : plc_run) (w : plc_world) :
    (oplus_plc_read_ibatt s w).chip.plc_curr = s.chip.plc_curr ∧
    (oplus_plc_read_ibatt s w).chip.plc_status = s.chip.plc_status ∧
    (oplus_plc_read_ibatt s w).chip.ufcs_online = s.chip.ufcs_online := by
  obtain ⟨bc, bi, bn, h⟩ := read_ibatt_shape_ex s w
  rw [h]
  exact ⟨rfl, rfl, rfl⟩

lemma tick_curr (s : plc_run) (w : plc_world) :
    (oplus_plc_monitor_current_work s w).chip.plc_curr = s.chip.plc_curr ∨
    (oplus_plc_monitor_current_work s w).chip.plc_curr = 0 ∨
    (oplus_plc_monitor_current_work s w).chip.plc_curr = PLC_IBUS_DEFAULT ∨
    ∃ x : Int, (oplus_plc_monitor_current_work s w).chip.plc_curr = ibus_clamp x := by
  have hf := (tick_ports_check_frame s.chip w).2.2.1
  have h0 : (⟨(tick_ports_check s.chip w).1, s.out⟩ : plc_run).chip.plc_curr = s.chip.plc_curr :=
    hf
  have hi := (init_status_frame ⟨(tick_ports_check s.chip w).1, s.out⟩ w).1
  have hr := (read_ibatt_frame (oplus_plc_init_status ⟨(tick_ports_check s.chip w).1, s.out⟩ w)
    w).1
  have h1 : (oplus_plc_read_ibatt
        (oplus_plc_init_status ⟨(tick_ports_check s.chip w).1, s.out⟩ w) w).chip.plc_curr =
        s.chip.plc_curr ∨
      (oplus_plc_read_ibatt
        (oplus_plc_init_status ⟨(tick_ports_check s.chip w).1, s.out⟩ w) w).chip.plc_curr =
        PLC_IBUS_DEFAULT := by
    rw [hr]
    rcases hi with hi | hi
    · rw [hi]; exact Or.inl h0
    · rw [hi]; exact Or.inr rfl
  unfold oplus_plc_monitor_current_work
  simp only []
  split_ifs
  · exact Or.inl h0
  · rw [emit_chip]
    rcases ibat_check_curr (oplus_plc_read_ibatt
      (oplus_plc_init_status ⟨(tick_ports_check s.chip w).1, s.out⟩ w) w) w with hc | hc
    · rw [hc]
      rcases h1 with h1 | h1
      · exact Or.inl h1
      · exact Or.inr (Or.inr (Or.inl h1))
    · exact Or.inr (Or.inr (Or.inr ⟨_, hc⟩))
  · rw [emit_chip]
    rcases h1 with h1 | h1
    · exact Or.inl h1
    · exact Or.inr (Or.inr (Or.inl h1))
  · exact Or.inr (Or.inl rfl)

lemma callback_curr (s : plc_run) (w : plc_world) (enable : Int) :
    (oplus_plc_enable_vote_callback s w enable).1.chip.plc_curr = s.chip.plc_curr := by
  unfold oplus_plc_enable_vote_callback
  have hf : (callback_ports_check s.chip w).1.plc_curr = s.chip.plc_curr := by
    rw [callback_ports_check_nf]
    split_ifs <;> rfl
  simp only []
  split_ifs
  · rfl
  · exact hf
  · rw [publish_status_chip, enable_transition_chip]
    exact hf

lemma comm_curr (s : plc_run) (type : mms_msg_type) (id : comm_item) (intval : Int) :
    (oplus_plc_comm_subs_callback s type id intval).chip.plc_curr = s.chip.plc_curr := by
  cases type <;> cases id <;>
    first
      | rfl
      | (simp only [oplus_plc_comm_subs_callback]
         split_ifs <;> rfl)

lemma wired_curr (s : plc_run) (type : mms_msg_type) (id : wired_item) (intval debug : Int) :
    (oplus_plc_wired_subs_callback s type id intval debug).chip.plc_curr = s.chip.plc_curr := by
  cases type <;> cases id <;>
    first
      | rfl
      | (simp only [oplus_plc_wired_subs_callback]
         split_ifs <;> rfl)

lemma ufcs_curr (s : plc_run) (w : plc_world) (type : mms_msg_type) (id : ufcs_item)
    (intval : Int) :
    (oplus_plc_ufcs_subs_callback s w type id intval).chip.plc_curr = s.chip.plc_curr := by
  cases type <;> cases id <;>
    first
      | rfl
      | (simp only [oplus_plc_ufcs_subs_callback, avail_plc_enable_nf, avail_ufcs_curr_nf]
         split_ifs <;> rfl)

lemma subscribe_ufcs_curr (s : plc_run) (w : plc_world) (subs_ok : Bool)
    (charging online : Int) :
    (oplus_plc_subscribe_ufcs_topic s w subs_ok charging online).chip.plc_curr =
        s.chip.plc_curr ∨
      (oplus_plc_subscribe_ufcs_topic s w subs_ok charging online).chip.plc_curr =
        PLC_IBUS_DEFAULT := by
  simp only [oplus_plc_subscribe_ufcs_topic, avail_ufcs_curr_nf]
  split_ifs <;> first | exact Or.inl rfl | exact Or.inr rfl

lemma plc_subs_curr (s : plc_run) (type : mms_msg_type) (id : plc_item) (intval : Int) :
    (oplus_plc_plc_subs_callback s type id intval).chip.plc_curr = s.chip.plc_curr := by
  cases type <;> cases id <;> rfl

lemma works_curr (s : plc_run) (w : plc_world) :
    (oplus_plc_disable_wait_work s w).chip.plc_curr = s.chip.plc_curr ∧
    (oplus_plc_vote_enable_work s).chip.plc_curr = s.chip.plc_curr := by
  constructor
  · unfold oplus_plc_disable_wait_work
    split_ifs <;> rfl
  · unfold oplus_plc_vote_enable_work
    split_ifs <;> rfl

lemma event_curr (s : plc_run) (e : plc_event) :
    (plc_event_step s e).chip.plc_curr = s.chip.plc_curr ∨
    (plc_event_step s e).chip.plc_curr = 0 ∨
    (plc_event_step s e).chip.plc_curr = PLC_IBUS_DEFAULT ∨
    ∃ x : Int, (plc_event_step s e).chip.plc_curr = ibus_clamp x := by
  cases e with
  | tick w => exact tick_curr s w
  | enable_vote w enable => exact Or.inl (callback_curr s w enable)
  | comm type id intval => exact Or.inl (comm_curr s type id intval)
  | wired type id intval debug_track => exact Or.inl (wired_curr s type id intval debug_track)
  | ufcs w type id intval => exact Or.inl (ufcs_curr s w type id intval)
  | subscribe_ufcs w subs_ok charging online =>
    rcases subscribe_ufcs_curr s w subs_ok charging online with h | h
    · exact Or.inl h
    · exact Or.inr (Or.inr (Or.inl h))
  | plc type id intval => exact Or.inl (plc_subs_curr s type id intval)
  | disable_wait w => exact Or.inl (works_curr s w).1
  | vote_enable => exact Or.inl (works_curr s (world_of 0 0)).2

lemma event_curr_in_range (s : plc_run) (e : plc_event) (h : curr_in_range s.chip.plc_curr) :
    curr_in_range (plc_event_step s e).chip.plc_curr := by
  rcases event_curr s e with h1 | h1 | h1 | ⟨x, h1⟩
  · rw [h1]; exact h
  · exact Or.inl h1
  · rw [h1]; exact Or.inr (by decide)
  · rw [h1]; exact Or.inr (ibus_clamp_range x)

lemma run_events_curr_in_range (es : List plc_event) (s : plc_run)
    (h : curr_in_range s.chip.plc_curr) : curr_in_range (run_events s es).chip.plc_curr := by
  induction es generalizing s with
  | nil => exact h
  | cons e es ih => exact ih (plc_event_step s e) (event_curr_in_range s e h)

lemma tick_complete_curr (s : plc_run) (w : plc_world) (c1 : oplus_chg_plc)
    (hp : tick_ports_check s.chip w = (c1, true))
    (hs : c1.plc_status = PLC_STATUS_ENABLE ∨ c1.plc_status = PLC_STATUS_WAIT)
    (ho : c1.ufcs_online = true)
    (hu : c1.plc_support = CHG_PROTOCOL_UFCS) (hb : c1.plc_buck = 0)
    (hc : (oplus_plc_read_ibatt (oplus_plc_init_status ⟨c1, s.out⟩ w) w).chip.data.plc_check
      = true)
    (hl : ¬ ((oplus_plc_read_ibatt (oplus_plc_init_status ⟨c1, s.out⟩ w) w).chip.ufcs_charging
        = true ∧
      low_next (oplus_plc_read_ibatt (oplus_plc_init_status ⟨c1, s.out⟩ w) w).chip w
        = PLC_IBAT_LOW_CNTS ∧
      (oplus_plc_read_ibatt (oplus_plc_init_status ⟨c1, s.out⟩ w) w).chip.plc_status
        = PLC_STATUS_ENABLE ∧
      oplus_plc_get_vote_allow_plc
        (oplus_plc_read_ibatt (oplus_plc_init_status ⟨c1, s.out⟩ w) w).chip w ≤ 0)) :
    (oplus_plc_monitor_current_work s w).chip.plc_curr =
      policy_value (oplus_plc_read_ibatt (oplus_plc_init_status ⟨c1, s.out⟩ w) w).chip w := by
  rw [tick_eligible s w c1 hp hs ho hu hb, if_pos hc, emit_chip]
  have hi := init_status_frame ⟨c1, s.out⟩ w
  have hr := read_ibatt_frame (oplus_plc_init_status ⟨c1, s.out⟩ w) w
  generalize oplus_plc_read_ibatt (oplus_plc_init_status ⟨c1, s.out⟩ w) w = s1 at hl hr ⊢
  have hs1 : s1.chip.plc_status = PLC_STATUS_ENABLE ∨ s1.chip.plc_status = PLC_STATUS_WAIT := by
    rw [hr.2.1, hi.2.1]; exact hs
  have ho1 : s1.chip.ufcs_online = true := by
    rw [hr.2.2, hi.2.2]; exact ho
  rw [ibat_check_nf, if_neg hl]
  split_ifs with h2 h3
  · rfl
  · rfl
  · exact absurd ⟨ho1, hs1⟩ h3

lemma captures_append (a b : List plc_effect) : captures (a ++ b) = captures a + captures b := by
  unfold captures
  exact List.countP_append _ a b

lemma captures_policy_out (c : oplus_chg_plc) (w : plc_world) :
    captures (policy_out c w) =
      if policy_exit c w = true ∧ oplus_plc_get_vote_allow_soc c w < 0 then 1 else 0 := by
  unfold policy_out
  by_cases he : policy_exit c w = true
  · by_cases ha : oplus_plc_get_vote_allow_soc c w < 0
    · rw [if_pos he, if_pos ha, if_pos ⟨he, ha⟩]; rfl
    · rw [if_pos he, if_neg ha, if_neg (fun h => ha h.2)]; rfl
  · rw [if_neg he, if_neg (fun h => he h.1)]; rfl

lemma policy_ui_capture (c : oplus_chg_plc) (w : plc_world) (n : Nat) :
    policy_ui c w =
      if n + captures (policy_out c w) = n then c.data.init_ui_soc else c.ui_soc := by
  rw [captures_policy_out]
  unfold policy_ui
  by_cases h : policy_exit c w = true ∧ oplus_plc_get_vote_allow_soc c w < 0
  · rw [if_pos h, if_pos h, if_neg (by omega)]
  · rw [if_neg h, if_neg h, if_pos (by omega)]

lemma check_plc_ibus_capture (s : plc_run) (w : plc_world) :
    (oplus_plc_check_plc_ibus s w).1.chip.data.init_ui_soc =
      if captures (oplus_plc_check_plc_ibus s w).1.out = captures s.out then
        s.chip.data.init_ui_soc else s.chip.ui_soc := by
  rw [check_plc_ibus_nf]
  show policy_ui s.chip w = if captures (s.out ++ policy_out s.chip w) = captures s.out then
    s.chip.data.init_ui_soc else s.chip.ui_soc
  rw [captures_append]
  exact policy_ui_capture s.chip w _

lemma ibat_check_capture (s : plc_run) (w : plc_world) :
    (oplus_plc_ibat_check s w).chip.data.init_ui_soc =
      if captures (oplus_plc_ibat_check s w).out = captures s.out then
        s.chip.data.init_ui_soc else s.chip.ui_soc := by
  generalize hX : oplus_plc_ibat_check s w = X
  rw [ibat_check_nf] at hX
  split_ifs at hX <;> subst hX
  · show s.chip.ui_soc = if captures (s.out ++ policy_out s.chip w ++ _) = captures s.out then
      s.chip.data.init_ui_soc else s.chip.ui_soc
    rw [captures_append, captures_append, if_neg]
    have : captures [plc_effect.push_dischg_plc true,
      plc_effect.vote plc_port.output_suspend true 1,
      plc_effect.track_msg PLC_TRACK_IBAT_EXIT] = 1 := rfl
    omega
  · show s.chip.ui_soc = if captures (s.out ++ policy_out s.chip w ++ _) = captures s.out then
      s.chip.data.init_ui_soc else s.chip.ui_soc
    rw [captures_append, captures_append, if_neg]
    have : captures [plc_effect.push_plc_curr 0, plc_effect.vote plc_port.output_suspend false 0,
      plc_effect.vote plc_port.wired_suspend true 1, plc_effect.msleep PLC_SUSPEND_DELAY,
      plc_effect.vote plc_port.wired_suspend false 0, plc_effect.push_dischg_plc false,
      plc_effect.track_msg PLC_TRACK_IBUS_ENTER,
      plc_effect.push_plc_curr (policy_value s.chip w)] = 1 := rfl
    omega
  · show policy_ui s.chip w = if captures (s.out ++ policy_out s.chip w ++
      [plc_effect.push_plc_curr (policy_value s.chip w)]) = captures s.out then
      s.chip.data.init_ui_soc else s.chip.ui_soc
    rw [captures_append, captures_append]
    have : captures [plc_effect.push_plc_curr (policy_value s.chip w)] = 0 := rfl
    rw [this, Nat.add_zero]
    exact policy_ui_capture s.chip w _
  · show policy_ui s.chip w = if captures (s.out ++ policy_out s.chip w) = captures s.out then
      s.chip.data.init_ui_soc else s.chip.ui_soc
    rw [captures_append]
    exact policy_ui_capture s.chip w _

lemma captures_emit_schedule (s : plc_run) (k : plc_work) (ms : Int) :
    captures (emit (plc_effect.schedule k ms) s).out = captures s.out := by
  show captures (s.out ++ [plc_effect.schedule k ms]) = captures s.out
  rw [captures_append]
  rfl

lemma read_ibatt_out (s : plc_run) (w : plc_world) : (oplus_plc_read_ibatt s w).out = s.out := by
  rw [read_ibatt_shape]

lemma tick_capture (s : plc_run) (w : plc_world) (hi : s.chip.data.init_status = true) :
    (oplus_plc_monitor_current_work s w).chip.data.init_ui_soc =
      if captures (oplus_plc_monitor_current_work s w).out = captures s.out then
        s.chip.data.init_ui_soc else s.chip.ui_soc := by
  obtain ⟨f1, f2, -, -, -⟩ := tick_ports_check_frame s.chip w
  unfold oplus_plc_monitor_current_work
  generalize tick_ports_check s.chip w = a at f1 f2
  obtain ⟨c1, b⟩ := a
  simp only [] at f1 f2 ⊢
  have hi1 : (⟨c1, s.out⟩ : plc_run).chip.data.init_status = true := by rw [f1]; exact hi
  generalize hX : (if b = false then (⟨c1, s.out⟩ : plc_run) else _) = X
  split_ifs at hX <;> subst hX
  · rw [f1, if_pos rfl]
  · rw [captures_emit_schedule, emit_chip, init_status_done _ w hi1]
    have hb := ibat_check_capture (oplus_plc_read_ibatt ⟨c1, s.out⟩ w) w
    have hr := read_ibatt_baseline ⟨c1, s.out⟩ w
    rw [hr.2.2.1, hr.2.2.2, read_ibatt_out] at hb
    rw [f1, f2] at hb
    exact hb
  · rw [captures_emit_schedule, emit_chip, init_status_done _ w hi1, read_ibatt_out,
      if_pos rfl]
    have hr := read_ibatt_baseline ⟨c1, s.out⟩ w
    rw [hr.2.2.1, f1]
  · rw [reset_status_nf]
    have e : captures (oplus_plc_push_plc_curr
        (⟨{ (⟨{ c1 with data := { c1.data with
          plc_check := false, init_status := false, ibat_index := 0, ibat_cnts := 0,
          ibus_index := 0, ibus_cnts := 0, ibat_low := 0, ibus_over := 0,
          ibat_column := memset_column c1.data.ibat_column,
          ibus_column := memset_column c1.data.ibus_column } }, s.out⟩ : plc_run).chip with
          plc_curr := 0 }, s.out⟩ : plc_run)).out = captures s.out := by
      show captures (s.out ++ [plc_effect.push_plc_curr 0]) = captures s.out
      rw [captures_append]; rfl
    rw [if_pos e, ← f1]
    rfl

lemma comm_capture (s : plc_run) (type : mms_msg_type) (id : comm_item) (intval : Int) :
    (captures (oplus_plc_comm_subs_callback s type id intval).out ≠ captures s.out ↔
      (type = mms_msg_type.MSG_TYPE_ITEM ∧ id = comm_item.COMM_ITEM_SMOOTH_SOC ∧
        (s.chip.plc_status = PLC_STATUS_ENABLE ∨ s.chip.plc_status = PLC_STATUS_WAIT) ∧
        intval ≠ s.chip.sm_soc)) ∧
    (oplus_plc_comm_subs_callback s type id intval).chip.data.init_ui_soc =
      if captures (oplus_plc_comm_subs_callback s type id intval).out = captures s.out then
        s.chip.data.init_ui_soc else s.chip.ui_soc := by
  have hne : captures (s.out ++ [plc_effect.track_msg PLC_TRACK_SOC_ADD]) ≠ captures s.out := by
    rw [captures_append]
    have : captures [plc_effect.track_msg PLC_TRACK_SOC_ADD] = 1 := rfl
    omega
  by_cases hT : type = mms_msg_type.MSG_TYPE_ITEM ∧ id = comm_item.COMM_ITEM_SMOOTH_SOC
  · obtain ⟨rfl, rfl⟩ := hT
    by_cases hc : (s.chip.plc_status = PLC_STATUS_ENABLE ∨
      s.chip.plc_status = PLC_STATUS_WAIT) ∧ intval ≠ s.chip.sm_soc
    · have hs : (oplus_plc_comm_subs_callback s mms_msg_type.MSG_TYPE_ITEM
            comm_item.COMM_ITEM_SMOOTH_SOC intval).out =
            s.out ++ [plc_effect.track_msg PLC_TRACK_SOC_ADD] ∧
          (oplus_plc_comm_subs_callback s mms_msg_type.MSG_TYPE_ITEM
            comm_item.COMM_ITEM_SMOOTH_SOC intval).chip.data.init_ui_soc = s.chip.ui_soc := by
        constructor <;> simp only [oplus_plc_comm_subs_callback, if_pos hc] <;> rfl
      rw [hs.1, hs.2, if_neg hne]
      exact ⟨⟨fun _ => ⟨rfl, rfl, hc⟩, fun _ => hne⟩, rfl⟩
    · have hs : (oplus_plc_comm_subs_callback s mms_msg_type.MSG_TYPE_ITEM
            comm_item.COMM_ITEM_SMOOTH_SOC intval).out = s.out ∧
          (oplus_plc_comm_subs_callback s mms_msg_type.MSG_TYPE_ITEM
            comm_item.COMM_ITEM_SMOOTH_SOC intval).chip.data.init_ui_soc =
            s.chip.data.init_ui_soc := by
        constructor <;> simp only [oplus_plc_comm_subs_callback, if_neg hc]
      rw [hs.1, hs.2, if_pos rfl]
      exact ⟨⟨fun h => absurd rfl h, fun h => absurd h.2.2 hc⟩, rfl⟩
  · have hs : (oplus_plc_comm_subs_callback s type id intval).out = s.out ∧
        (oplus_plc_comm_subs_callback s type id intval).chip.data.init_ui_soc =
          s.chip.data.init_ui_soc := by
      cases type <;> cases id <;> first | exact ⟨rfl, rfl⟩ | exact absurd ⟨rfl, rfl⟩ hT
    rw [hs.1, hs.2, if_pos rfl]
    exact ⟨⟨fun h => absurd rfl h, fun h => absurd ⟨h.1, h.2.1⟩ hT⟩, rfl⟩

lemma check_plc_ibus_captures (s : plc_run) (w : plc_world) :
    captures (oplus_plc_check_plc_ibus s w).1.out ≠ captures s.out ↔
      (policy_exit s.chip w = true ∧ oplus_plc_get_vote_allow_soc s.chip w < 0) := by
  rw [check_plc_ibus_nf]
  show captures (s.out ++ policy_out s.chip w) ≠ captures s.out ↔ _
  rw [captures_append, captures_policy_out]
  by_cases h : policy_exit s.chip w = true ∧ oplus_plc_get_vote_allow_soc s.chip w < 0
  · rw [if_pos h]
    exact ⟨fun _ => h, fun _ => by omega⟩
  · rw [if_neg h]
    exact ⟨fun h1 => absurd rfl h1, fun h1 => absurd h1 h⟩

/-! ## Claims -/

/-- C1: the value returned by `oplus_plc_check_plc_ibus` is the first-match-wins
decision table of the specification followed by the clamp to `[200, 1500]`, for
all integer inputs, both for the branch chain taken as a function of the seven
values it reads and for the driver function on any instance; the three cases of
the branch-coverage list give 500, 1500 and 600. -/
theorem check_plc_ibus_decision_table :
    (∀ init_ui_soc init_sm_soc sm_soc plc_soc curr_vote delta avg_ibat : Int,
      (check_plc_ibus_core init_ui_soc init_sm_soc sm_soc plc_soc curr_vote delta avg_ibat).2 =
        spec_clamp
          (spec_decision_table init_ui_soc init_sm_soc sm_soc plc_soc curr_vote delta avg_ibat)) ∧
    (∀ (s : plc_run) (w : plc_world),
      (oplus_plc_check_plc_ibus s w).2 =
        spec_clamp (spec_decision_table s.chip.data.init_ui_soc s.chip.data.init_sm_soc
          s.chip.sm_soc s.chip.plc_soc (oplus_plc_get_vote_curr s.chip w)
          (plc_delta_ibat (avg_of s.chip.data.ibat_column) w.batt_num)
          (avg_of s.chip.data.ibat_column))) ∧
    (∀ init_sm_soc sm_soc curr_vote delta avg_ibat : Int,
      (check_plc_ibus_core 90 init_sm_soc sm_soc 90 curr_vote delta avg_ibat).2 = 500) ∧
    (∀ plc_soc delta : Int, 50 < plc_soc →
      (check_plc_ibus_core 50 40 45 plc_soc 500 delta (-100)).2 = 1500) ∧
    (∀ init_ui_soc init_sm_soc plc_soc : Int, init_ui_soc < plc_soc →
      (check_plc_ibus_core init_ui_soc init_sm_soc init_ui_soc plc_soc 500 100 50).2 = 600) := by
  refine ⟨core_eq_table, ?_, ?_, ?_, ?_⟩
  · intro s w
    rw [check_plc_ibus_ret, core_eq_table]
  · intro m s v d a
    rw [core_eq_table]
    simp [spec_decision_table, spec_clamp]
  · intro c d hc
    rw [core_eq_table]
    have h : ¬ (50 : Int) ≥ c := by omega
    simp [spec_decision_table, spec_clamp, h]
  · intro u m c hc
    rw [core_eq_table]
    have h : ¬ u ≥ c := by omega
    simp [spec_decision_table, spec_clamp, h]

/-- Witness for C1: the three branch-coverage cases at the default ceiling 90. -/
theorem check_plc_ibus_decision_table_witness :
    (check_plc_ibus_core 50 40 45 90 500 0 (-100)).2 = 1500 ∧
    (check_plc_ibus_core 50 50 50 90 500 100 50).2 = 600 :=
  ⟨check_plc_ibus_decision_table.2.2.2.1 90 0 (by decide),
   check_plc_ibus_decision_table.2.2.2.2 50 50 90 (by decide)⟩

/-- C2: whichever branch is taken, and for every instance and every answer of
the collaborators (a negative or error-valued current vote included), the
target returned by `oplus_plc_check_plc_ibus` lies in
`[PLC_IBUS_MIN, PLC_IBUS_MAX] = [200, 1500]`. -/
theorem check_plc_ibus_range :
    (∀ (s : plc_run) (w : plc_world),
      PLC_IBUS_MIN ≤ (oplus_plc_check_plc_ibus s w).2 ∧
        (oplus_plc_check_plc_ibus s w).2 ≤ PLC_IBUS_MAX) ∧
    (∀ init_ui_soc init_sm_soc sm_soc plc_soc curr_vote delta avg_ibat : Int,
      200 ≤ (check_plc_ibus_core init_ui_soc init_sm_soc sm_soc plc_soc curr_vote delta
        avg_ibat).2 ∧
      (check_plc_ibus_core init_ui_soc init_sm_soc sm_soc plc_soc curr_vote delta
        avg_ibat).2 ≤ 1500) := by
  constructor
  · intro s w
    rw [check_plc_ibus_ret]
    exact ibus_clamp_range _
  · intro u m s c v d a
    exact ibus_clamp_range _

/-- C3: for every average battery current `a` (with `x = |a|`) and every cell
count `n`, `oplus_plc_get_delta_ibat` returns `((p * n) / 50) * 50` with
truncating division, where `p` is 0 if `x ≤ 0`, 500 if `x ≥ 10000`, and
otherwise `d1 + (x - t1) * (d2 - d1) / (t2 - t1)` for the consecutive table
points with `t1 ≤ x < t2`; the weighted form the code evaluates agrees with
that formula. -/
theorem get_delta_ibat_formula :
    (∀ (s : plc_run) (w : plc_world),
      (oplus_plc_get_delta_ibat s w).2 =
        plc_delta_ibat (avg_of s.chip.data.ibat_column) w.batt_num) ∧
    (∀ a n : Int, |a| ≤ 0 → plc_delta_ibat a n = Int.tdiv (0 * n) 50 * 50) ∧
    (∀ a n : Int, |a| ≥ 10000 → plc_delta_ibat a n = Int.tdiv (500 * n) 50 * 50) ∧
    (∀ (a n : Int) (i : Nat), i + 1 < asize →
      (table_at i).ibat ≤ |a| → |a| < (table_at (i + 1)).ibat →
      Int.tdiv ((|a| - (table_at i).ibat) * (table_at (i + 1)).ibus +
          ((table_at (i + 1)).ibat - |a|) * (table_at i).ibus)
          ((table_at (i + 1)).ibat - (table_at i).ibat) =
        (table_at i).ibus +
          Int.tdiv ((|a| - (table_at i).ibat) * ((table_at (i + 1)).ibus - (table_at i).ibus))
            ((table_at (i + 1)).ibat - (table_at i).ibat) ∧
      plc_delta_ibat a n =
        Int.tdiv (((table_at i).ibus +
          Int.tdiv ((|a| - (table_at i).ibat) * ((table_at (i + 1)).ibus - (table_at i).ibus))
            ((table_at (i + 1)).ibat - (table_at i).ibat)) * n) 50 * 50) := by
  refine ⟨fun _ _ => rfl, ?_, ?_, ?_⟩
  · intro a n h
    simp only [plc_delta_ibat, c_abs_eq_abs, delta_interp_closed, PLC_DELTA_ISTEP]
    rw [if_pos h]
  · intro a n h
    have h0 : ¬ |a| ≤ 0 := by omega
    simp only [plc_delta_ibat, c_abs_eq_abs, delta_interp_closed, PLC_DELTA_ISTEP]
    rw [if_neg h0, if_pos h]
  · intro a n i hi h1 h2
    have hw := weighted_eq_slope |a| _ _ _ _ h1 h2 (table_step i hi).1 (table_step i hi).2
    refine ⟨hw, ?_⟩
    simp only [plc_delta_ibat, c_abs_eq_abs, PLC_DELTA_ISTEP]
    rw [delta_interp_bracket _ i hi h1 h2, hw]

/-- Witness for C3: average current -300 mA with two cells lies between the
table points (200, 100) and (400, 200). -/
theorem get_delta_ibat_formula_witness :
    plc_delta_ibat (-300) 2 =
      Int.tdiv (((table_at 2).ibus +
        Int.tdiv ((|(-300 : Int)| - (table_at 2).ibat) * ((table_at 3).ibus - (table_at 2).ibus))
          ((table_at 3).ibat - (table_at 2).ibat)) * 2) 50 * 50 :=
  (get_delta_ibat_formula.2.2.2 (-300) 2 2 (by decide) (by decide) (by decide)).2

/-- C4: the delta computed by `oplus_plc_get_delta_ibat` is non-decreasing in
`|avg_ibat|` for every cell count `n ≥ 1`; with one cell it is 0 at 0, 150 at
300 and 500 at 10000. -/
theorem get_delta_ibat_monotone :
    (∀ a b n : Int, 1 ≤ n → |a| ≤ |b| → plc_delta_ibat a n ≤ plc_delta_ibat b n) ∧
    (∀ x y n : Int, 1 ≤ n → 0 ≤ x → x ≤ y → plc_delta_ibat x n ≤ plc_delta_ibat y n) ∧
    plc_delta_ibat 0 1 = 0 ∧ plc_delta_ibat 300 1 = 150 ∧ plc_delta_ibat 10000 1 = 500 := by
  have key : ∀ a b n : Int, 1 ≤ n → |a| ≤ |b| → plc_delta_ibat a n ≤ plc_delta_ibat b n := by
    intro a b n hn hab
    simp only [plc_delta_ibat, c_abs_eq_abs, PLC_DELTA_ISTEP]
    have hm := delta_interp_mono |a| |b| hab
    have hna := delta_interp_nonneg |a|
    have h1 : delta_interp |a| * n ≤ delta_interp |b| * n :=
      mul_le_mul_of_nonneg_right hm (by omega)
    have h0 : 0 ≤ delta_interp |a| * n := mul_nonneg hna (by omega)
    rw [tdiv_nonneg_eq _ _ h0 (by decide), tdiv_nonneg_eq _ _ (le_trans h0 h1) (by decide)]
    have := Int.ediv_le_ediv (by decide : (0 : Int) < 50) h1
    omega
  refine ⟨key, ?_, by decide, by decide, by decide⟩
  intro x y n hn hx hxy
  apply key x y n hn
  rw [abs_of_nonneg hx, abs_of_nonneg (le_trans hx hxy)]
  exact hxy

/-- Witness for C4: two cells, 150 mA against 900 mA of average battery current. -/
theorem get_delta_ibat_monotone_witness :
    plc_delta_ibat (-150) 2 ≤ plc_delta_ibat 900 2 :=
  get_delta_ibat_monotone.1 (-150) 900 2 (by decide) (by decide)

/-- C5: end to end.  From a reset session with status Enable, protocol online,
active protocol UFCS, no buck sharing, the vote ports available and the UI SOC
below the ceiling, the first run of `oplus_plc_monitor_current_work` publishes
`PLC_IBUS_DEFAULT = 500`, the published current stays 500 through tick 9 (the
baseline `init_ui_soc` being the UI SOC of the start), and on the 10th tick, if
`sm_soc - init_ui_soc = 0` and the average of the ten battery samples is
positive, `plc_curr` is the current vote plus the table delta, clamped to
`[200, 1500]`. -/
theorem monitor_end_to_end (c : oplus_chg_plc)
    (w1 w2 w3 w4 w5 w6 w7 w8 w9 w10 : plc_world)
    (hr : is_reset_session c.data) (hcol : c.data.ibat_column.length = 10)
    (hst : c.plc_status = PLC_STATUS_ENABLE) (hon : c.ufcs_online = true)
    (hsup : c.plc_support = CHG_PROTOCOL_UFCS) (hbuck : c.plc_buck = 0)
    (hp : tick_ports_available c w1) (hceil : c.ui_soc < c.plc_soc) :
    (oplus_plc_monitor_current_work ⟨c, []⟩ w1).out =
        [plc_effect.push_plc_curr 500, plc_effect.schedule plc_work.plc_current_work 1000] ∧
    (∀ k : Nat, 1 ≤ k → k ≤ 9 →
      (run_ticks ⟨c, []⟩ ([w1, w2, w3, w4, w5, w6, w7, w8, w9, w10].take k)).chip.plc_curr
        = 500) ∧
    (run_ticks ⟨c, []⟩ [w1, w2, w3, w4, w5, w6, w7, w8, w9]).chip.data.init_ui_soc = c.ui_soc ∧
    (run_ticks ⟨c, []⟩ [w1, w2, w3, w4, w5, w6, w7, w8, w9]).chip.sm_soc = c.sm_soc ∧
    (c.sm_soc - c.ui_soc = 0 →
      0 < Int.tdiv (w1.gauge_curr + w2.gauge_curr + w3.gauge_curr + w4.gauge_curr +
        w5.gauge_curr + w6.gauge_curr + w7.gauge_curr + w8.gauge_curr + w9.gauge_curr +
        w10.gauge_curr) 10 →
      (run_ticks ⟨c, []⟩ [w1, w2, w3, w4, w5, w6, w7, w8, w9, w10]).chip.plc_curr =
        spec_clamp (oplus_plc_get_vote_curr c w10 +
          plc_delta_ibat (Int.tdiv (w1.gauge_curr + w2.gauge_curr + w3.gauge_curr +
            w4.gauge_curr + w5.gauge_curr + w6.gauge_curr + w7.gauge_curr + w8.gauge_curr +
            w9.gauge_curr + w10.gauge_curr) 10) w10.batt_num)) := by
  have hE : c.plc_status = PLC_STATUS_ENABLE ∧ c.ufcs_online = true ∧
      c.plc_support = CHG_PROTOCOL_UFCS ∧ c.plc_buck = 0 := ⟨hst, hon, hsup, hbuck⟩
  obtain ⟨m1, o1⟩ := tick_first c w1 hr hcol hE hp
  have m2 := tick_mid c _ _ w2 m1 hE (by simp)
  have m3 := tick_mid c _ _ w3 m2 hE (by simp)
  have m4 := tick_mid c _ _ w4 m3 hE (by simp)
  have m5 := tick_mid c _ _ w5 m4 hE (by simp)
  have m6 := tick_mid c _ _ w6 m5 hE (by simp)
  have m7 := tick_mid c _ _ w7 m6 hE (by simp)
  have m8 := tick_mid c _ _ w8 m7 hE (by simp)
  have m9 := tick_mid c _ _ w9 m8 hE (by simp)
  simp only [List.cons_append, List.nil_append] at m2 m3 m4 m5 m6 m7 m8 m9
  refine ⟨o1, ?_, m9.2.2.1.2.1, m9.2.1.2.2.2.2.1, ?_⟩
  · intro k h1 h9
    interval_cases k
    · exact m1.2.2.2.1.2.2
    · exact m2.2.2.2.1.2.2
    · exact m3.2.2.2.1.2.2
    · exact m4.2.2.2.1.2.2
    · exact m5.2.2.2.1.2.2
    · exact m6.2.2.2.1.2.2
    · exact m7.2.2.2.1.2.2
    · exact m8.2.2.2.1.2.2
    · exact m9.2.2.2.1.2.2
  · intro hds havg
    rw [← avg_of_ten] at havg ⊢
    have h10 := tick_complete c _ _ w10 m9 hE rfl hceil hds havg
    simp only [run_ticks, List.foldl_cons, List.foldl_nil]
    exact h10

/-- Witness for C5: the sample instance (UI SOC 50, smoothed SOC 50, ceiling 90)
with ten samples of 300 mA; the tenth tick publishes 500 + 150 = 650 mA. -/
theorem monitor_end_to_end_witness :
    (run_ticks ⟨chip_enabled, []⟩ (List.replicate 10 (world_of 300 100))).chip.plc_curr = 650 :=
  ((monitor_end_to_end chip_enabled (world_of 300 100) (world_of 300 100) (world_of 300 100)
    (world_of 300 100) (world_of 300 100) (world_of 300 100) (world_of 300 100)
    (world_of 300 100) (world_of 300 100) (world_of 300 100)
    (by simp [is_reset_session, chip_enabled, data_zero]) (by decide) (by decide) (by decide)
    (by decide) (by decide) (by simp [tick_ports_available, chip_enabled]) (by decide)).2.2.2.2
      (by decide) (by decide)).trans (by decide)

/-- C6: with the vote ports available, `oplus_plc_enable_vote_callback` raises
`enable_cnts` by exactly 1 if and only if the status before the call is Disable
and the requested state is Enable; in that case the session is cleared
(`init_status`, both guard counters, both ring cursors and tick counts,
`plc_check`) and the status is left at Enable; every other call leaves
`enable_cnts` unchanged. -/
theorem enable_vote_callback_counts (s : plc_run) (w : plc_world) (enable : Int)
    (hp : callback_ports_available s.chip w) :
    ((oplus_plc_enable_vote_callback s w enable).1.chip.data.enable_cnts =
        s.chip.data.enable_cnts + 1 ↔
      (s.chip.plc_status = PLC_STATUS_DISABLE ∧ enable = PLC_STATUS_ENABLE)) ∧
    ((s.chip.plc_status = PLC_STATUS_DISABLE ∧ enable = PLC_STATUS_ENABLE) →
      (oplus_plc_enable_vote_callback s w enable).1.chip.data.init_status = false ∧
      (oplus_plc_enable_vote_callback s w enable).1.chip.data.ibat_low = 0 ∧
      (oplus_plc_enable_vote_callback s w enable).1.chip.data.ibus_over = 0 ∧
      (oplus_plc_enable_vote_callback s w enable).1.chip.data.ibat_index = 0 ∧
      (oplus_plc_enable_vote_callback s w enable).1.chip.data.ibus_index = 0 ∧
      (oplus_plc_enable_vote_callback s w enable).1.chip.data.ibat_cnts = 0 ∧
      (oplus_plc_enable_vote_callback s w enable).1.chip.data.ibus_cnts = 0 ∧
      (oplus_plc_enable_vote_callback s w enable).1.chip.data.plc_check = false ∧
      (oplus_plc_enable_vote_callback s w enable).1.chip.plc_status = PLC_STATUS_ENABLE) ∧
    (¬ (s.chip.plc_status = PLC_STATUS_DISABLE ∧ enable = PLC_STATUS_ENABLE) →
      (oplus_plc_enable_vote_callback s w enable).1.chip.data.enable_cnts =
        s.chip.data.enable_cnts) := by
  by_cases hst : s.chip.plc_status = enable
  · have hcb : oplus_plc_enable_vote_callback s w enable = (s, 0) := by
      unfold oplus_plc_enable_vote_callback
      rw [if_pos hst]
    have hno : ¬ (s.chip.plc_status = PLC_STATUS_DISABLE ∧ enable = PLC_STATUS_ENABLE) := by
      rintro ⟨h1, h2⟩
      rw [h1, h2] at hst
      exact absurd hst (by decide)
    rw [hcb]
    refine ⟨⟨fun h => ?_, fun h => absurd h hno⟩, fun h => absurd h hno, fun _ => rfl⟩
    simp only [] at h
    omega
  · rw [callback_chip s w enable hst hp]
    by_cases hd : s.chip.plc_status = PLC_STATUS_DISABLE ∧ enable = PLC_STATUS_ENABLE
    · rw [if_pos hd]
      refine ⟨⟨fun _ => hd, fun _ => ?_⟩, fun _ => ?_, fun h => absurd hd h⟩
      · simp
      · simp [hd.2]
    · rw [if_neg hd]
      refine ⟨⟨fun h => ?_, fun h => absurd h hd⟩, fun h => absurd h hd, fun _ => ?_⟩
      · simp only [] at h
        omega
      · simp

/-- Witness for C6: the sample instance in state Disable, asked for Enable. -/
theorem enable_vote_callback_counts_witness :
    (oplus_plc_enable_vote_callback
        ⟨{ chip_enabled with plc_status := PLC_STATUS_DISABLE }, []⟩ (world_of 0 0)
        PLC_STATUS_ENABLE).1.chip.data.enable_cnts = 0 + 1 :=
  (enable_vote_callback_counts ⟨{ chip_enabled with plc_status := PLC_STATUS_DISABLE }, []⟩
    (world_of 0 0) PLC_STATUS_ENABLE
    (by simp [callback_ports_available, chip_enabled])).1.mpr ⟨rfl, rfl⟩

/-- C7: requesting the current state is a no-op.  Whenever `plc_status` equals
the requested value the callback returns 0 at the entry guard with the instance
untouched and nothing requested; and for every state and requested value, a
second call with the same value right after a first one (the first call found
the status already equal, or found the vote ports, or the votable registry is
the same for both calls) changes no field and emits no vote, publish, sleep or
work scheduling. -/
theorem enable_vote_callback_same_state_noop (s : plc_run) (w1 w2 : plc_world) (enable : Int)
    (h : s.chip.plc_status = enable ∨ callback_ports_available s.chip w1 ∨
      same_registry w1 w2) :
    (s.chip.plc_status = enable → oplus_plc_enable_vote_callback s w1 enable = (s, 0)) ∧
    oplus_plc_enable_vote_callback (oplus_plc_enable_vote_callback s w1 enable).1 w2 enable =
      ((oplus_plc_enable_vote_callback s w1 enable).1, 0) := by
  have guard : ∀ (t : plc_run) (w : plc_world), t.chip.plc_status = enable →
      oplus_plc_enable_vote_callback t w enable = (t, 0) := by
    intro t w ht
    unfold oplus_plc_enable_vote_callback
    rw [if_pos ht]
  refine ⟨guard s w1, ?_⟩
  by_cases hst : s.chip.plc_status = enable
  · rw [guard s w1 hst]
    exact guard s w2 hst
  rcases h with h | h | h
  · exact absurd h hst
  · apply guard
    rw [callback_chip s w1 enable hst h]
  · by_cases ha : (callback_ports_check s.chip w1).2 = false
    · have h1 : oplus_plc_enable_vote_callback s w1 enable =
          ({ s with chip := (callback_ports_check s.chip w1).1 }, 0) := by
        unfold oplus_plc_enable_vote_callback
        rw [if_neg hst]
        simp only [ha, if_true]
      rw [h1]
      unfold oplus_plc_enable_vote_callback
      simp only []
      rw [if_neg (by rw [(callback_ports_check_frame s.chip w1).1]; exact hst),
        callback_ports_check_twice s.chip w1 w2 h]
      simp only [ha, if_true]
    · apply guard
      have h1 : oplus_plc_enable_vote_callback s w1 enable =
          publish_status_and_schedule
            (enable_transition { s with chip := (callback_ports_check s.chip w1).1 } w1 enable)
            w1 := by
        unfold oplus_plc_enable_vote_callback
        rw [if_neg hst]
        simp only []
        rw [if_neg ha]
      rw [h1, publish_status_chip, enable_transition_chip]

/-- Witness for C7: the sample instance in state Disable, asked for Enable twice
while the votables are registered. -/
theorem enable_vote_callback_same_state_noop_witness :
    oplus_plc_enable_vote_callback
        (oplus_plc_enable_vote_callback
          ⟨{ chip_enabled with plc_status := PLC_STATUS_DISABLE }, []⟩ (world_of 0 0)
          PLC_STATUS_ENABLE).1 (world_of 5 5) PLC_STATUS_ENABLE =
      ((oplus_plc_enable_vote_callback
          ⟨{ chip_enabled with plc_status := PLC_STATUS_DISABLE }, []⟩ (world_of 0 0)
          PLC_STATUS_ENABLE).1, 0) :=
  (enable_vote_callback_same_state_noop
    ⟨{ chip_enabled with plc_status := PLC_STATUS_DISABLE }, []⟩ (world_of 0 0) (world_of 5 5)
    PLC_STATUS_ENABLE
    (Or.inr (Or.inl (by simp [callback_ports_available, chip_enabled])))).2

/-- C8: for each guard counter of `oplus_plc_ibat_check`, over any sequence of
completed cycles that starts from counter 0 with the gating inputs (status
Enable, the PLC vote) held at values that allow the action, the counter after
each cycle is the number of consecutive qualifying cycles ending there (so one
non-qualifying cycle sets it to 0) and the corrective action fires on a cycle
exactly when that cycle is the 4th consecutive qualifying cycle of its run. -/
theorem guard_fires_on_fourth (pre : List (oplus_chg_plc × plc_world))
    (x : oplus_chg_plc × plc_world) :
    ((∀ y ∈ pre ++ [x], y.1.plc_status = PLC_STATUS_ENABLE ∧
        oplus_plc_get_vote_allow_plc y.1 y.2 ≤ 0) →
      (run_cycles (0, 0) (pre ++ [x])).1 =
          (streak ((pre ++ [x]).map fun y => low_qualifies y.1 y.2) : Int) ∧
      (plc_effect.push_dischg_plc true ∈ cycle_out pre x ↔
        streak ((pre ++ [x]).map fun y => low_qualifies y.1 y.2) = 4)) ∧
    ((∀ y ∈ pre ++ [x], y.1.plc_status = PLC_STATUS_ENABLE ∧
        oplus_plc_get_vote_allow_plc y.1 y.2 > 0) →
      (run_cycles (0, 0) (pre ++ [x])).2 =
          (streak ((pre ++ [x]).map fun y => over_qualifies y.1) : Int) ∧
      (plc_effect.push_dischg_plc false ∈ cycle_out pre x ↔
        streak ((pre ++ [x]).map fun y => over_qualifies y.1) = 4)) := by
  constructor
  · intro hg
    obtain ⟨hs, hv⟩ := hg x (by simp)
    have hc := run_cycles_low (pre ++ [x])
    refine ⟨hc, ?_⟩
    rw [run_cycles_snoc] at hc
    have hc' : low_next (with_counters x.1 (run_cycles (0, 0) pre).1 (run_cycles (0, 0) pre).2)
        x.2 = (streak ((pre ++ [x]).map fun y => low_qualifies y.1 y.2) : Int) := by
      rw [← hc]
      exact (ibat_check_low ⟨with_counters x.1 (run_cycles (0, 0) pre).1
        (run_cycles (0, 0) pre).2, []⟩ x.2).symm
    unfold cycle_out
    rw [low_fires_iff, hc']
    constructor
    · intro h
      have := h.2.1
      unfold PLC_IBAT_LOW_CNTS at this
      exact_mod_cast this
    · intro h
      have hq : low_qualifies x.1 x.2 = true := by
        by_contra hq
        rw [List.map_append, List.map_singleton, streak_snoc, if_neg hq] at h
        omega
      refine ⟨?_, by rw [h]; rfl, hs, hv⟩
      have := of_decide_eq_true hq
      exact this.1
  · intro hg
    obtain ⟨hs, hv⟩ := hg x (by simp)
    have hc := run_cycles_over (pre ++ [x]) (fun y hy => (hg y hy).2)
    refine ⟨hc, ?_⟩
    rw [run_cycles_snoc] at hc
    have hnl : ¬ ((with_counters x.1 (run_cycles (0, 0) pre).1
          (run_cycles (0, 0) pre).2).ufcs_charging = true ∧
        low_next (with_counters x.1 (run_cycles (0, 0) pre).1 (run_cycles (0, 0) pre).2) x.2
          = PLC_IBAT_LOW_CNTS ∧
        (with_counters x.1 (run_cycles (0, 0) pre).1
          (run_cycles (0, 0) pre).2).plc_status = PLC_STATUS_ENABLE ∧
        oplus_plc_get_vote_allow_plc (with_counters x.1 (run_cycles (0, 0) pre).1
          (run_cycles (0, 0) pre).2) x.2 ≤ 0) := by
      intro h
      have h4 : oplus_plc_get_vote_allow_plc x.1 x.2 ≤ 0 := h.2.2.2
      omega
    have hc' : over_next (with_counters x.1 (run_cycles (0, 0) pre).1 (run_cycles (0, 0) pre).2)
        = (streak ((pre ++ [x]).map fun y => over_qualifies y.1) : Int) := by
      rw [← hc]
      exact (ibat_check_over ⟨with_counters x.1 (run_cycles (0, 0) pre).1
        (run_cycles (0, 0) pre).2, []⟩ x.2 hnl).symm
    unfold cycle_out
    rw [over_fires_iff, hc']
    constructor
    · intro h
      have := h.2.2.2.2
      unfold PLC_IBUS_HIGH_CNTS at this
      exact_mod_cast this
    · intro h
      have hq : over_qualifies x.1 = true := by
        by_contra hq
        rw [List.map_append, List.map_singleton, streak_snoc, if_neg hq] at h
        omega
      refine ⟨hnl, ?_, hs, hv, by rw [h]; rfl⟩
      have := of_decide_eq_true hq
      exact this.1

/-- Witness for C8: four qualifying cycles of the low-battery-current guard in a
row, gating held at Enable with the PLC vote not cast; the fourth one fires. -/
theorem guard_fires_on_fourth_witness :
    plc_effect.push_dischg_plc true ∈
      cycle_out (List.replicate 3 (chip_low_cycle 0, world_of 0 0))
        (chip_low_cycle 0, world_of 0 0) :=
  ((guard_fires_on_fourth (List.replicate 3 (chip_low_cycle 0, world_of 0 0))
    (chip_low_cycle 0, world_of 0 0)).1 (by decide)).2.mpr (by decide)

/-- C9 as stated fails: on a completed cycle with protocol-charging, status
Enable and the `ibat_low` streak reaching 4, with this core's `PLC_VOTER` vote
on the not-allow votable asserted (value 1), `oplus_plc_ibat_check` does not
emit the disable-PLC signal and does not vote output-suspend; it stores and
publishes the target 200 instead. -/
theorem ibat_low_guard_asserted_vote_counterexample :
    (chip_low_cycle 3).ufcs_charging = true ∧
    (chip_low_cycle 3).plc_status = PLC_STATUS_ENABLE ∧
    oplus_plc_get_vote_allow_plc (chip_low_cycle 3) world_vote_asserted = 1 ∧
    (oplus_plc_ibat_check ⟨chip_low_cycle 3, []⟩ world_vote_asserted).chip.data.ibat_low = 4 ∧
    (oplus_plc_ibat_check ⟨chip_low_cycle 3, []⟩ world_vote_asserted).out =
      [plc_effect.push_plc_curr 200] ∧
    (chip_low_cycle 3).plc_curr = 500 ∧
    (oplus_plc_ibat_check ⟨chip_low_cycle 3, []⟩ world_vote_asserted).chip.plc_curr = 200 := by
  decide

/-- C9 amended: on a completed cycle with protocol-charging true and status
Enable on which the `ibat_low` streak reaches 4, if this core's `PLC_VOTER` vote
read from the not-allow votable is not asserted (it reads 0 or negative),
`oplus_plc_ibat_check` emits the disable-PLC signal (discharge-normal = true),
votes output-suspend true, captures the IBAT-exit diagnostic and returns
without changing or publishing `plc_curr`; if that vote is asserted (positive)
the guard does not fire and the target is stored and published as usual. -/
theorem ibat_low_guard_fires_when_vote_not_asserted (c : oplus_chg_plc) (w : plc_world)
    (hc : c.ufcs_charging = true) (hs : c.plc_status = PLC_STATUS_ENABLE)
    (h4 : (oplus_plc_ibat_check ⟨c, []⟩ w).chip.data.ibat_low = PLC_IBAT_LOW_CNTS) :
    (oplus_plc_get_vote_allow_plc c w ≤ 0 →
      (oplus_plc_ibat_check ⟨c, []⟩ w).out =
        [plc_effect.push_dischg_plc true, plc_effect.vote plc_port.output_suspend true 1,
          plc_effect.track_msg PLC_TRACK_IBAT_EXIT] ∧
      (oplus_plc_ibat_check ⟨c, []⟩ w).chip.plc_curr = c.plc_curr) ∧
    (oplus_plc_get_vote_allow_plc c w > 0 →
      (oplus_plc_ibat_check ⟨c, []⟩ w).out = [plc_effect.push_plc_curr (policy_value c w)] ∧
      (oplus_plc_ibat_check ⟨c, []⟩ w).chip.plc_curr = policy_value c w) := by
  have hl : low_next c w = PLC_IBAT_LOW_CNTS := by
    rw [← h4]
    exact (ibat_check_low ⟨c, []⟩ w).symm
  have hq : low_qualifies c w = true := by
    by_contra hq
    unfold low_next at hl
    rw [if_neg hq] at hl
    exact absurd hl (by decide)
  obtain ⟨hpo, -⟩ := low_qualifies_no_exit c w hq
  constructor
  · intro hv
    rw [ibat_check_nf, if_pos ⟨hc, hl, hs, hv⟩]
    simp only [hpo, List.nil_append, List.append_nil, and_self]
  · intro hv
    have hon : c.ufcs_online = true := by
      by_contra hno
      simp [oplus_plc_get_vote_allow_plc, hno, EINVAL] at hv
    have hnl : ¬ (c.ufcs_charging = true ∧ low_next c w = PLC_IBAT_LOW_CNTS ∧
        c.plc_status = PLC_STATUS_ENABLE ∧ oplus_plc_get_vote_allow_plc c w ≤ 0) := by
      intro h
      have := h.2.2.2
      omega
    have hno : ¬ (c.ufcs_charging = false ∧ c.plc_status = PLC_STATUS_ENABLE ∧
        oplus_plc_get_vote_allow_plc c w > 0 ∧ over_next c = PLC_IBUS_HIGH_CNTS) := by
      intro h
      rw [hc] at h
      exact absurd h.1 (by decide)
    rw [ibat_check_nf]
    show (if _ then _ else if _ then _ else if _ then _ else _ : plc_run).out = _ ∧ _
    rw [if_neg hnl, if_neg hno, if_pos ⟨hon, Or.inl hs⟩]
    simp only [hpo, List.nil_append, List.append_nil, and_self]

/-- Witness for C9: the sample low-current cycle with the streak at 3 and the
PLC vote not cast. -/
theorem ibat_low_guard_fires_when_vote_not_asserted_witness :
    (oplus_plc_ibat_check ⟨chip_low_cycle 3, []⟩ (world_of 0 0)).out =
        [plc_effect.push_dischg_plc true, plc_effect.vote plc_port.output_suspend true 1,
          plc_effect.track_msg PLC_TRACK_IBAT_EXIT] ∧
      (oplus_plc_ibat_check ⟨chip_low_cycle 3, []⟩ (world_of 0 0)).chip.plc_curr =
        (chip_low_cycle 3).plc_curr :=
  (ibat_low_guard_fires_when_vote_not_asserted (chip_low_cycle 3) (world_of 0 0)
    (by decide) (by decide) (by decide)).1 (by decide)
/-- C10 as stated fails: when the high-bus-current guard fires on the sample
cycle, the requests issued are not the pulse of the specification: no vote
asserts output-suspend (the only vote on it is a release, and it comes before
the wired-suspend pulse), and `plc_curr`, zeroed first, ends the call at the
policy target 1500, which is published last. -/
theorem ibus_over_guard_pulse_counterexample :
    ((chip_over_cycle 3).ufcs_charging = false ∧
      (chip_over_cycle 3).plc_status = PLC_STATUS_ENABLE ∧
      oplus_plc_get_vote_allow_plc (chip_over_cycle 3) world_vote_asserted > 0 ∧
      (oplus_plc_ibat_check ⟨chip_over_cycle 3, []⟩ world_vote_asserted).chip.data.ibus_over
        = 4) ∧
    (oplus_plc_ibat_check ⟨chip_over_cycle 3, []⟩ world_vote_asserted).out =
      [plc_effect.push_plc_curr 0, plc_effect.vote plc_port.output_suspend false 0,
       plc_effect.vote plc_port.wired_suspend true 1, plc_effect.msleep 1000,
       plc_effect.vote plc_port.wired_suspend false 0, plc_effect.push_dischg_plc false,
       plc_effect.track_msg PLC_TRACK_IBUS_ENTER, plc_effect.push_plc_curr 1500] ∧
    ¬ List.Sublist spec_recovery_pulse
      (oplus_plc_ibat_check ⟨chip_over_cycle 3, []⟩ world_vote_asserted).out ∧
    plc_effect.vote plc_port.output_suspend true 1 ∉
      (oplus_plc_ibat_check ⟨chip_over_cycle 3, []⟩ world_vote_asserted).out ∧
    (oplus_plc_ibat_check ⟨chip_over_cycle 3, []⟩ world_vote_asserted).chip.plc_curr = 1500 := by
  decide

/-- C10 amended: when the high-bus-current guard fires (not protocol-charging,
status Enable, PLC vote positive, `ibus_over` reaching 4), the requests issued
by `oplus_plc_ibat_check` after those of the SOC-band policy are, in this exact
order: publish current 0, release output-suspend, assert wired-suspend, hold
1000 ms, de-assert wired-suspend, re-enable PLC discharge (discharge-normal =
false), capture the IBUS-enter diagnostic, publish the policy target; the
published current is zeroed at the start of the pulse and ends the call equal
to the policy target. -/
theorem ibus_over_guard_pulse (c : oplus_chg_plc) (w : plc_world)
    (hc : c.ufcs_charging = false) (hs : c.plc_status = PLC_STATUS_ENABLE)
    (hv : oplus_plc_get_vote_allow_plc c w > 0)
    (h4 : (oplus_plc_ibat_check ⟨c, []⟩ w).chip.data.ibus_over = PLC_IBUS_HIGH_CNTS) :
    (oplus_plc_ibat_check ⟨c, []⟩ w).out =
      policy_out c w ++
        [plc_effect.push_plc_curr 0, plc_effect.vote plc_port.output_suspend false 0,
         plc_effect.vote plc_port.wired_suspend true 1, plc_effect.msleep 1000,
         plc_effect.vote plc_port.wired_suspend false 0, plc_effect.push_dischg_plc false,
         plc_effect.track_msg PLC_TRACK_IBUS_ENTER,
         plc_effect.push_plc_curr (policy_value c w)] ∧
    (oplus_plc_ibat_check ⟨c, []⟩ w).chip.plc_curr = policy_value c w := by
  have hnl : ¬ (c.ufcs_charging = true ∧ low_next c w = PLC_IBAT_LOW_CNTS ∧
      c.plc_status = PLC_STATUS_ENABLE ∧ oplus_plc_get_vote_allow_plc c w ≤ 0) := by
    intro h
    have := h.2.2.2
    omega
  have ho : over_next c = PLC_IBUS_HIGH_CNTS := by
    rw [← h4]
    exact (ibat_check_over ⟨c, []⟩ w hnl).symm
  rw [ibat_check_nf]
  show (if _ then _ else if _ then _ else _ : plc_run).out = _ ∧ _
  rw [if_neg hnl, if_pos ⟨hc, hs, hv, ho⟩]
  exact ⟨by simp [PLC_SUSPEND_DELAY], rfl⟩

/-- Witness for C10: the sample high-bus-current cycle with the streak at 3 and
the PLC vote asserted. -/
theorem ibus_over_guard_pulse_witness :
    (oplus_plc_ibat_check ⟨chip_over_cycle 3, []⟩ world_vote_asserted).chip.plc_curr =
      policy_value (chip_over_cycle 3) world_vote_asserted :=
  (ibus_over_guard_pulse (chip_over_cycle 3) world_vote_asserted (by decide) (by decide)
    (by decide) (by decide)).2

/-- C11 as stated fails: entering Disable from Enable with the PLC vote
asserted and no charger-suspend vote, on an instance whose wired path is
offline, casts no vote on wired-suspend and does not sleep; it only releases
output-suspend and clears the two discharge-inhibit signals. -/
theorem enter_disable_wired_offline_counterexample :
    (chip_wired_offline.plc_status ≠ PLC_STATUS_DISABLE ∧
      oplus_plc_get_vote_allow_plc chip_wired_offline world_vote_asserted > 0 ∧
      oplus_plc_get_vote_charger_suspend chip_wired_offline world_vote_asserted ≤ 0) ∧
    (oplus_plc_enable_vote_callback ⟨chip_wired_offline, []⟩ world_vote_asserted
        PLC_STATUS_DISABLE).1.out =
      [plc_effect.vote plc_port.output_suspend false 0, plc_effect.push_dischg_plc false,
       plc_effect.push_dischg_soc false, plc_effect.vote plc_port.output_suspend false 1,
       plc_effect.publish_status PLC_STATUS_DISABLE,
       plc_effect.schedule plc_work.plc_current_work 1000] ∧
    plc_effect.vote plc_port.wired_suspend true 1 ∉
      (oplus_plc_enable_vote_callback ⟨chip_wired_offline, []⟩ world_vote_asserted
        PLC_STATUS_DISABLE).1.out ∧
    plc_effect.msleep 1000 ∉
      (oplus_plc_enable_vote_callback ⟨chip_wired_offline, []⟩ world_vote_asserted
        PLC_STATUS_DISABLE).1.out := by
  decide

/-- C11 amended: entering Disable from a different state with the vote ports
available.  If the PLC vote or the SOC vote is asserted (positive) and no
charger-suspend vote is active, the core, when the wired path is online,
asserts wired-suspend, holds 1000 ms and releases wired-suspend, and in either
case releases output-suspend and clears both discharge-inhibit signals;
otherwise, if protocol-charging and the disable-retry vote is not active, it
asserts discharge-retry and casts no vote on wired-suspend; in every case the
last vote cast on output-suspend in that call is a release. -/
theorem enter_disable_requests (c : oplus_chg_plc) (w : plc_world)
    (hne : c.plc_status ≠ PLC_STATUS_DISABLE) (hp : callback_ports_available c w) :
    (((oplus_plc_get_vote_allow_plc c w > 0 ∨ oplus_plc_get_vote_allow_soc c w > 0) ∧
        oplus_plc_get_vote_charger_suspend c w ≤ 0) →
      (oplus_plc_enable_vote_callback ⟨c, []⟩ w PLC_STATUS_DISABLE).1.out =
        (if c.wired_online = true then
          [plc_effect.vote plc_port.wired_suspend true 1, plc_effect.msleep 1000,
            plc_effect.vote plc_port.wired_suspend false 0] else []) ++
        [plc_effect.vote plc_port.output_suspend false 0, plc_effect.push_dischg_plc false,
          plc_effect.push_dischg_soc false, plc_effect.vote plc_port.output_suspend false 1] ++
        status_tail w PLC_STATUS_DISABLE) ∧
    (¬ ((oplus_plc_get_vote_allow_plc c w > 0 ∨ oplus_plc_get_vote_allow_soc c w > 0) ∧
        oplus_plc_get_vote_charger_suspend c w ≤ 0) →
      (c.ufcs_charging = true ∧ oplus_plc_get_vote_disalbe_retry c w ≤ 0) →
      (oplus_plc_enable_vote_callback ⟨c, []⟩ w PLC_STATUS_DISABLE).1.out =
        [plc_effect.push_dischg_retry true, plc_effect.vote plc_port.output_suspend false 1] ++
          status_tail w PLC_STATUS_DISABLE) ∧
    last_vote_on plc_port.output_suspend
        (oplus_plc_enable_vote_callback ⟨c, []⟩ w PLC_STATUS_DISABLE).1.out = some (false, 1) := by
  rw [callback_enter_disable c w hne hp]
  refine ⟨fun h => ?_, fun h1 h2 => ?_, ?_⟩
  · rw [if_pos h]
    simp only [List.append_assoc, List.cons_append, List.nil_append]
  · rw [if_neg h1, if_pos h2]
    simp only [List.cons_append, List.nil_append]
  · unfold last_vote_on status_tail
    split_ifs <;> simp [List.filterMap_append, List.filterMap_cons]

/-- Witness for C11: the sample instance (wired path online) leaving Enable for
Disable with the PLC vote asserted. -/
theorem enter_disable_requests_witness :
    (oplus_plc_enable_vote_callback ⟨chip_enabled, []⟩ world_vote_asserted
        PLC_STATUS_DISABLE).1.out =
      (if chip_enabled.wired_online = true then
          [plc_effect.vote plc_port.wired_suspend true 1, plc_effect.msleep 1000,
            plc_effect.vote plc_port.wired_suspend false 0] else []) ++
        [plc_effect.vote plc_port.output_suspend false 0, plc_effect.push_dischg_plc false,
          plc_effect.push_dischg_soc false, plc_effect.vote plc_port.output_suspend false 1] ++
        status_tail world_vote_asserted PLC_STATUS_DISABLE :=
  (enter_disable_requests chip_enabled world_vote_asserted (by decide)
    (by simp [callback_ports_available, chip_enabled])).1 (by decide)

/-- C12: when `oplus_plc_disable_wait_work` runs it requests a transition only
if the state it reads (this core's vote on the enable votable) is still Wait,
and then the requested state is NotAllowed if the protocol is offline and
Disable otherwise; if the state read is not Wait it requests nothing.  The
instance itself is never changed. -/
theorem disable_wait_work_requests (s : plc_run) (w : plc_world) :
    (oplus_plc_disable_wait_work s w).chip = s.chip ∧
    (w.plc_enable_vote = PLC_STATUS_WAIT → s.chip.ufcs_online = false →
      (oplus_plc_disable_wait_work s w).out =
        s.out ++ [plc_effect.vote plc_port.plc_enable true PLC_STATUS_NOT_ALLOW]) ∧
    (w.plc_enable_vote = PLC_STATUS_WAIT → s.chip.ufcs_online = true →
      (oplus_plc_disable_wait_work s w).out =
        s.out ++ [plc_effect.vote plc_port.plc_enable true PLC_STATUS_DISABLE]) ∧
    (w.plc_enable_vote ≠ PLC_STATUS_WAIT → oplus_plc_disable_wait_work s w = s) := by
  unfold oplus_plc_disable_wait_work
  refine ⟨?_, fun h1 h2 => ?_, fun h1 h2 => ?_, fun h => ?_⟩
  · split_ifs <;> rfl
  · rw [if_pos h1, if_pos h2]; rfl
  · rw [if_pos h1, if_neg (by simp [h2])]; rfl
  · rw [if_neg h]

/-- Witness for C12: the state read is Wait and the protocol is online, so
Disable is requested. -/
theorem disable_wait_work_requests_witness :
    (oplus_plc_disable_wait_work ⟨chip_enabled, []⟩
        { world_of 0 0 with plc_enable_vote := PLC_STATUS_WAIT }).out =
      [] ++ [plc_effect.vote plc_port.plc_enable true PLC_STATUS_DISABLE] :=
  (disable_wait_work_requests ⟨chip_enabled, []⟩
    { world_of 0 0 with plc_enable_vote := PLC_STATUS_WAIT }).2.2.1 (by decide) (by decide)

/-- C14: starting from a reset session (battery cursor 0), the cycle-complete
flag `plc_check` left by the k-th call of `oplus_plc_read_ibatt`, k at least 1,
is true if and only if k is a multiple of 10. -/
theorem cycle_complete_every_tenth (c : oplus_chg_plc) (ws : List plc_world)
    (h0 : c.data.ibat_index = 0) (hne : ws ≠ []) :
    (run_pushes ⟨c, []⟩ ws).chip.data.plc_check = true ↔ 10 ∣ ws.length := by
  induction ws using List.reverseRecOn with
  | nil => exact absurd rfl hne
  | append_singleton pre w _ =>
    rw [run_pushes_snoc, (read_ibatt_ibat _ w).2, run_pushes_index c pre h0,
      (tmod_succ_range _ (by omega) (by omega)).2.2]
    simp only [decide_eq_true_eq, List.length_append, List.length_singleton]
    omega

/-- Witness for C14: ten pushes from the sample instance complete a cycle. -/
theorem cycle_complete_every_tenth_witness :
    (run_pushes ⟨chip_enabled, []⟩ (List.replicate 10 (world_of 1 1))).chip.data.plc_check
      = true :=
  (cycle_complete_every_tenth chip_enabled (List.replicate 10 (world_of 1 1)) (by decide)
    (by decide)).mpr (by decide)

/-- C15: after any sequence of pushes by `oplus_plc_read_ibatt` since the last
session reset that ends with ten pushes, `oplus_plc_get_avg_ibat` returns the
sum of the last ten battery-current values divided by 10 (truncating),
whatever the cursor position and whatever the arrays held before; the same
holds for `oplus_plc_get_avg_ibus` and the bus-current samples. -/
theorem avg_of_last_ten (c : oplus_chg_plc) (pre : List plc_world)
    (w0 w1 w2 w3 w4 w5 w6 w7 w8 w9 : plc_world)
    (hb : c.data.ibat_index = 0) (hu : c.data.ibus_index = 0)
    (hlb : c.data.ibat_column.length = 10) (hlu : c.data.ibus_column.length = 10) :
    (oplus_plc_get_avg_ibat
        (run_pushes ⟨c, []⟩ (pre ++ [w0, w1, w2, w3, w4, w5, w6, w7, w8, w9]))).2 =
      Int.tdiv (w0.gauge_curr + w1.gauge_curr + w2.gauge_curr + w3.gauge_curr + w4.gauge_curr +
        w5.gauge_curr + w6.gauge_curr + w7.gauge_curr + w8.gauge_curr + w9.gauge_curr) 10 ∧
    (oplus_plc_get_avg_ibus
        (run_pushes ⟨c, []⟩ (pre ++ [w0, w1, w2, w3, w4, w5, w6, w7, w8, w9]))).2 =
      Int.tdiv (w0.wired_ibus + w1.wired_ibus + w2.wired_ibus + w3.wired_ibus + w4.wired_ibus +
        w5.wired_ibus + w6.wired_ibus + w7.wired_ibus + w8.wired_ibus + w9.wired_ibus) 10 := by
  have hbv : 0 ≤ c.data.ibat_index ∧ c.data.ibat_index < 10 := by omega
  have huv : 0 ≤ c.data.ibus_index ∧ c.data.ibus_index < 10 := by omega
  have e1 := run_pushes_ibat ⟨c, []⟩ (pre ++ [w0, w1, w2, w3, w4, w5, w6, w7, w8, w9])
  have e2 := run_pushes_ibus ⟨c, []⟩ (pre ++ [w0, w1, w2, w3, w4, w5, w6, w7, w8, w9]) huv
  rw [List.map_append, List.foldl_append] at e1 e2
  have v1 := ring_fold_valid (pre.map fun w => w.gauge_curr)
    (c.data.ibat_column, c.data.ibat_index) hbv
  have v2 := ring_fold_valid (pre.map fun w => w.wired_ibus)
    (c.data.ibus_column, c.data.ibus_index) huv
  constructor
  · show avg_of (run_pushes _ _).chip.data.ibat_column = _
    have f1 := congrArg Prod.fst e1
    simp only [List.map_cons, List.map_nil] at f1
    rw [f1]
    exact ring_ten _ _ (v1.2.trans hlb) v1.1.1 v1.1.2 _ _ _ _ _ _ _ _ _ _
  · show avg_of (run_pushes _ _).chip.data.ibus_column = _
    have f2 := congrArg Prod.fst e2
    simp only [List.map_cons, List.map_nil] at f2
    rw [f2]
    exact ring_ten _ _ (v2.2.trans hlu) v2.1.1 v2.1.2 _ _ _ _ _ _ _ _ _ _

/-- Witness for C15: three stale pushes, then ten pushes of 300 mA and 100 mA. -/
theorem avg_of_last_ten_witness :
    (oplus_plc_get_avg_ibat
        (run_pushes ⟨chip_enabled, []⟩ (List.replicate 3 (world_of 7 9) ++
          [world_of 300 100, world_of 300 100, world_of 300 100, world_of 300 100,
           world_of 300 100, world_of 300 100, world_of 300 100, world_of 300 100,
           world_of 300 100, world_of 300 100]))).2 = 300 :=
  (avg_of_last_ten chip_enabled (List.replicate 3 (world_of 7 9)) (world_of 300 100)
    (world_of 300 100) (world_of 300 100) (world_of 300 100) (world_of 300 100)
    (world_of 300 100) (world_of 300 100) (world_of 300 100) (world_of 300 100)
    (world_of 300 100) (by decide) (by decide) (by decide) (by decide)).1.trans (by decide)

/-- C16: in every state reached from an instance with both cursors at 0 (the
zero-initialised instance in particular) by any sequence of pushes and session
resets, both write cursors lie in `[0, 10)`, so the slot a push writes is
inside the ten-element array; each push advances each cursor by one modulo 10
and raises each tick count by exactly 1. -/
theorem cursor_invariant (c : oplus_chg_plc) (ops : List ring_op)
    (hb : c.data.ibat_index = 0) (hu : c.data.ibus_index = 0) :
    (0 ≤ (ops.foldl ring_step ⟨c, []⟩).chip.data.ibat_index ∧
      (ops.foldl ring_step ⟨c, []⟩).chip.data.ibat_index < 10 ∧
      0 ≤ (ops.foldl ring_step ⟨c, []⟩).chip.data.ibus_index ∧
      (ops.foldl ring_step ⟨c, []⟩).chip.data.ibus_index < 10) ∧
    (∀ w : plc_world,
      (oplus_plc_read_ibatt (ops.foldl ring_step ⟨c, []⟩) w).chip.data.ibat_index =
        ((ops.foldl ring_step ⟨c, []⟩).chip.data.ibat_index + 1) % 10 ∧
      (oplus_plc_read_ibatt (ops.foldl ring_step ⟨c, []⟩) w).chip.data.ibus_index =
        ((ops.foldl ring_step ⟨c, []⟩).chip.data.ibus_index + 1) % 10 ∧
      (oplus_plc_read_ibatt (ops.foldl ring_step ⟨c, []⟩) w).chip.data.ibat_cnts =
        (ops.foldl ring_step ⟨c, []⟩).chip.data.ibat_cnts + 1 ∧
      (oplus_plc_read_ibatt (ops.foldl ring_step ⟨c, []⟩) w).chip.data.ibus_cnts =
        (ops.foldl ring_step ⟨c, []⟩).chip.data.ibus_cnts + 1 ∧
      (oplus_plc_read_ibatt (ops.foldl ring_step ⟨c, []⟩) w).chip.data.ibat_column =
        (ops.foldl ring_step ⟨c, []⟩).chip.data.ibat_column.set
          (ops.foldl ring_step ⟨c, []⟩).chip.data.ibat_index.toNat w.gauge_curr ∧
      (oplus_plc_read_ibatt (ops.foldl ring_step ⟨c, []⟩) w).chip.data.ibus_column =
        (ops.foldl ring_step ⟨c, []⟩).chip.data.ibus_column.set
          (ops.foldl ring_step ⟨c, []⟩).chip.data.ibus_index.toNat w.wired_ibus) := by
  have step : ∀ (s : plc_run) (w : plc_world),
      (0 ≤ s.chip.data.ibat_index ∧ s.chip.data.ibat_index < 10 ∧
        0 ≤ s.chip.data.ibus_index ∧ s.chip.data.ibus_index < 10) →
      (oplus_plc_read_ibatt s w).chip.data.ibat_index = (s.chip.data.ibat_index + 1) % 10 ∧
      (oplus_plc_read_ibatt s w).chip.data.ibus_index = (s.chip.data.ibus_index + 1) % 10 ∧
      (oplus_plc_read_ibatt s w).chip.data.ibat_column =
        s.chip.data.ibat_column.set s.chip.data.ibat_index.toNat w.gauge_curr ∧
      (oplus_plc_read_ibatt s w).chip.data.ibus_column =
        s.chip.data.ibus_column.set s.chip.data.ibus_index.toNat w.wired_ibus := by
    intro s w ⟨a1, a2, a3, a4⟩
    have e1 := (read_ibatt_ibat s w).1
    have e2 := read_ibatt_ibus s w a4
    have i1 := congrArg Prod.snd e1
    have i2 := congrArg Prod.snd e2
    have c1 := congrArg Prod.fst e1
    have c2 := congrArg Prod.fst e2
    simp only [ring_push] at i1 i2 c1 c2
    refine ⟨i1.trans (tmod_succ_range _ a1 a2).2.2, i2.trans (tmod_succ_range _ a3 a4).2.2,
      c1.trans ?_, c2.trans ?_⟩
    · unfold column_store
      rw [if_pos ⟨a1, a2⟩]
    · unfold column_store
      rw [if_pos ⟨a3, a4⟩]
  have inv : 0 ≤ (ops.foldl ring_step ⟨c, []⟩).chip.data.ibat_index ∧
      (ops.foldl ring_step ⟨c, []⟩).chip.data.ibat_index < 10 ∧
      0 ≤ (ops.foldl ring_step ⟨c, []⟩).chip.data.ibus_index ∧
      (ops.foldl ring_step ⟨c, []⟩).chip.data.ibus_index < 10 := by
    induction ops using List.reverseRecOn with
    | nil => simp [hb, hu]
    | append_singleton ops op ih =>
      rw [List.foldl_append, List.foldl_cons, List.foldl_nil]
      cases op with
      | push w =>
        obtain ⟨s1, s2, -, -⟩ := step _ w ih
        simp only [ring_step, s1, s2]
        omega
      | reset =>
        simp only [ring_step, reset_status_nf]
        omega
  refine ⟨inv, fun w => ?_⟩
  obtain ⟨s1, s2, s3, s4⟩ := step _ w inv
  exact ⟨s1, s2, (read_ibatt_cnts _ w).1, (read_ibatt_cnts _ w).2, s3, s4⟩

/-- Witness for C16: twelve pushes, a reset and three more pushes from the
sample instance leave the battery cursor at 3. -/
theorem cursor_invariant_witness :
    0 ≤ ((List.replicate 12 (ring_op.push (world_of 1 1)) ++ [ring_op.reset] ++
        List.replicate 3 (ring_op.push (world_of 1 1))).foldl ring_step
          ⟨chip_enabled, []⟩).chip.data.ibat_index :=
  (cursor_invariant chip_enabled (List.replicate 12 (ring_op.push (world_of 1 1)) ++
    [ring_op.reset] ++ List.replicate 3 (ring_op.push (world_of 1 1))) (by decide)
      (by decide)).1.1

/-- C17 as stated fails: in a running session (baseline captured at UI SOC 50,
`init_status` true, UI SOC now 52) a smoothed-SOC notification that changes the
smoothed SOC runs the diagnostic capture, which overwrites `init_ui_soc` with
52 while `init_status` stays true; the diagnostic capture alone does the same. -/
theorem baseline_ui_soc_overwritten_counterexample :
    chip_baselined.data.init_status = true ∧ chip_baselined.data.init_ui_soc = 50 ∧
    (oplus_plc_comm_subs_callback ⟨chip_baselined, []⟩ mms_msg_type.MSG_TYPE_ITEM
        comm_item.COMM_ITEM_SMOOTH_SOC 51).chip.data.init_status = true ∧
    (oplus_plc_comm_subs_callback ⟨chip_baselined, []⟩ mms_msg_type.MSG_TYPE_ITEM
        comm_item.COMM_ITEM_SMOOTH_SOC 51).chip.data.init_ui_soc = 52 ∧
    (oplus_plc_get_deleta_track_msg ⟨chip_baselined, []⟩ PLC_TRACK_SOC_ADD).chip.data.init_ui_soc
      = 52 := by
  decide

/-- C17 amended: once the baseline is captured (`init_status` true),
`init_sm_soc` and `init_soc` are not changed by any later tick, SOC-change
notification, policy evaluation or diagnostic capture.  `init_ui_soc` is
overwritten with the current UI SOC exactly when a diagnostic capture
(`oplus_plc_get_deleta_track_msg`) runs and is unchanged otherwise: after a
tick, a notification or a policy evaluation it holds the UI SOC if that entry
recorded a capture and its old value if it recorded none.  A notification
records a capture exactly when it is a smoothed-SOC item that changes the
smoothed SOC in Enable or Wait; a policy evaluation exactly when it takes the
SOC exit while the SOC vote reads negative; a capture itself records exactly
one. -/
theorem baseline_frame (s : plc_run) (w : plc_world) :
    (s.chip.data.init_status = true →
      (oplus_plc_monitor_current_work s w).chip.data.init_sm_soc = s.chip.data.init_sm_soc ∧
      (oplus_plc_monitor_current_work s w).chip.data.init_soc = s.chip.data.init_soc ∧
      (oplus_plc_monitor_current_work s w).chip.data.init_ui_soc =
        if captures (oplus_plc_monitor_current_work s w).out = captures s.out then
          s.chip.data.init_ui_soc else s.chip.ui_soc) ∧
    (∀ (type : mms_msg_type) (id : comm_item) (intval : Int),
      (oplus_plc_comm_subs_callback s type id intval).chip.data.init_sm_soc =
        s.chip.data.init_sm_soc ∧
      (oplus_plc_comm_subs_callback s type id intval).chip.data.init_soc =
        s.chip.data.init_soc ∧
      (oplus_plc_comm_subs_callback s type id intval).chip.data.init_ui_soc =
        (if captures (oplus_plc_comm_subs_callback s type id intval).out = captures s.out then
          s.chip.data.init_ui_soc else s.chip.ui_soc) ∧
      (captures (oplus_plc_comm_subs_callback s type id intval).out ≠ captures s.out ↔
        (type = mms_msg_type.MSG_TYPE_ITEM ∧ id = comm_item.COMM_ITEM_SMOOTH_SOC ∧
          (s.chip.plc_status = PLC_STATUS_ENABLE ∨ s.chip.plc_status = PLC_STATUS_WAIT) ∧
          intval ≠ s.chip.sm_soc))) ∧
    ((oplus_plc_check_plc_ibus s w).1.chip.data.init_sm_soc = s.chip.data.init_sm_soc ∧
      (oplus_plc_check_plc_ibus s w).1.chip.data.init_soc = s.chip.data.init_soc ∧
      (oplus_plc_check_plc_ibus s w).1.chip.data.init_ui_soc =
        (if captures (oplus_plc_check_plc_ibus s w).1.out = captures s.out then
          s.chip.data.init_ui_soc else s.chip.ui_soc) ∧
      (captures (oplus_plc_check_plc_ibus s w).1.out ≠ captures s.out ↔
        (policy_exit s.chip w = true ∧ oplus_plc_get_vote_allow_soc s.chip w < 0))) ∧
    (∀ type : Int,
      (oplus_plc_get_deleta_track_msg s type).chip.data.init_sm_soc = s.chip.data.init_sm_soc ∧
      (oplus_plc_get_deleta_track_msg s type).chip.data.init_soc = s.chip.data.init_soc ∧
      (oplus_plc_get_deleta_track_msg s type).chip.data.init_ui_soc = s.chip.ui_soc ∧
      (oplus_plc_get_deleta_track_msg s type).out = s.out ++ [plc_effect.track_msg type] ∧
      captures (oplus_plc_get_deleta_track_msg s type).out = captures s.out + 1) := by
  refine ⟨fun hi => ⟨(tick_baseline s w hi).1, (tick_baseline s w hi).2.1, tick_capture s w hi⟩,
    ?_, ?_, fun type => ⟨rfl, rfl, rfl, rfl, ?_⟩⟩
  · intro type id intval
    refine ⟨?_, ?_, (comm_capture s type id intval).2, (comm_capture s type id intval).1⟩
    · cases type <;> cases id <;>
        first
          | rfl
          | (simp only [oplus_plc_comm_subs_callback]
             split_ifs <;> rfl)
    · cases type <;> cases id <;>
        first
          | rfl
          | (simp only [oplus_plc_comm_subs_callback]
             split_ifs <;> rfl)
  · refine ⟨?_, ?_, check_plc_ibus_capture s w, check_plc_ibus_captures s w⟩
    · rw [check_plc_ibus_nf]
    · rw [check_plc_ibus_nf]
  · show captures (s.out ++ [plc_effect.track_msg type]) = captures s.out + 1
    rw [captures_append]
    rfl

/-- Witness for C17: a tick on the running sample session (baseline 50, UI SOC
now 52) records no capture, so it leaves `init_sm_soc` and `init_ui_soc` at
50. -/
theorem baseline_frame_witness :
    chip_baselined.data.init_status = true ∧
    (oplus_plc_monitor_current_work ⟨chip_baselined, []⟩ (world_of 0 0)).chip.data.init_sm_soc
      = 50 ∧
    (oplus_plc_monitor_current_work ⟨chip_baselined, []⟩ (world_of 0 0)).chip.data.init_ui_soc
      = 50 :=
  ⟨by decide,
    ((baseline_frame ⟨chip_baselined, []⟩ (world_of 0 0)).1 (by decide)).1,
    ((baseline_frame ⟨chip_baselined, []⟩ (world_of 0 0)).1 (by decide)).2.2.trans
      (by decide)⟩

/-- C18: for every sequence of calls of `oplus_chg_plc_upload_plc_info` at
non-decreasing clock times, started from the initial statics, at most 3 calls
reach the publish step within any window `[T, T + 86400]`; and a call made
when 3 are counted and no more than 86400 s have passed since the last call
that passed the throttle returns `-ENODEV` without publishing and leaves the
statics as they were, while every call that is not so rejected records its own
time as the time of the last accepted call, and a call made more than 86400 s
after that time is never rejected by the throttle. -/
theorem upload_throttle (xs : List upload_call)
    (h : xs.Pairwise (fun a b => a.curr_time ≤ b.curr_time)) :
    (∀ T : Int, window_count (upload_run xs).2 T ≤ 3) ∧
    (upload_run xs).1.upload_count ≤ 3 ∧
    (∀ (st : upload_statics) (x : upload_call), st.upload_count ≥ TRACK_UPLOAD_COUNT_MAX →
      x.curr_time - st.pre_upload_time ≤ TRACK_DEVICE_ABNORMAL_UPLOAD_PERIOD →
      oplus_chg_plc_upload_plc_info st x = ⟨st, -ENODEV, false⟩) ∧
    (∀ (st : upload_statics) (x : upload_call),
      ¬ (st.upload_count ≥ TRACK_UPLOAD_COUNT_MAX ∧
        x.curr_time - st.pre_upload_time ≤ TRACK_DEVICE_ABNORMAL_UPLOAD_PERIOD) →
      (oplus_chg_plc_upload_plc_info st x).statics.pre_upload_time = x.curr_time ∧
      ((oplus_chg_plc_upload_plc_info st x).published = true ↔
        (x.err_topic_found = true ∧ x.msg_alloc = true))) := by
  have hinv := upload_run_inv xs h
  refine ⟨hinv.2.2.2.2.2, hinv.2.1, ?_, ?_⟩
  · intro st x hc ht
    simp only [TRACK_UPLOAD_COUNT_MAX, TRACK_DEVICE_ABNORMAL_UPLOAD_PERIOD] at hc ht
    have hr : ¬ (x.curr_time - st.pre_upload_time > 24 * 3600) := by omega
    simp only [oplus_chg_plc_upload_plc_info, TRACK_UPLOAD_COUNT_MAX,
      TRACK_DEVICE_ABNORMAL_UPLOAD_PERIOD, hr, if_false, hc, if_true]
  · intro st x hn
    simp only [TRACK_UPLOAD_COUNT_MAX, TRACK_DEVICE_ABNORMAL_UPLOAD_PERIOD] at hn
    simp only [oplus_chg_plc_upload_plc_info, TRACK_UPLOAD_COUNT_MAX,
      TRACK_DEVICE_ABNORMAL_UPLOAD_PERIOD]
    by_cases hr : x.curr_time - st.pre_upload_time > 24 * 3600
    · simp only [hr, if_true]
      rw [if_neg (by norm_num)]
      cases hf : x.err_topic_found <;> cases ha : x.msg_alloc <;> simp
    · have hc : ¬ (st.upload_count ≥ 3) := fun hc => hn ⟨hc, by omega⟩
      simp only [hr, if_false, hc]
      cases hf : x.err_topic_found <;> cases ha : x.msg_alloc <;> simp

/-- Witness for C18: of the five sample calls at times 0, 1, 2, 3 and 90000 no
more than three publish in the window starting at 0. -/
theorem upload_throttle_witness :
    window_count (upload_run sample_upload_calls).2 0 ≤ 3 :=
  (upload_throttle sample_upload_calls (by simp [sample_upload_calls])).1 0

/-- C19: in every state reached from the zero-initialised instance (and from
any instance whose `plc_curr` is 0 or in range) by any sequence of control-loop
ticks, enable-state callbacks, topic callbacks, the UFCS subscription and the
delayed works, `plc_curr` is 0 or lies in `[200, 1500]`; each entry leaves
`plc_curr` as it was or assigns 0, `PLC_IBUS_DEFAULT` or a clamped value; and a
tick that completes a sample cycle without the low-battery-current guard
firing ends with `plc_curr` equal to the policy result, whether or not the
high-bus-current guard fired in that tick. -/
theorem plc_curr_invariant :
    (∀ es : List plc_event, curr_in_range (run_events ⟨chip_zero, []⟩ es).chip.plc_curr) ∧
    (∀ (s : plc_run) (es : List plc_event), curr_in_range s.chip.plc_curr →
      curr_in_range (run_events s es).chip.plc_curr) ∧
    (∀ (s : plc_run) (e : plc_event),
      (plc_event_step s e).chip.plc_curr = s.chip.plc_curr ∨
      (plc_event_step s e).chip.plc_curr = 0 ∨
      (plc_event_step s e).chip.plc_curr = PLC_IBUS_DEFAULT ∨
      ∃ x : Int, (plc_event_step s e).chip.plc_curr = ibus_clamp x) ∧
    (∀ (s : plc_run) (w : plc_world) (c1 : oplus_chg_plc),
      tick_ports_check s.chip w = (c1, true) →
      (c1.plc_status = PLC_STATUS_ENABLE ∨ c1.plc_status = PLC_STATUS_WAIT) →
      c1.ufcs_online = true → c1.plc_support = CHG_PROTOCOL_UFCS → c1.plc_buck = 0 →
      (oplus_plc_read_ibatt (oplus_plc_init_status ⟨c1, s.out⟩ w) w).chip.data.plc_check
        = true →
      ¬ ((oplus_plc_read_ibatt (oplus_plc_init_status ⟨c1, s.out⟩ w) w).chip.ufcs_charging
          = true ∧
        low_next (oplus_plc_read_ibatt (oplus_plc_init_status ⟨c1, s.out⟩ w) w).chip w
          = PLC_IBAT_LOW_CNTS ∧
        (oplus_plc_read_ibatt (oplus_plc_init_status ⟨c1, s.out⟩ w) w).chip.plc_status
          = PLC_STATUS_ENABLE ∧
        oplus_plc_get_vote_allow_plc
          (oplus_plc_read_ibatt (oplus_plc_init_status ⟨c1, s.out⟩ w) w).chip w ≤ 0) →
      (oplus_plc_monitor_current_work s w).chip.plc_curr =
        (oplus_plc_check_plc_ibus (oplus_plc_get_avg_ibus
          (oplus_plc_read_ibatt (oplus_plc_init_status ⟨c1, s.out⟩ w) w)).1 w).2) := by
  refine ⟨fun es => run_events_curr_in_range es _ (Or.inl rfl),
    fun s es h => run_events_curr_in_range es s h, event_curr, ?_⟩
  intro s w c1 hp hs ho hu hb hc hl
  rw [tick_complete_curr s w c1 hp hs ho hu hb hc hl, get_avg_ibus_nf, check_plc_ibus_nf]
  rfl

/-- Witness for C19: the sample tick completes a cycle on which the
high-bus-current guard fires (it publishes 0 first), and ends with `plc_curr`
at the policy result 1500. -/
theorem plc_curr_invariant_witness :
    plc_effect.push_plc_curr 0 ∈
      (oplus_plc_monitor_current_work ⟨chip_over_tick, []⟩ world_vote_asserted).out ∧
    (oplus_plc_check_plc_ibus (oplus_plc_get_avg_ibus
      (oplus_plc_read_ibatt (oplus_plc_init_status ⟨chip_over_tick, []⟩ world_vote_asserted)
        world_vote_asserted)).1 world_vote_asserted).2 = 1500 ∧
    (oplus_plc_monitor_current_work ⟨chip_over_tick, []⟩ world_vote_asserted).chip.plc_curr =
      (oplus_plc_check_plc_ibus (oplus_plc_get_avg_ibus
        (oplus_plc_read_ibatt (oplus_plc_init_status ⟨chip_over_tick, []⟩ world_vote_asserted)
          world_vote_asserted)).1 world_vote_asserted).2 :=
  ⟨by decide, by decide,
    plc_curr_invariant.2.2.2 ⟨chip_over_tick, []⟩ world_vote_asserted chip_over_tick
      (by decide) (by decide) (by decide) (by decide) (by decide) (by decide) (by decide)⟩

end OplusPlc
